import Mathlib

/-!
Socket-layer service translation (`bpf/bpf_sock.c`).

A shallow embedding of the cgroup socket hooks of `bpf/bpf_sock.c` and theorems about them.

Conventions of the embedding.

* Machine integers are `Nat`; a narrowing cast of the source (`(__be16)`, `(__u16)`, `(__u8)`)
  is an explicit `%`. Return codes are `Int`.
* A C function that writes through a pointer argument returns the written object next to its
  result (`lb4_key *key` becomes an input key and an output key).
* A BPF hash map is a total function from keys to `Option` values. Eviction by the LRU
  flavour of the reverse-NAT maps is a property of the storage engine and is not modelled.
* Build-time macros, the service/backend/endpoint tables and the helpers of `lib/*.h` are not
  part of this file of the repository: they are parameters (`Config`, `Env`), and what a kernel
  helper answers during one run of a hook is a parameter too (`Kernel`). The IPv4 functions
  exist only in a build with `ENABLE_IPV4`, so they do not test it; the dual-stack adapters,
  which are compiled either way, do.
* Metrics and trace notifications (`update_metrics`, `send_trace_sock_notify4/6`) only feed
  observability and are left out.
-/

namespace BpfSock

/-! ## Constants -/

def SYS_REJECT : Int := 0
def SYS_PROCEED : Int := 1

def IPPROTO_TCP : Nat := 6
def IPPROTO_UDP : Nat := 17
def IPPROTO_UDPLITE : Nat := 136

def EPERM : Int := 1
def ENOENT : Int := 2
def ENXIO : Int := 6
def ENOMEM : Int := 12
def ENOTSUP : Int := 95
def EADDRINUSE : Int := 98
def ENOBUFS : Int := 105
def EHOSTUNREACH : Int := 113

/-- Build-time configuration: the feature macros tested with `#ifdef` / `is_defined`, the
constants of the node configuration and the byte-order macros of `lib/endian.h`. None of them
is defined in `bpf_sock.c`, so every definition below takes them as a parameter. -/
structure Config where
  ENABLE_IPV4 : Bool
  ENABLE_IPV6 : Bool
  ENABLE_NODEPORT : Bool
  ENABLE_L7_LB : Bool
  ENABLE_HEALTH_CHECK : Bool
  ENABLE_LOCAL_REDIRECT_POLICY : Bool
  ENABLE_SOCKET_LB_HOST_ONLY : Bool
  ENABLE_SERVICE_PROTOCOL_DIFFERENTIATION : Bool
  DISABLE_EXTERNAL_IP_MITIGATION : Bool
  ENABLE_MKE : Bool
  NODEPORT_PORT_MIN : Nat
  NODEPORT_PORT_MAX : Nat
  HOST_NETNS_COOKIE : Nat
  HOST_ID : Nat
  MARK_MAGIC_HEALTH : Nat
  MKE_HOST : Nat
  bpf_htonl : Nat → Nat
  bpf_htons : Nat → Nat
  bpf_ntohs : Nat → Nat

/-! ## Records -/

/-- The 128-bit address `union v6addr`, as its four 32-bit words `p1 .. p4`. -/
structure v6addr where
  p1 : Nat
  p2 : Nat
  p3 : Nat
  p4 : Nat
deriving DecidableEq, Repr

/-- What the kernel helpers (`get_socket_cookie`, `get_netns_cookie`, `get_socket_opt`,
`get_cgroup_classid`) report for the socket behind a hook context. `so_mark` is `none` when
`get_socket_opt` fails. -/
structure sock_ident where
  socket_cookie : Nat
  netns_cookie : Nat
  so_mark : Option Nat
  cgroup_classid : Nat
deriving DecidableEq, Repr

/-- The hook context `struct bpf_sock_addr`: the fields this file reads or writes, and the
socket identity the helpers see through it. -/
structure bpf_sock_addr where
  user_ip4 : Nat
  user_ip6 : v6addr
  user_port : Nat
  protocol : Nat
  sk : sock_ident
deriving DecidableEq, Repr

/-- The hook context `struct bpf_sock`. -/
structure bpf_sock where
  family : Nat
  protocol : Nat
  src_ip4 : Nat
  src_ip6 : v6addr
  src_port : Nat
  dst_ip4 : Nat
  dst_ip6 : v6addr
  dst_port : Nat
  sk : sock_ident
deriving DecidableEq, Repr

/-- Modelled from the spec: the flags of a `ServiceRecord` (section 3). The flag words of
`struct lb4_service` / `struct lb6_service` and their bit masks are declared in `lib/lb.h`. -/
structure svc_flags where
  is_external_ip : Bool
  is_hostport : Bool
  is_nodeport : Bool
  is_loadbalancer : Bool
  is_affinity : Bool
  is_local_redirect : Bool
  is_l7_loadbalancer : Bool
  is_l7_punt_proxy : Bool
  is_loopback : Bool
  is_dual_stack_peer : Bool
deriving DecidableEq, Repr

/-- The record `struct lb4_service`: the fields `bpf_sock.c` reads (`count`, `rev_nat_index`,
`backend_id` of a slot entry, `l7_lb_proxy_port`) and the flags. -/
structure lb4_service where
  count : Nat
  rev_nat_index : Nat
  backend_id : Nat
  l7_lb_proxy_port : Nat
  flags : svc_flags
deriving DecidableEq, Repr

/-- The key `struct lb4_key`. `scope` stands for the fields `bpf_sock.c` never names: its
designated initialisers zero them and only the lookup helpers touch them. -/
structure lb4_key where
  address : Nat
  dport : Nat
  backend_slot : Nat
  proto : Nat
  scope : Nat
deriving DecidableEq, Repr

/-- The record `struct lb4_backend`. -/
structure lb4_backend where
  address : Nat
  port : Nat
  proto : Nat
  flags : Nat
deriving DecidableEq, Repr

/-- The record `struct remote_endpoint_info`, of which only `sec_identity` is read. -/
structure remote_endpoint_info where
  sec_identity : Nat
deriving DecidableEq, Repr

/-- Key of `cilium_lb4_reverse_sk`. -/
structure ipv4_revnat_tuple where
  cookie : Nat
  address : Nat
  port : Nat
deriving DecidableEq, Repr

/-- Value of `cilium_lb4_reverse_sk`. -/
structure ipv4_revnat_entry where
  address : Nat
  port : Nat
  rev_nat_index : Nat
deriving DecidableEq, Repr

/-- The record `struct lb6_service`. -/
structure lb6_service where
  count : Nat
  rev_nat_index : Nat
  backend_id : Nat
  l7_lb_proxy_port : Nat
  flags : svc_flags
deriving DecidableEq, Repr

/-- The key `struct lb6_key`; `scope` as in `lb4_key`. -/
structure lb6_key where
  address : v6addr
  dport : Nat
  backend_slot : Nat
  proto : Nat
  scope : Nat
deriving DecidableEq, Repr

/-- The record `struct lb6_backend`. -/
structure lb6_backend where
  address : v6addr
  port : Nat
  proto : Nat
  flags : Nat
deriving DecidableEq, Repr

/-- Key of `cilium_lb6_reverse_sk`. -/
structure ipv6_revnat_tuple where
  cookie : Nat
  address : v6addr
  port : Nat
deriving DecidableEq, Repr

/-- Value of `cilium_lb6_reverse_sk`. -/
structure ipv6_revnat_entry where
  address : v6addr
  port : Nat
  rev_nat_index : Nat
deriving DecidableEq, Repr

/-- Modelled from the spec: the key of an `AffinityEntry` (section 3), a service and a client
identity. The affinity map and its key are declared in `lib/lb.h`; the helpers receive the
service record and the client id, so the service is named by its `rev_nat_index`. -/
structure lb_affinity_key where
  client_id : Nat
  rev_nat_id : Nat
deriving DecidableEq, Repr

/-- The peer recorded by the health-check bind hooks (`struct lb4_health`, field `peer`). -/
structure lb4_health where
  address : Nat
  port : Nat
  proto : Nat
deriving DecidableEq, Repr

/-- The peer recorded by the health-check bind hooks (`struct lb6_health`, field `peer`). -/
structure lb6_health where
  address : v6addr
  port : Nat
  proto : Nat
deriving DecidableEq, Repr

/-- The external collaborators that `bpf_sock.c` only reads: the service, slot and backend
tables behind the lookup helpers of `lib/lb.h`, the endpoint classifier of `lib/eps.h`, the
identity test of `lib/identity.h` and the local-redirect test. A lookup helper that takes
`struct lb4_key *` may rewrite the key, so it answers with the key as it leaves it. -/
structure Env where
  lb4_lookup_service : lb4_key → Bool → Option lb4_service × lb4_key
  __lb4_lookup_backend_slot : lb4_key → Option lb4_service
  __lb4_lookup_backend : Nat → Option lb4_backend
  lookup_ip4_remote_endpoint : Nat → Nat → Option remote_endpoint_info
  lb4_skip_xlate_from_ctx_to_svc : Nat → Nat → Nat → Bool
  lb6_lookup_service : lb6_key → Bool → Option lb6_service × lb6_key
  __lb6_lookup_backend_slot : lb6_key → Option lb6_service
  __lb6_lookup_backend : Nat → Option lb6_backend
  lookup_ip6_remote_endpoint : v6addr → Nat → Option remote_endpoint_info
  lb6_skip_xlate_from_ctx_to_svc : Nat → v6addr → Nat → Bool
  identity_is_remote_node : Nat → Bool

/-- What the kernel answers during one run of a hook: the value `get_prandom_u32` draws and
the errno of `map_update_elem` (`0` when the write succeeds, else the helper returns the
negated errno and writes nothing). -/
structure Kernel where
  get_prandom_u32 : Nat
  map_update_errno : Nat

/-- The maps the hooks write: the two reverse-NAT maps declared in `bpf_sock.c`, the affinity
maps and the health-check maps. -/
structure Maps where
  cilium_lb4_reverse_sk : ipv4_revnat_tuple → Option ipv4_revnat_entry
  cilium_lb6_reverse_sk : ipv6_revnat_tuple → Option ipv6_revnat_entry
  cilium_lb4_affinity : lb_affinity_key → Option Nat
  cilium_lb6_affinity : lb_affinity_key → Option Nat
  cilium_lb4_health : Nat → Option lb4_health
  cilium_lb6_health : Nat → Option lb6_health

/-- Result of a translation routine on a `struct bpf_sock_addr`: the returned code, the
context and the maps as the routine leaves them. -/
structure xlate_result where
  ret : Int
  ctx : bpf_sock_addr
  maps : Maps

/-- Result of a hook: the verdict (`SYS_PROCEED` / `SYS_REJECT`), the error handed to
`try_set_retval` if any, the context and the maps as the hook leaves them. -/
structure hook_result (α : Type) where
  verdict : Int
  retval : Option Int
  ctx : α
  maps : Maps

/-! ## BPF map helpers -/

/-- The helper `map_lookup_elem`. -/
def map_lookup_elem {κ ν : Type} (m : κ → Option ν) (key : κ) : Option ν := m key

/-- The helper `map_update_elem` with flags `0`: on success the map holds `val` under `key`
and every other key is untouched; on failure the map is unchanged. -/
def map_update_elem {κ ν : Type} [DecidableEq κ] (k : Kernel) (m : κ → Option ν) (key : κ)
    (val : ν) : Int × (κ → Option ν) :=
  if k.map_update_errno = 0 then (0, fun x => if x = key then some val else m x)
  else (-(k.map_update_errno : Int), m)

/-- The helper `map_delete_elem`: `0` when the key was present, `-ENOENT` otherwise. -/
def map_delete_elem {κ ν : Type} [DecidableEq κ] (m : κ → Option ν) (key : κ) :
    Int × (κ → Option ν) :=
  (if (m key).isSome then 0 else -ENOENT, fun x => if x = key then none else m x)

/-! ## Context accessors (lines 29-121) -/

def is_v4_loopback (cfg : Config) (daddr : Nat) : Bool :=
  (daddr &&& cfg.bpf_htonl 0xff000000) == cfg.bpf_htonl 0x7f000000

def is_v6_loopback (cfg : Config) (daddr : v6addr) : Bool :=
  decide (({ p1 := 0, p2 := 0, p3 := 0, p4 := cfg.bpf_htonl 1 } : v6addr) = daddr)

def ctx_protocol (ctx : bpf_sock_addr) : Nat := ctx.protocol % 256

def sk_protocol (ctx : bpf_sock) : Nat := ctx.protocol % 256

def ctx_dst_port (ctx : bpf_sock_addr) : Nat := ctx.user_port % 65536

def ctx_src_port (cfg : Config) (ctx : bpf_sock) : Nat :=
  cfg.bpf_htons (ctx.src_port % 65536)

def ctx_set_port (ctx : bpf_sock_addr) (dport : Nat) : bpf_sock_addr :=
  { ctx with user_port := dport }

def get_netns_cookie (sk : sock_ident) : Nat := sk.netns_cookie

def get_socket_cookie (sk : sock_ident) : Nat := sk.socket_cookie

/-- The helper `sock_local_cookie` of `lib/sock.h`: the socket cookie. -/
def sock_local_cookie (ctx : bpf_sock_addr) : Nat := get_socket_cookie ctx.sk

def task_in_extended_hostns (cfg : Config) (sk : sock_ident) : Bool :=
  if cfg.ENABLE_MKE then sk.cgroup_classid == cfg.MKE_HOST else false

/-- The function `ctx_in_hostns`; the cookie it stores through its second argument is
`get_netns_cookie` of the same context. -/
def ctx_in_hostns (cfg : Config) (sk : sock_ident) : Bool :=
  get_netns_cookie sk == cfg.HOST_NETNS_COOKIE || task_in_extended_hostns cfg sk

def sock_is_health_check (cfg : Config) (ctx : bpf_sock_addr) : Bool :=
  if cfg.ENABLE_HEALTH_CHECK then
    match ctx.sk.so_mark with
    | some val => val == cfg.MARK_MAGIC_HEALTH
    | none => false
  else false

def sock_select_slot (k : Kernel) (ctx : bpf_sock_addr) : Nat :=
  if ctx_protocol ctx = IPPROTO_TCP then k.get_prandom_u32 else sock_local_cookie ctx

def sock_proto_enabled (proto : Nat) : Bool :=
  if proto = IPPROTO_TCP then true
  else if proto = IPPROTO_UDPLITE ∨ proto = IPPROTO_UDP then true
  else false

/-! ## Flag accessors of `lib/lb.h` -/

/-- Modelled from the spec: `lb4_svc_is_nodeport` reads the flag `is_nodeport`. -/
def lb4_svc_is_nodeport (svc : lb4_service) : Bool := svc.flags.is_nodeport
/-- Modelled from the spec: `lb4_svc_is_external_ip` reads the flag `is_external_ip`. -/
def lb4_svc_is_external_ip (svc : lb4_service) : Bool := svc.flags.is_external_ip
/-- Modelled from the spec: `lb4_svc_is_hostport` reads the flag `is_hostport`. -/
def lb4_svc_is_hostport (svc : lb4_service) : Bool := svc.flags.is_hostport
/-- Modelled from the spec: `lb4_svc_is_loadbalancer` reads the flag `is_loadbalancer`. -/
def lb4_svc_is_loadbalancer (svc : lb4_service) : Bool := svc.flags.is_loadbalancer
/-- Modelled from the spec: `lb4_svc_is_loopback` reads the flag `is_loopback`. -/
def lb4_svc_is_loopback (svc : lb4_service) : Bool := svc.flags.is_loopback
/-- Modelled from the spec: `lb4_svc_is_affinity` reads the flag `is_affinity`. -/
def lb4_svc_is_affinity (svc : lb4_service) : Bool := svc.flags.is_affinity
/-- Modelled from the spec: `lb4_svc_is_localredirect` reads the flag `is_local_redirect`. -/
def lb4_svc_is_localredirect (svc : lb4_service) : Bool := svc.flags.is_local_redirect
/-- Modelled from the spec: `lb4_svc_is_l7_loadbalancer` reads the flag
`is_l7_loadbalancer`. -/
def lb4_svc_is_l7_loadbalancer (svc : lb4_service) : Bool := svc.flags.is_l7_loadbalancer
/-- Modelled from the spec: `__lb4_svc_is_l7_loadbalancer` reads the flag
`is_l7_loadbalancer`. -/
def __lb4_svc_is_l7_loadbalancer (svc : lb4_service) : Bool := svc.flags.is_l7_loadbalancer
/-- Modelled from the spec: `lb4_svc_is_l7_punt_proxy` reads the flag `is_l7_punt_proxy`. -/
def lb4_svc_is_l7_punt_proxy (svc : lb4_service) : Bool := svc.flags.is_l7_punt_proxy
/-- Modelled from the spec: `lb4_to_lb6_service` reads the flag `is_dual_stack_peer`. -/
def lb4_to_lb6_service (svc : lb4_service) : Bool := svc.flags.is_dual_stack_peer

/-- Modelled from the spec: `lb4_key_set_protocol` of `lib/lb.h` stores the protocol in the
key when services are told apart by protocol (section 3, `ServiceKey`), and does nothing
otherwise. -/
def lb4_key_set_protocol (cfg : Config) (key : lb4_key) (protocol : Nat) : lb4_key :=
  if cfg.ENABLE_SERVICE_PROTOCOL_DIFFERENTIATION then { key with proto := protocol } else key

/-- Modelled from the spec: `lb4_affinity_backend_id_by_netns` of `lib/lb.h` looks up the
`AffinityEntry` of (service, client identity) and answers its backend id, `0` when there is
none (section 4.2). -/
def lb4_affinity_backend_id_by_netns (maps : Maps) (svc : lb4_service) (client_cookie : Nat) :
    Nat :=
  match maps.cilium_lb4_affinity { client_id := client_cookie, rev_nat_id := svc.rev_nat_index } with
  | some backend_id => backend_id
  | none => 0

/-- Modelled from the spec: `lb4_update_affinity_by_netns` of `lib/lb.h` writes the
`AffinityEntry` of (service, client identity) with the chosen backend id (section 4.2). -/
def lb4_update_affinity_by_netns (maps : Maps) (svc : lb4_service) (client_cookie : Nat)
    (backend_id : Nat) : Maps :=
  { maps with cilium_lb4_affinity := fun x =>
      if x = { client_id := client_cookie, rev_nat_id := svc.rev_nat_index } then some backend_id
      else maps.cilium_lb4_affinity x }

/-! ## IPv4 (lines 123-634) -/

def sock4_update_revnat (k : Kernel) (maps : Maps) (ctx : bpf_sock_addr)
    (backend : lb4_backend) (orig_key : lb4_key) (rev_nat_id : Nat) : Int × Maps :=
  let key : ipv4_revnat_tuple :=
    { cookie := sock_local_cookie ctx, address := backend.address, port := backend.port }
  let val : ipv4_revnat_entry :=
    { address := orig_key.address, port := orig_key.dport, rev_nat_index := rev_nat_id }
  let tmp := map_lookup_elem maps.cilium_lb4_reverse_sk key
  if tmp = none ∨ tmp ≠ some val then
    let r := map_update_elem k maps.cilium_lb4_reverse_sk key val
    (r.1, { maps with cilium_lb4_reverse_sk := r.2 })
  else (0, maps)

def sock4_skip_xlate (cfg : Config) (env : Env) (svc : lb4_service) (address : Nat) : Bool :=
  if lb4_to_lb6_service svc then true
  else if (lb4_svc_is_external_ip svc ∧ ¬ cfg.DISABLE_EXTERNAL_IP_MITIGATION) ∨
      (lb4_svc_is_hostport svc ∧ ¬ is_v4_loopback cfg address) then
    match env.lookup_ip4_remote_endpoint address 0 with
    | none => true
    | some info => if info.sec_identity ≠ cfg.HOST_ID then true else false
  else false

def sock4_wildcard_lookup (cfg : Config) (env : Env) (key : lb4_key)
    (include_remote_hosts inv_match in_hostns : Bool) : Option lb4_service × lb4_key :=
  let service_port := cfg.bpf_ntohs key.dport
  if Bool.xor (decide (service_port < cfg.NODEPORT_PORT_MIN ∨
      service_port > cfg.NODEPORT_PORT_MAX)) inv_match then (none, key)
  else if in_hostns ∧ is_v4_loopback cfg key.address then
    env.lb4_lookup_service { key with address := 0 } true
  else
    match env.lookup_ip4_remote_endpoint key.address 0 with
    | some info =>
      if info.sec_identity = cfg.HOST_ID ∨
          (include_remote_hosts ∧ env.identity_is_remote_node info.sec_identity) then
        env.lb4_lookup_service { key with address := 0 } true
      else (none, key)
    | none => (none, key)

def sock4_wildcard_lookup_full (cfg : Config) (env : Env) (key : lb4_key) (in_hostns : Bool) :
    Option lb4_service × lb4_key :=
  if cfg.ENABLE_NODEPORT then
    let loopback := is_v4_loopback cfg key.address
    let orig_addr := key.address
    let r1 := sock4_wildcard_lookup cfg env key true false in_hostns
    if (match r1.1 with
        | some svc => lb4_svc_is_nodeport svc
        | none => false) then r1
    else
      let r2 := sock4_wildcard_lookup cfg env { r1.2 with address := orig_addr } false true
        in_hostns
      if (match r2.1 with
          | some svc => lb4_svc_is_hostport svc && (!lb4_svc_is_loopback svc || loopback)
          | none => false) then r2
      else (none, r2.2)
  else (none, key)

/-- The lookup sequence of `__sock4_xlate_fwd` (lines 290-297) and `__sock4_xlate_rev`
(lines 578-586): the exact lookup and, on a miss, the protocol restored in the key and
`sock4_wildcard_lookup_full`. -/
def sock4_lookup_with_wildcard (cfg : Config) (env : Env) (key : lb4_key) (protocol : Nat)
    (in_hostns : Bool) : Option lb4_service × lb4_key :=
  let r := env.lb4_lookup_service key true
  match r.1 with
  | some svc => (some svc, r.2)
  | none => sock4_wildcard_lookup_full cfg env (lb4_key_set_protocol cfg r.2 protocol) in_hostns

/-- The initialiser of `key` and `orig_key` in `__sock4_xlate_fwd` (lines 266-272). -/
def sock4_xlate_fwd_key (cfg : Config) (ctx : bpf_sock_addr) : lb4_key :=
  { address := ctx.user_ip4, dport := ctx_dst_port ctx, backend_slot := 0,
    proto := if cfg.ENABLE_SERVICE_PROTOCOL_DIFFERENTIATION then ctx_protocol ctx else 0,
    scope := 0 }

/-- Where the body of `__sock4_xlate_fwd` (lines 280-407) ends: at a `return`, or at the label
`out` with the chosen backend, the service and the maps after the affinity step. -/
inductive fwd4_exit where
  | ret (code : Int)
  | out (backend : lb4_backend) (svc : lb4_service) (maps : Maps)

/-- Lines 397-407 of `__sock4_xlate_fwd`: the backend check and the affinity write that follow
the selection. -/
def __sock4_xlate_fwd_selected (maps : Maps) (svc : lb4_service) (client_cookie : Nat)
    (backend : Option lb4_backend) (backend_id : Nat) (backend_from_affinity : Bool) :
    fwd4_exit :=
  match backend with
  | none => .ret (-EHOSTUNREACH)
  | some b =>
    if lb4_svc_is_affinity svc ∧ ¬ backend_from_affinity then
      .out b svc (lb4_update_affinity_by_netns maps svc client_cookie backend_id)
    else .out b svc maps

/-- Lines 383-407 of `__sock4_xlate_fwd`: the fresh selection, taken when `backend_id == 0`. -/
def __sock4_xlate_fwd_slot (env : Env) (k : Kernel) (maps : Maps) (ctx_full : bpf_sock_addr)
    (svc : lb4_service) (key : lb4_key) (client_cookie : Nat) : fwd4_exit :=
  let key := { key with backend_slot := ((sock_select_slot k ctx_full % svc.count) + 1) % 65536 }
  match env.__lb4_lookup_backend_slot key with
  | none => .ret (-EHOSTUNREACH)
  | some backend_slot =>
    let backend_id := backend_slot.backend_id
    __sock4_xlate_fwd_selected maps svc client_cookie (env.__lb4_lookup_backend backend_id)
      backend_id false

/-- Lines 358-407 of `__sock4_xlate_fwd`: the backend selection, with the affinity lookup
first and the fresh selection when it gives no usable backend. -/
def __sock4_xlate_fwd_select (env : Env) (k : Kernel) (maps : Maps) (ctx_full : bpf_sock_addr)
    (svc : lb4_service) (key : lb4_key) (client_cookie : Nat) : fwd4_exit :=
  if lb4_svc_is_affinity svc then
    let backend_id := lb4_affinity_backend_id_by_netns maps svc client_cookie
    if backend_id ≠ 0 then
      match env.__lb4_lookup_backend backend_id with
      | some b => __sock4_xlate_fwd_selected maps svc client_cookie (some b) backend_id true
      | none => __sock4_xlate_fwd_slot env k maps ctx_full svc key client_cookie
    else __sock4_xlate_fwd_slot env k maps ctx_full svc key client_cookie
  else __sock4_xlate_fwd_slot env k maps ctx_full svc key client_cookie

/-- Lines 259-407 of `__sock4_xlate_fwd`: everything before the label `out`. -/
def __sock4_xlate_fwd_body (cfg : Config) (env : Env) (k : Kernel) (maps : Maps)
    (ctx ctx_full : bpf_sock_addr) (udp_only : Bool) : fwd4_exit :=
  let client_cookie := get_netns_cookie ctx_full.sk
  let in_hostns := ctx_in_hostns cfg ctx_full.sk
  let protocol := ctx_protocol ctx
  let key := sock4_xlate_fwd_key cfg ctx
  let orig_key := key
  if cfg.ENABLE_SOCKET_LB_HOST_ONLY ∧ ¬ in_hostns then .ret (- ENXIO)
  else if ¬ udp_only ∧ ¬ sock_proto_enabled protocol then .ret (-ENOTSUP)
  else
    let r := sock4_lookup_with_wildcard cfg env key protocol in_hostns
    match r.1 with
    | none => .ret (- ENXIO)
    | some svc =>
      if svc.count = 0 ∧ ¬ lb4_svc_is_l7_loadbalancer svc then .ret (-EHOSTUNREACH)
      else if lb4_svc_is_l7_punt_proxy svc then .ret SYS_PROCEED
      else if sock4_skip_xlate cfg env svc orig_key.address then .ret (-EPERM)
      else if cfg.ENABLE_LOCAL_REDIRECT_POLICY ∧ lb4_svc_is_localredirect svc ∧
          env.lb4_skip_xlate_from_ctx_to_svc (get_netns_cookie ctx_full.sk) orig_key.address
            orig_key.dport then .ret (- ENXIO)
      else if cfg.ENABLE_L7_LB ∧ lb4_svc_is_l7_loadbalancer svc then
        if in_hostns then
          .out { address := cfg.bpf_htonl 0x7f000001, port := svc.l7_lb_proxy_port % 65536,
                 proto := 0, flags := 0 } svc maps
        else .ret 0
      else __sock4_xlate_fwd_select env k maps ctx_full svc r.2 client_cookie

/-- Lines 412-421 of `__sock4_xlate_fwd`: the code at the label `out`. -/
def __sock4_xlate_fwd_out (k : Kernel) (maps : Maps) (ctx ctx_full : bpf_sock_addr)
    (orig_key : lb4_key) (backend : lb4_backend) (svc : lb4_service) : xlate_result :=
  let r := sock4_update_revnat k maps ctx_full backend orig_key svc.rev_nat_index
  if r.1 < 0 then { ret := -ENOMEM, ctx := ctx, maps := r.2 }
  else { ret := 0, ctx := ctx_set_port { ctx with user_ip4 := backend.address } backend.port,
         maps := r.2 }

def __sock4_xlate_fwd (cfg : Config) (env : Env) (k : Kernel) (maps : Maps)
    (ctx ctx_full : bpf_sock_addr) (udp_only : Bool) : xlate_result :=
  match __sock4_xlate_fwd_body cfg env k maps ctx ctx_full udp_only with
  | .ret code => { ret := code, ctx := ctx, maps := maps }
  | .out backend svc maps1 =>
    __sock4_xlate_fwd_out k maps1 ctx ctx_full (sock4_xlate_fwd_key cfg ctx) backend svc

def cil_sock4_connect (cfg : Config) (env : Env) (k : Kernel) (maps : Maps)
    (ctx : bpf_sock_addr) : hook_result bpf_sock_addr :=
  if cfg.ENABLE_HEALTH_CHECK ∧ sock_is_health_check cfg ctx then
    { verdict := SYS_PROCEED, retval := none, ctx := ctx, maps := maps }
  else
    let r := __sock4_xlate_fwd cfg env k maps ctx ctx false
    if r.ret = -EHOSTUNREACH ∨ r.ret = -ENOMEM then
      { verdict := SYS_REJECT, retval := some r.ret, ctx := r.ctx, maps := r.maps }
    else { verdict := SYS_PROCEED, retval := none, ctx := r.ctx, maps := r.maps }

/-- The initialiser of `key` in `__sock4_post_bind` (lines 449-455). -/
def sock4_post_bind_key (cfg : Config) (ctx : bpf_sock) : lb4_key :=
  { address := ctx.src_ip4, dport := ctx_src_port cfg ctx, backend_slot := 0,
    proto := if cfg.ENABLE_SERVICE_PROTOCOL_DIFFERENTIATION then sk_protocol ctx else 0,
    scope := 0 }

/-- The lookup sequence of `__sock4_post_bind` (lines 461-472): the exact lookup and, on a
miss, the protocol restored in the key and `sock4_wildcard_lookup` without remote hosts, not
inverted, as in the host namespace. -/
def sock4_post_bind_lookup (cfg : Config) (env : Env) (key : lb4_key) (protocol : Nat) :
    Option lb4_service :=
  let r := env.lb4_lookup_service key true
  match r.1 with
  | some svc => some svc
  | none =>
    (sock4_wildcard_lookup cfg env (lb4_key_set_protocol cfg r.2 protocol) false false true).1

def __sock4_post_bind (cfg : Config) (env : Env) (ctx : bpf_sock) (ctx_full : bpf_sock) : Int :=
  let protocol := sk_protocol ctx
  let key := sock4_post_bind_key cfg ctx
  if ¬ sock_proto_enabled protocol ∨ ¬ ctx_in_hostns cfg ctx_full.sk then 0
  else
    match sock4_post_bind_lookup cfg env key protocol with
    | some svc =>
      if (lb4_svc_is_nodeport svc ∨ lb4_svc_is_external_ip svc ∨ lb4_svc_is_loadbalancer svc) ∧
          ¬ __lb4_svc_is_l7_loadbalancer svc ∧ ¬ lb4_svc_is_l7_punt_proxy svc then -EADDRINUSE
      else 0
    | none => 0

/-- The initialiser of `key` in `__sock4_xlate_rev` (lines 559-563). -/
def sock4_xlate_rev_tuple (ctx ctx_full : bpf_sock_addr) : ipv4_revnat_tuple :=
  { cookie := sock_local_cookie ctx_full, address := ctx.user_ip4, port := ctx_dst_port ctx }

/-- The initialiser of `svc_key` in `__sock4_xlate_rev` (lines 570-576). -/
def sock4_xlate_rev_key (cfg : Config) (ctx : bpf_sock_addr) (val : ipv4_revnat_entry) :
    lb4_key :=
  { address := val.address, dport := val.port, backend_slot := 0,
    proto := if cfg.ENABLE_SERVICE_PROTOCOL_DIFFERENTIATION then ctx_protocol ctx else 0,
    scope := 0 }

def __sock4_xlate_rev (cfg : Config) (env : Env) (maps : Maps) (ctx ctx_full : bpf_sock_addr) :
    xlate_result :=
  let protocol := ctx_protocol ctx
  let key := sock4_xlate_rev_tuple ctx ctx_full
  match map_lookup_elem maps.cilium_lb4_reverse_sk key with
  | some val =>
    let svc_key := sock4_xlate_rev_key cfg ctx val
    let r := sock4_lookup_with_wildcard cfg env svc_key protocol (ctx_in_hostns cfg ctx_full.sk)
    match r.1 with
    | none =>
      { ret := -ENOENT, ctx := ctx,
        maps := { maps with
          cilium_lb4_reverse_sk := (map_delete_elem maps.cilium_lb4_reverse_sk key).2 } }
    | some svc =>
      if svc.rev_nat_index ≠ val.rev_nat_index ∨
          (svc.count = 0 ∧ ¬ lb4_svc_is_l7_loadbalancer svc) then
        { ret := -ENOENT, ctx := ctx,
          maps := { maps with
            cilium_lb4_reverse_sk := (map_delete_elem maps.cilium_lb4_reverse_sk key).2 } }
      else
        { ret := 0, ctx := ctx_set_port { ctx with user_ip4 := val.address } val.port,
          maps := maps }
  | none => { ret := - ENXIO, ctx := ctx, maps := maps }

def cil_sock4_sendmsg (cfg : Config) (env : Env) (k : Kernel) (maps : Maps)
    (ctx : bpf_sock_addr) : hook_result bpf_sock_addr :=
  let r := __sock4_xlate_fwd cfg env k maps ctx ctx true
  if r.ret = -EHOSTUNREACH ∨ r.ret = -ENOMEM then
    { verdict := SYS_REJECT, retval := some r.ret, ctx := r.ctx, maps := r.maps }
  else { verdict := SYS_PROCEED, retval := none, ctx := r.ctx, maps := r.maps }

def cil_sock4_recvmsg (cfg : Config) (env : Env) (maps : Maps) (ctx : bpf_sock_addr) :
    hook_result bpf_sock_addr :=
  let r := __sock4_xlate_rev cfg env maps ctx ctx
  { verdict := SYS_PROCEED, retval := none, ctx := r.ctx, maps := r.maps }

/-! ## IPv6 and the dual-stack adapter (lines 636-1260) -/

/-- Modelled from the spec: `lb6_svc_is_nodeport` reads the flag `is_nodeport`. -/
def lb6_svc_is_nodeport (svc : lb6_service) : Bool := svc.flags.is_nodeport
/-- Modelled from the spec: `lb6_svc_is_external_ip` reads the flag `is_external_ip`. -/
def lb6_svc_is_external_ip (svc : lb6_service) : Bool := svc.flags.is_external_ip
/-- Modelled from the spec: `lb6_svc_is_hostport` reads the flag `is_hostport`. -/
def lb6_svc_is_hostport (svc : lb6_service) : Bool := svc.flags.is_hostport
/-- Modelled from the spec: `lb6_svc_is_loadbalancer` reads the flag `is_loadbalancer`. -/
def lb6_svc_is_loadbalancer (svc : lb6_service) : Bool := svc.flags.is_loadbalancer
/-- Modelled from the spec: `lb6_svc_is_loopback` reads the flag `is_loopback`. -/
def lb6_svc_is_loopback (svc : lb6_service) : Bool := svc.flags.is_loopback
/-- Modelled from the spec: `lb6_svc_is_affinity` reads the flag `is_affinity`. -/
def lb6_svc_is_affinity (svc : lb6_service) : Bool := svc.flags.is_affinity
/-- Modelled from the spec: `lb6_svc_is_localredirect` reads the flag `is_local_redirect`. -/
def lb6_svc_is_localredirect (svc : lb6_service) : Bool := svc.flags.is_local_redirect
/-- Modelled from the spec: `lb6_svc_is_l7_loadbalancer` reads the flag
`is_l7_loadbalancer`. -/
def lb6_svc_is_l7_loadbalancer (svc : lb6_service) : Bool := svc.flags.is_l7_loadbalancer
/-- Modelled from the spec: `__lb6_svc_is_l7_loadbalancer` reads the flag
`is_l7_loadbalancer`. -/
def __lb6_svc_is_l7_loadbalancer (svc : lb6_service) : Bool := svc.flags.is_l7_loadbalancer
/-- Modelled from the spec: `lb6_svc_is_l7_punt_proxy` reads the flag `is_l7_punt_proxy`. -/
def lb6_svc_is_l7_punt_proxy (svc : lb6_service) : Bool := svc.flags.is_l7_punt_proxy
/-- Modelled from the spec: `lb6_to_lb4_service` reads the flag `is_dual_stack_peer`. -/
def lb6_to_lb4_service (svc : lb6_service) : Bool := svc.flags.is_dual_stack_peer

/-- Modelled from the spec: `lb6_key_set_protocol` of `lib/lb.h`, as `lb4_key_set_protocol`. -/
def lb6_key_set_protocol (cfg : Config) (key : lb6_key) (protocol : Nat) : lb6_key :=
  if cfg.ENABLE_SERVICE_PROTOCOL_DIFFERENTIATION then { key with proto := protocol } else key

/-- Modelled from the spec: `lb6_affinity_backend_id_by_netns` of `lib/lb.h`, as
`lb4_affinity_backend_id_by_netns`. -/
def lb6_affinity_backend_id_by_netns (maps : Maps) (svc : lb6_service) (client_cookie : Nat) :
    Nat :=
  match maps.cilium_lb6_affinity { client_id := client_cookie, rev_nat_id := svc.rev_nat_index } with
  | some backend_id => backend_id
  | none => 0

/-- Modelled from the spec: `lb6_update_affinity_by_netns` of `lib/lb.h`, as
`lb4_update_affinity_by_netns`. -/
def lb6_update_affinity_by_netns (maps : Maps) (svc : lb6_service) (client_cookie : Nat)
    (backend_id : Nat) : Maps :=
  { maps with cilium_lb6_affinity := fun x =>
      if x = { client_id := client_cookie, rev_nat_id := svc.rev_nat_index } then some backend_id
      else maps.cilium_lb6_affinity x }

/-- Modelled from the spec: `is_v4_in_v6` tests for the IPv4-mapped form `::ffff:A`
(section 4.5): the first two words are zero and the third is `0x0000ffff` in network byte
order. -/
def is_v4_in_v6 (cfg : Config) (daddr : v6addr) : Bool :=
  daddr.p1 == 0 && daddr.p2 == 0 && daddr.p3 == cfg.bpf_htonl 0xffff

/-- Modelled from the spec: `build_v4_in_v6` builds the IPv4-mapped form `::ffff:A`
(section 4.5) of the address `v4`. -/
def build_v4_in_v6 (cfg : Config) (v4 : Nat) : v6addr :=
  { p1 := 0, p2 := 0, p3 := cfg.bpf_htonl 0xffff, p4 := v4 }

def sock6_update_revnat (k : Kernel) (maps : Maps) (ctx : bpf_sock_addr)
    (backend : lb6_backend) (orig_key : lb6_key) (rev_nat_index : Nat) : Int × Maps :=
  let key : ipv6_revnat_tuple :=
    { cookie := sock_local_cookie ctx, address := backend.address, port := backend.port }
  let val : ipv6_revnat_entry :=
    { address := orig_key.address, port := orig_key.dport, rev_nat_index := rev_nat_index }
  let tmp := map_lookup_elem maps.cilium_lb6_reverse_sk key
  if tmp = none ∨ tmp ≠ some val then
    let r := map_update_elem k maps.cilium_lb6_reverse_sk key val
    (r.1, { maps with cilium_lb6_reverse_sk := r.2 })
  else (0, maps)

def ctx_get_v6_address (ctx : bpf_sock_addr) : v6addr := ctx.user_ip6

def ctx_get_v6_src_address (ctx : bpf_sock) : v6addr := ctx.src_ip6

def ctx_set_v6_address (ctx : bpf_sock_addr) (addr : v6addr) : bpf_sock_addr :=
  { ctx with user_ip6 := addr }

def sock6_skip_xlate (cfg : Config) (env : Env) (svc : lb6_service) (address : v6addr) : Bool :=
  if lb6_to_lb4_service svc then true
  else if (lb6_svc_is_external_ip svc ∧ ¬ cfg.DISABLE_EXTERNAL_IP_MITIGATION) ∨
      (lb6_svc_is_hostport svc ∧ ¬ is_v6_loopback cfg address) then
    match env.lookup_ip6_remote_endpoint address 0 with
    | none => true
    | some info => if info.sec_identity ≠ cfg.HOST_ID then true else false
  else false

def sock6_wildcard_lookup (cfg : Config) (env : Env) (key : lb6_key)
    (include_remote_hosts inv_match in_hostns : Bool) : Option lb6_service × lb6_key :=
  let service_port := cfg.bpf_ntohs key.dport
  if Bool.xor (decide (service_port < cfg.NODEPORT_PORT_MIN ∨
      service_port > cfg.NODEPORT_PORT_MAX)) inv_match then (none, key)
  else if in_hostns ∧ is_v6_loopback cfg key.address then
    env.lb6_lookup_service { key with address := { p1 := 0, p2 := 0, p3 := 0, p4 := 0 } } true
  else
    match env.lookup_ip6_remote_endpoint key.address 0 with
    | some info =>
      if info.sec_identity = cfg.HOST_ID ∨
          (include_remote_hosts ∧ env.identity_is_remote_node info.sec_identity) then
        env.lb6_lookup_service { key with address := { p1 := 0, p2 := 0, p3 := 0, p4 := 0 } } true
      else (none, key)
    | none => (none, key)

def sock6_wildcard_lookup_full (cfg : Config) (env : Env) (key : lb6_key) (in_hostns : Bool) :
    Option lb6_service × lb6_key :=
  if cfg.ENABLE_NODEPORT then
    let loopback := is_v6_loopback cfg key.address
    let orig_address := key.address
    let r1 := sock6_wildcard_lookup cfg env key true false in_hostns
    if (match r1.1 with
        | some svc => lb6_svc_is_nodeport svc
        | none => false) then r1
    else
      let r2 := sock6_wildcard_lookup cfg env { r1.2 with address := orig_address } false true
        in_hostns
      if (match r2.1 with
          | some svc => lb6_svc_is_hostport svc && (!lb6_svc_is_loopback svc || loopback)
          | none => false) then r2
      else (none, r2.2)
  else (none, key)

/-- The context `fake_ctx` the dual-stack adapters build with `memset` and three assignments
(lines 828-831, 1161-1164): every field zero but the protocol, the IPv4 address taken from the
last word of the IPv6 address, and the port. -/
def sock6_fake_ctx (ctx : bpf_sock_addr) (addr6 : v6addr) : bpf_sock_addr :=
  { user_ip4 := addr6.p4
    user_ip6 := { p1 := 0, p2 := 0, p3 := 0, p4 := 0 }
    user_port := ctx_dst_port ctx
    protocol := ctx_protocol ctx
    sk := { socket_cookie := 0, netns_cookie := 0, so_mark := none, cgroup_classid := 0 } }

def sock6_xlate_v4_in_v6 (cfg : Config) (env : Env) (k : Kernel) (maps : Maps)
    (ctx : bpf_sock_addr) (udp_only : Bool) : xlate_result :=
  if cfg.ENABLE_IPV4 then
    let addr6 := ctx_get_v6_address ctx
    if ¬ is_v4_in_v6 cfg addr6 then { ret := - ENXIO, ctx := ctx, maps := maps }
    else
      let fake_ctx := sock6_fake_ctx ctx addr6
      let r := __sock4_xlate_fwd cfg env k maps fake_ctx ctx udp_only
      if r.ret < 0 then { ret := r.ret, ctx := ctx, maps := r.maps }
      else
        let addr6 := build_v4_in_v6 cfg r.ctx.user_ip4
        { ret := 0
          ctx := ctx_set_port (ctx_set_v6_address ctx addr6) (r.ctx.user_port % 65536)
          maps := r.maps }
  else { ret := - ENXIO, ctx := ctx, maps := maps }

/-- The lookup sequence of `__sock6_xlate_fwd` (lines 1030-1037) and `__sock6_xlate_rev`
(lines 1205-1213): the exact lookup and, on a miss, the protocol restored in the key and
`sock6_wildcard_lookup_full`. -/
def sock6_lookup_with_wildcard (cfg : Config) (env : Env) (key : lb6_key) (protocol : Nat)
    (in_hostns : Bool) : Option lb6_service × lb6_key :=
  let r := env.lb6_lookup_service key true
  match r.1 with
  | some svc => (some svc, r.2)
  | none => sock6_wildcard_lookup_full cfg env (lb6_key_set_protocol cfg r.2 protocol) in_hostns

/-- The value of `key` and `orig_key` in `__sock6_xlate_fwd` after lines 1008-1028. -/
def sock6_xlate_fwd_key (cfg : Config) (ctx : bpf_sock_addr) : lb6_key :=
  { address := ctx_get_v6_address ctx, dport := ctx_dst_port ctx, backend_slot := 0,
    proto := if cfg.ENABLE_SERVICE_PROTOCOL_DIFFERENTIATION then ctx_protocol ctx else 0,
    scope := 0 }

/-- Where the IPv6 part of `__sock6_xlate_fwd` (lines 1021-1110) ends: at a `return`, at the
call of `sock6_xlate_v4_in_v6` when no IPv6 service is found, or at the label `out`. -/
inductive fwd6_exit where
  | ret (code : Int)
  | v4_in_v6
  | out (backend : lb6_backend) (svc : lb6_service) (maps : Maps)

/-- Lines 1100-1110 of `__sock6_xlate_fwd`. -/
def __sock6_xlate_fwd_selected (maps : Maps) (svc : lb6_service) (client_cookie : Nat)
    (backend : Option lb6_backend) (backend_id : Nat) (backend_from_affinity : Bool) :
    fwd6_exit :=
  match backend with
  | none => .ret (-EHOSTUNREACH)
  | some b =>
    if lb6_svc_is_affinity svc ∧ ¬ backend_from_affinity then
      .out b svc (lb6_update_affinity_by_netns maps svc client_cookie backend_id)
    else .out b svc maps

/-- Lines 1086-1110 of `__sock6_xlate_fwd`: the fresh selection. -/
def __sock6_xlate_fwd_slot (env : Env) (k : Kernel) (maps : Maps) (ctx : bpf_sock_addr)
    (svc : lb6_service) (key : lb6_key) (client_cookie : Nat) : fwd6_exit :=
  let key := { key with backend_slot := ((sock_select_slot k ctx % svc.count) + 1) % 65536 }
  match env.__lb6_lookup_backend_slot key with
  | none => .ret (-EHOSTUNREACH)
  | some backend_slot =>
    let backend_id := backend_slot.backend_id
    __sock6_xlate_fwd_selected maps svc client_cookie (env.__lb6_lookup_backend backend_id)
      backend_id false

/-- Lines 1074-1110 of `__sock6_xlate_fwd`: the backend selection. -/
def __sock6_xlate_fwd_select (env : Env) (k : Kernel) (maps : Maps) (ctx : bpf_sock_addr)
    (svc : lb6_service) (key : lb6_key) (client_cookie : Nat) : fwd6_exit :=
  if lb6_svc_is_affinity svc then
    let backend_id := lb6_affinity_backend_id_by_netns maps svc client_cookie
    if backend_id ≠ 0 then
      match env.__lb6_lookup_backend backend_id with
      | some b => __sock6_xlate_fwd_selected maps svc client_cookie (some b) backend_id true
      | none => __sock6_xlate_fwd_slot env k maps ctx svc key client_cookie
    else __sock6_xlate_fwd_slot env k maps ctx svc key client_cookie
  else __sock6_xlate_fwd_slot env k maps ctx svc key client_cookie

/-- Lines 1002-1110 of `__sock6_xlate_fwd` (the branch `ENABLE_IPV6`): everything before the
label `out`. -/
def __sock6_xlate_fwd_body (cfg : Config) (env : Env) (k : Kernel) (maps : Maps)
    (ctx : bpf_sock_addr) (udp_only : Bool) : fwd6_exit :=
  let client_cookie := get_netns_cookie ctx.sk
  let in_hostns := ctx_in_hostns cfg ctx.sk
  let protocol := ctx_protocol ctx
  if cfg.ENABLE_SOCKET_LB_HOST_ONLY ∧ ¬ in_hostns then .ret (- ENXIO)
  else if ¬ udp_only ∧ ¬ sock_proto_enabled protocol then .ret (-ENOTSUP)
  else
    let key := sock6_xlate_fwd_key cfg ctx
    let orig_key := key
    let r := sock6_lookup_with_wildcard cfg env key protocol in_hostns
    match r.1 with
    | none => .v4_in_v6
    | some svc =>
      if svc.count = 0 ∧ ¬ lb6_svc_is_l7_loadbalancer svc then .ret (-EHOSTUNREACH)
      else if lb6_svc_is_l7_punt_proxy svc then .ret SYS_PROCEED
      else if sock6_skip_xlate cfg env svc orig_key.address then .ret (-EPERM)
      else if cfg.ENABLE_LOCAL_REDIRECT_POLICY ∧ lb6_svc_is_localredirect svc ∧
          env.lb6_skip_xlate_from_ctx_to_svc (get_netns_cookie ctx.sk) orig_key.address
            orig_key.dport then .ret (- ENXIO)
      else if cfg.ENABLE_L7_LB ∧ lb6_svc_is_l7_loadbalancer svc then
        if in_hostns then
          .out { address := { p1 := 0, p2 := 0, p3 := 0, p4 := cfg.bpf_htonl 1 },
                 port := svc.l7_lb_proxy_port % 65536, proto := 0, flags := 0 } svc maps
        else .ret 0
      else __sock6_xlate_fwd_select env k maps ctx svc r.2 client_cookie

/-- Lines 1115-1124 of `__sock6_xlate_fwd`: the code at the label `out`. -/
def __sock6_xlate_fwd_out (k : Kernel) (maps : Maps) (ctx : bpf_sock_addr)
    (orig_key : lb6_key) (backend : lb6_backend) (svc : lb6_service) : xlate_result :=
  let r := sock6_update_revnat k maps ctx backend orig_key svc.rev_nat_index
  if r.1 < 0 then { ret := -ENOMEM, ctx := ctx, maps := r.2 }
  else { ret := 0, ctx := ctx_set_port (ctx_set_v6_address ctx backend.address) backend.port,
         maps := r.2 }

def __sock6_xlate_fwd (cfg : Config) (env : Env) (k : Kernel) (maps : Maps)
    (ctx : bpf_sock_addr) (udp_only : Bool) : xlate_result :=
  if cfg.ENABLE_IPV6 then
    match __sock6_xlate_fwd_body cfg env k maps ctx udp_only with
    | .ret code => { ret := code, ctx := ctx, maps := maps }
    | .v4_in_v6 => sock6_xlate_v4_in_v6 cfg env k maps ctx udp_only
    | .out backend svc maps1 =>
      __sock6_xlate_fwd_out k maps1 ctx (sock6_xlate_fwd_key cfg ctx) backend svc
  else sock6_xlate_v4_in_v6 cfg env k maps ctx udp_only

def cil_sock6_sendmsg (cfg : Config) (env : Env) (k : Kernel) (maps : Maps)
    (ctx : bpf_sock_addr) : hook_result bpf_sock_addr :=
  let r := __sock6_xlate_fwd cfg env k maps ctx true
  if r.ret = -EHOSTUNREACH ∨ r.ret = -ENOMEM then
    { verdict := SYS_REJECT, retval := some r.ret, ctx := r.ctx, maps := r.maps }
  else { verdict := SYS_PROCEED, retval := none, ctx := r.ctx, maps := r.maps }

/-! ## Bind hooks of the health checker, reverse translation for IPv6, socket release -/

def sock4_auto_bind (ctx : bpf_sock_addr) : bpf_sock_addr :=
  ctx_set_port { ctx with user_ip4 := 0 } 0

/-- The function `__sock4_pre_bind`: the returned code, the context and the maps. -/
def __sock4_pre_bind (k : Kernel) (maps : Maps) (ctx ctx_full : bpf_sock_addr) : xlate_result :=
  let key := get_socket_cookie ctx_full.sk
  let val : lb4_health :=
    { address := ctx.user_ip4, port := ctx_dst_port ctx, proto := ctx_protocol ctx }
  let r := map_update_elem k maps.cilium_lb4_health key val
  if r.1 = 0 then
    { ret := r.1, ctx := sock4_auto_bind ctx, maps := { maps with cilium_lb4_health := r.2 } }
  else { ret := r.1, ctx := ctx, maps := { maps with cilium_lb4_health := r.2 } }

def cil_sock4_pre_bind (cfg : Config) (k : Kernel) (maps : Maps) (ctx : bpf_sock_addr) :
    hook_result bpf_sock_addr :=
  if ¬ sock_proto_enabled (ctx_protocol ctx) ∨ ¬ ctx_in_hostns cfg ctx.sk then
    { verdict := SYS_PROCEED, retval := none, ctx := ctx, maps := maps }
  else if sock_is_health_check cfg ctx then
    let r := __sock4_pre_bind k maps ctx ctx
    if r.ret ≠ 0 then
      { verdict := SYS_REJECT, retval := some (-ENOBUFS), ctx := r.ctx, maps := r.maps }
    else { verdict := SYS_PROCEED, retval := none, ctx := r.ctx, maps := r.maps }
  else { verdict := SYS_PROCEED, retval := none, ctx := ctx, maps := maps }

/-- The context `fake_ctx` of `sock6_post_bind_v4_in_v6` (lines 858-861). -/
def sock6_post_bind_fake_ctx (ctx : bpf_sock) (addr6 : v6addr) : bpf_sock :=
  { family := 0
    protocol := sk_protocol ctx
    src_ip4 := addr6.p4
    src_ip6 := { p1 := 0, p2 := 0, p3 := 0, p4 := 0 }
    src_port := ctx.src_port
    dst_ip4 := 0
    dst_ip6 := { p1 := 0, p2 := 0, p3 := 0, p4 := 0 }
    dst_port := 0
    sk := { socket_cookie := 0, netns_cookie := 0, so_mark := none, cgroup_classid := 0 } }

def sock6_post_bind_v4_in_v6 (cfg : Config) (env : Env) (ctx : bpf_sock) : Int :=
  if cfg.ENABLE_IPV4 then
    let addr6 := ctx_get_v6_src_address ctx
    if ¬ is_v4_in_v6 cfg addr6 then 0
    else __sock4_post_bind cfg env (sock6_post_bind_fake_ctx ctx addr6) ctx
  else 0

/-- The value of `key` in `__sock6_post_bind` after line 883. -/
def sock6_post_bind_key (cfg : Config) (ctx : bpf_sock) : lb6_key :=
  { address := ctx_get_v6_src_address ctx, dport := ctx_src_port cfg ctx, backend_slot := 0,
    proto := if cfg.ENABLE_SERVICE_PROTOCOL_DIFFERENTIATION then sk_protocol ctx else 0,
    scope := 0 }

/-- The lookup sequence of `__sock6_post_bind` (lines 885-891). -/
def sock6_post_bind_lookup (cfg : Config) (env : Env) (key : lb6_key) (protocol : Nat) :
    Option lb6_service :=
  let r := env.lb6_lookup_service key true
  match r.1 with
  | some svc => some svc
  | none =>
    (sock6_wildcard_lookup cfg env (lb6_key_set_protocol cfg r.2 protocol) false false true).1

def __sock6_post_bind (cfg : Config) (env : Env) (ctx : bpf_sock) : Int :=
  let protocol := sk_protocol ctx
  if ¬ sock_proto_enabled protocol ∨ ¬ ctx_in_hostns cfg ctx.sk then 0
  else
    match sock6_post_bind_lookup cfg env (sock6_post_bind_key cfg ctx) protocol with
    | none => sock6_post_bind_v4_in_v6 cfg env ctx
    | some svc =>
      if (lb6_svc_is_nodeport svc ∨ lb6_svc_is_external_ip svc ∨ lb6_svc_is_loadbalancer svc) ∧
          ¬ __lb6_svc_is_l7_loadbalancer svc ∧ ¬ lb6_svc_is_l7_punt_proxy svc then -EADDRINUSE
      else 0

def cil_sock6_post_bind (cfg : Config) (env : Env) (maps : Maps) (ctx : bpf_sock) :
    hook_result bpf_sock :=
  let err := __sock6_post_bind cfg env ctx
  if err < 0 then { verdict := SYS_REJECT, retval := some err, ctx := ctx, maps := maps }
  else { verdict := SYS_PROCEED, retval := none, ctx := ctx, maps := maps }

def sock6_pre_bind_v4_in_v6 (cfg : Config) (k : Kernel) (maps : Maps) (ctx : bpf_sock_addr) :
    xlate_result :=
  if cfg.ENABLE_IPV4 then
    let addr6 := ctx_get_v6_address ctx
    let fake_ctx := sock6_fake_ctx ctx addr6
    let r := __sock4_pre_bind k maps fake_ctx ctx
    if r.ret < 0 then { ret := r.ret, ctx := ctx, maps := r.maps }
    else
      let addr6 := build_v4_in_v6 cfg r.ctx.user_ip4
      { ret := 0
        ctx := ctx_set_port (ctx_set_v6_address ctx addr6) (r.ctx.user_port % 65536)
        maps := r.maps }
  else { ret := 0, ctx := ctx, maps := maps }

def sock6_auto_bind (ctx : bpf_sock_addr) : bpf_sock_addr :=
  ctx_set_port (ctx_set_v6_address ctx { p1 := 0, p2 := 0, p3 := 0, p4 := 0 }) 0

def __sock6_pre_bind (cfg : Config) (k : Kernel) (maps : Maps) (ctx : bpf_sock_addr) :
    xlate_result :=
  let val : lb6_health :=
    { address := ctx_get_v6_address ctx, port := ctx_dst_port ctx, proto := ctx_protocol ctx }
  if is_v4_in_v6 cfg val.address then sock6_pre_bind_v4_in_v6 cfg k maps ctx
  else if cfg.ENABLE_IPV6 then
    let key := get_socket_cookie ctx.sk
    let r := map_update_elem k maps.cilium_lb6_health key val
    if r.1 = 0 then
      { ret := r.1, ctx := sock6_auto_bind ctx, maps := { maps with cilium_lb6_health := r.2 } }
    else { ret := r.1, ctx := ctx, maps := { maps with cilium_lb6_health := r.2 } }
  else { ret := 0, ctx := ctx, maps := maps }

def cil_sock6_pre_bind (cfg : Config) (k : Kernel) (maps : Maps) (ctx : bpf_sock_addr) :
    hook_result bpf_sock_addr :=
  if ¬ sock_proto_enabled (ctx_protocol ctx) ∨ ¬ ctx_in_hostns cfg ctx.sk then
    { verdict := SYS_PROCEED, retval := none, ctx := ctx, maps := maps }
  else if sock_is_health_check cfg ctx then
    let r := __sock6_pre_bind cfg k maps ctx
    if r.ret ≠ 0 then
      { verdict := SYS_REJECT, retval := some (-ENOBUFS), ctx := r.ctx, maps := r.maps }
    else { verdict := SYS_PROCEED, retval := none, ctx := r.ctx, maps := r.maps }
  else { verdict := SYS_PROCEED, retval := none, ctx := ctx, maps := maps }

def sock6_xlate_rev_v4_in_v6 (cfg : Config) (env : Env) (maps : Maps) (ctx : bpf_sock_addr) :
    xlate_result :=
  if cfg.ENABLE_IPV4 then
    let addr6 := ctx_get_v6_address ctx
    if ¬ is_v4_in_v6 cfg addr6 then { ret := - ENXIO, ctx := ctx, maps := maps }
    else
      let fake_ctx := sock6_fake_ctx ctx addr6
      let r := __sock4_xlate_rev cfg env maps fake_ctx ctx
      if r.ret < 0 then { ret := r.ret, ctx := ctx, maps := r.maps }
      else
        let addr6 := build_v4_in_v6 cfg r.ctx.user_ip4
        { ret := 0
          ctx := ctx_set_port (ctx_set_v6_address ctx addr6) (r.ctx.user_port % 65536)
          maps := r.maps }
  else { ret := - ENXIO, ctx := ctx, maps := maps }

/-- The value of `key` in `__sock6_xlate_rev` after lines 1187-1189. -/
def sock6_xlate_rev_tuple (ctx : bpf_sock_addr) : ipv6_revnat_tuple :=
  { cookie := sock_local_cookie ctx, address := ctx_get_v6_address ctx, port := ctx_dst_port ctx }

/-- The initialiser of `svc_key` in `__sock6_xlate_rev` (lines 1197-1203). -/
def sock6_xlate_rev_key (cfg : Config) (ctx : bpf_sock_addr) (val : ipv6_revnat_entry) :
    lb6_key :=
  { address := val.address, dport := val.port, backend_slot := 0,
    proto := if cfg.ENABLE_SERVICE_PROTOCOL_DIFFERENTIATION then ctx_protocol ctx else 0,
    scope := 0 }

def __sock6_xlate_rev (cfg : Config) (env : Env) (maps : Maps) (ctx : bpf_sock_addr) :
    xlate_result :=
  if cfg.ENABLE_IPV6 then
    let protocol := ctx_protocol ctx
    let key := sock6_xlate_rev_tuple ctx
    match map_lookup_elem maps.cilium_lb6_reverse_sk key with
    | some val =>
      let svc_key := sock6_xlate_rev_key cfg ctx val
      let r := sock6_lookup_with_wildcard cfg env svc_key protocol (ctx_in_hostns cfg ctx.sk)
      match r.1 with
      | none =>
        { ret := -ENOENT, ctx := ctx,
          maps := { maps with
            cilium_lb6_reverse_sk := (map_delete_elem maps.cilium_lb6_reverse_sk key).2 } }
      | some svc =>
        if svc.rev_nat_index ≠ val.rev_nat_index ∨
            (svc.count = 0 ∧ ¬ lb6_svc_is_l7_loadbalancer svc) then
          { ret := -ENOENT, ctx := ctx,
            maps := { maps with
              cilium_lb6_reverse_sk := (map_delete_elem maps.cilium_lb6_reverse_sk key).2 } }
        else
          { ret := 0, ctx := ctx_set_port (ctx_set_v6_address ctx val.address) val.port,
            maps := maps }
    | none => sock6_xlate_rev_v4_in_v6 cfg env maps ctx
  else sock6_xlate_rev_v4_in_v6 cfg env maps ctx

def cil_sock6_recvmsg (cfg : Config) (env : Env) (maps : Maps) (ctx : bpf_sock_addr) :
    hook_result bpf_sock_addr :=
  let r := __sock6_xlate_rev cfg env maps ctx
  { verdict := SYS_PROCEED, retval := none, ctx := r.ctx, maps := r.maps }

def bswap16 (x : Nat) : Nat := (x % 256) * 256 + (x / 256) % 256

def bswap32 (x : Nat) : Nat :=
  (x % 256) * 16777216 + (x / 256 % 256) * 65536 + (x / 65536 % 256) * 256 + (x / 16777216) % 256

def ex_cfg : Config :=
  { ENABLE_IPV4 := true, ENABLE_IPV6 := true, ENABLE_NODEPORT := true, ENABLE_L7_LB := true,
    ENABLE_HEALTH_CHECK := true, ENABLE_LOCAL_REDIRECT_POLICY := true,
    ENABLE_SOCKET_LB_HOST_ONLY := false, ENABLE_SERVICE_PROTOCOL_DIFFERENTIATION := true,
    DISABLE_EXTERNAL_IP_MITIGATION := false, ENABLE_MKE := false,
    NODEPORT_PORT_MIN := 30000, NODEPORT_PORT_MAX := 32767,
    HOST_NETNS_COOKIE := 1, HOST_ID := 1, MARK_MAGIC_HEALTH := 0xD00, MKE_HOST := 0,
    bpf_htonl := bswap32, bpf_htons := bswap16, bpf_ntohs := bswap16 }

def ex_no_flags : svc_flags :=
  { is_external_ip := false, is_hostport := false, is_nodeport := false,
    is_loadbalancer := false, is_affinity := false, is_local_redirect := false,
    is_l7_loadbalancer := false, is_l7_punt_proxy := false, is_loopback := false,
    is_dual_stack_peer := false }

/-- The address `10.96.0.10` in network byte order. -/
def ex_vip : Nat := bswap32 0x0A60000A

/-- The port `80` in network byte order. -/
def ex_vport : Nat := bswap16 80

def ex_svc : lb4_service :=
  { count := 2, rev_nat_index := 7, backend_id := 0, l7_lb_proxy_port := 0,
    flags := ex_no_flags }

/-- The backend `10.0.1.5:8080`. -/
def ex_backend1 : lb4_backend :=
  { address := bswap32 0x0A000105, port := bswap16 8080, proto := 0, flags := 0 }

/-- The backend `10.0.1.6:8080`. -/
def ex_backend2 : lb4_backend :=
  { address := bswap32 0x0A000106, port := bswap16 8080, proto := 0, flags := 0 }

def ex_env : Env :=
  { lb4_lookup_service := fun key _ =>
      if key.address = ex_vip ∧ key.dport = ex_vport then
        (some ex_svc, { key with backend_slot := 0 })
      else (none, { key with backend_slot := 0 })
    __lb4_lookup_backend_slot := fun key =>
      if key.address = ex_vip ∧ key.dport = ex_vport ∧ key.backend_slot = 1 then
        some { ex_svc with backend_id := 11 }
      else if key.address = ex_vip ∧ key.dport = ex_vport ∧ key.backend_slot = 2 then
        some { ex_svc with backend_id := 12 }
      else none
    __lb4_lookup_backend := fun id =>
      if id = 11 then some ex_backend1 else if id = 12 then some ex_backend2 else none
    lookup_ip4_remote_endpoint := fun _ _ => none
    lb4_skip_xlate_from_ctx_to_svc := fun _ _ _ => false
    lb6_lookup_service := fun key _ => (none, key)
    __lb6_lookup_backend_slot := fun _ => none
    __lb6_lookup_backend := fun _ => none
    lookup_ip6_remote_endpoint := fun _ _ => none
    lb6_skip_xlate_from_ctx_to_svc := fun _ _ _ => false
    identity_is_remote_node := fun _ => false }

def ex_kernel : Kernel := { get_prandom_u32 := 0, map_update_errno := 0 }

def ex_maps : Maps :=
  { cilium_lb4_reverse_sk := fun _ => none
    cilium_lb6_reverse_sk := fun _ => none
    cilium_lb4_affinity := fun _ => none
    cilium_lb6_affinity := fun _ => none
    cilium_lb4_health := fun _ => none
    cilium_lb6_health := fun _ => none }

/-- A pod socket (cookie 4242, network namespace 5, no mark). -/
def ex_sk : sock_ident :=
  { socket_cookie := 4242, netns_cookie := 5, so_mark := none, cgroup_classid := 0 }

def ex_v6zero : v6addr := { p1 := 0, p2 := 0, p3 := 0, p4 := 0 }

/-- A UDP `sendmsg`/`connect` event of `ex_sk` to the service `10.96.0.10:80`. -/
def ex_ctx : bpf_sock_addr :=
  { user_ip4 := ex_vip, user_ip6 := ex_v6zero, user_port := ex_vport, protocol := 17,
    sk := ex_sk }

/-- The event `ex_ctx` after its destination was rewritten to `ex_backend1`. -/
def ex_ctx_backend1 : bpf_sock_addr :=
  { user_ip4 := ex_backend1.address, user_ip6 := ex_v6zero, user_port := ex_backend1.port,
    protocol := 17, sk := ex_sk }

/-- A TCP `connect` event of `ex_sk` to `10.96.0.99:80`, which is no service of `ex_env`. -/
def ex_ctx_noservice : bpf_sock_addr :=
  { user_ip4 := bswap32 0x0A600063, user_ip6 := ex_v6zero, user_port := ex_vport,
    protocol := 6, sk := ex_sk }

/-- Maps whose reverse-NAT map holds, for the socket `ex_sk` and the peer `ex_backend1`, an
entry that points to `10.96.0.99:80`, an endpoint that is no service of `ex_env`. -/
def ex_maps_stale : Maps :=
  { ex_maps with
    cilium_lb4_reverse_sk := fun key =>
      if key = { cookie := 4242, address := ex_backend1.address, port := ex_backend1.port } then
        some { address := bswap32 0x0A600063, port := ex_vport, rev_nat_index := 9 }
      else none }

/-- The node address `192.168.1.10` in network byte order. -/
def ex_node_ip : Nat := bswap32 0xC0A8010A

/-- The NodePort `31000` in network byte order. -/
def ex_nodeport : Nat := bswap16 31000

def ex_svc_nodeport : lb4_service :=
  { count := 1, rev_nat_index := 8, backend_id := 0, l7_lb_proxy_port := 0,
    flags := { ex_no_flags with is_nodeport := true } }

/-- The node of `ex_env` with, in addition, the NodePort service `0.0.0.0:31000` and the
address `192.168.1.10` known to the endpoint classifier as the host. -/
def ex_env_nodeport : Env :=
  { ex_env with
    lb4_lookup_service := fun key _ =>
      if key.address = 0 ∧ key.dport = ex_nodeport then
        (some ex_svc_nodeport, { key with backend_slot := 0 })
      else (none, { key with backend_slot := 0 })
    lookup_ip4_remote_endpoint := fun addr _ =>
      if addr = ex_node_ip then some { sec_identity := 1 } else none }

def ex_key_nodeport : lb4_key :=
  { address := ex_node_ip, dport := ex_nodeport, backend_slot := 0, proto := 6, scope := 0 }

/-- The service of `ex_svc` with session affinity enabled. -/
def ex_svc_affinity : lb4_service :=
  { ex_svc with flags := { ex_no_flags with is_affinity := true } }

/-- The node of `ex_env` with session affinity enabled on its service. -/
def ex_env_affinity : Env :=
  { ex_env with
    lb4_lookup_service := fun key _ =>
      if key.address = ex_vip ∧ key.dport = ex_vport then
        (some ex_svc_affinity, { key with backend_slot := 0 })
      else (none, { key with backend_slot := 0 }) }

/-- Maps whose affinity map pins the clients of network namespace 5 to backend 12 for the
service with reverse-NAT index 7. -/
def ex_maps_affinity : Maps :=
  { ex_maps with
    cilium_lb4_affinity := fun key =>
      if key = { client_id := 5, rev_nat_id := 7 } then some 12 else none }

/-- A run in which `map_update_elem` fails with `ENOMEM`. -/
def ex_kernel_enomem : Kernel := { get_prandom_u32 := 0, map_update_errno := 12 }

/-- The `sendmsg`/`connect` event of `ex_sk` on an IPv6 socket to `::ffff:10.96.0.10`, port
80, UDP. -/
def ex_ctx6_mapped : bpf_sock_addr :=
  { user_ip4 := 0, user_ip6 := { p1 := 0, p2 := 0, p3 := bswap32 0xffff, p4 := ex_vip },
    user_port := ex_vport, protocol := 17, sk := ex_sk }

/-- An IPv6 service with one backend. -/
def ex_svc6 : lb6_service :=
  { count := 1, rev_nat_index := 21, backend_id := 0, l7_lb_proxy_port := 0,
    flags := ex_no_flags }

/-- The IPv6 backend `2001:db8::1`, port 8080. -/
def ex_backend6 : lb6_backend :=
  { address := { p1 := bswap32 0x20010db8, p2 := 0, p3 := 0, p4 := bswap32 1 },
    port := bswap16 8080, proto := 0, flags := 0 }

/-- The node of `ex_env` whose IPv6 service table also holds a service under the key
(`::ffff:10.96.0.10`, port 80), with the backend `ex_backend6` (id 31) in its slot 1. -/
def ex_env_v6svc : Env :=
  { ex_env with
    lb6_lookup_service := fun key _ =>
      if key.address = ex_ctx6_mapped.user_ip6 ∧ key.dport = ex_vport then
        (some ex_svc6, { key with backend_slot := 0 })
      else (none, { key with backend_slot := 0 })
    __lb6_lookup_backend_slot := fun key =>
      if key.address = ex_ctx6_mapped.user_ip6 ∧ key.dport = ex_vport ∧ key.backend_slot = 1 then
        some { ex_svc6 with backend_id := 31 }
      else none
    __lb6_lookup_backend := fun id => if id = 31 then some ex_backend6 else none }

/-- The affinity service flagged local-redirect. -/
def ex_svc_affinity_lrp : lb4_service :=
  { ex_svc with flags := { ex_no_flags with is_affinity := true, is_local_redirect := true } }

/-- The node of `ex_env` with an affinity, local-redirect service whose local-redirect policy
tells every caller to bypass the translation. -/
def ex_env_affinity_lrp : Env :=
  { ex_env with
    lb4_lookup_service := fun key _ =>
      if key.address = ex_vip ∧ key.dport = ex_vport then
        (some ex_svc_affinity_lrp, { key with backend_slot := 0 })
      else (none, { key with backend_slot := 0 })
    lb4_skip_xlate_from_ctx_to_svc := fun _ _ _ => true }

/-- The affinity service with no backend slot left (`count = 0`). -/
def ex_svc_affinity_empty : lb4_service :=
  { ex_svc with count := 0, flags := { ex_no_flags with is_affinity := true } }

/-- The node of `ex_env` with the affinity service `ex_svc_affinity_empty`. -/
def ex_env_affinity_empty : Env :=
  { ex_env with
    lb4_lookup_service := fun key _ =>
      if key.address = ex_vip ∧ key.dport = ex_vport then
        (some ex_svc_affinity_empty, { key with backend_slot := 0 })
      else (none, { key with backend_slot := 0 }) }

/-- The service of `ex_svc` flagged ExternalIP. -/
def ex_svc_extip : lb4_service :=
  { ex_svc with flags := { ex_no_flags with is_external_ip := true } }

/-- The node of `ex_env` whose service is an ExternalIP service; the endpoint classifier
knows no address, so `10.96.0.10` has not the host identity. -/
def ex_env_extip : Env :=
  { ex_env with
    lb4_lookup_service := fun key _ =>
      if key.address = ex_vip ∧ key.dport = ex_vport then
        (some ex_svc_extip, { key with backend_slot := 0 })
      else (none, { key with backend_slot := 0 }) }

/-- An L7 load-balancer service without native backends, proxy port 15001. -/
def ex_svc_l7 : lb4_service :=
  { count := 0, rev_nat_index := 7, backend_id := 0, l7_lb_proxy_port := bswap16 15001,
    flags := { ex_no_flags with is_l7_loadbalancer := true } }

/-- The node of `ex_env` whose service is the L7 load-balancer service `ex_svc_l7`. -/
def ex_env_l7 : Env :=
  { ex_env with
    lb4_lookup_service := fun key _ =>
      if key.address = ex_vip ∧ key.dport = ex_vport then
        (some ex_svc_l7, { key with backend_slot := 0 })
      else (none, { key with backend_slot := 0 }) }

/-- A socket of the host network namespace (cookie 777). -/
def ex_sk_host : sock_ident :=
  { socket_cookie := 777, netns_cookie := 1, so_mark := none, cgroup_classid := 0 }

/-- The event `ex_ctx` issued by the host-namespace socket `ex_sk_host`. -/
def ex_ctx_host : bpf_sock_addr := { ex_ctx with sk := ex_sk_host }

/-- The loopback backend `__sock4_xlate_fwd` builds for `ex_svc_l7`. -/
def ex_backend_l7 : lb4_backend :=
  { address := bswap32 0x7f000001, port := bswap16 15001, proto := 0, flags := 0 }

/-- A punt-proxy service with no backend slot (`count = 0`). -/
def ex_svc_punt_empty : lb4_service :=
  { ex_svc with count := 0, flags := { ex_no_flags with is_l7_punt_proxy := true } }

/-- The node of `ex_env` with the punt-proxy service `ex_svc_punt_empty`. -/
def ex_env_punt_empty : Env :=
  { ex_env with
    lb4_lookup_service := fun key _ =>
      if key.address = ex_vip ∧ key.dport = ex_vport then
        (some ex_svc_punt_empty, { key with backend_slot := 0 })
      else (none, { key with backend_slot := 0 }) }

/-- A health-check socket of the host network namespace: its mark is `MARK_MAGIC_HEALTH`. -/
def ex_sk_health : sock_ident :=
  { socket_cookie := 888, netns_cookie := 1, so_mark := some 0xD00, cgroup_classid := 0 }

/-- A TCP `bind` event of the health-check socket to `10.96.0.10:80`. -/
def ex_ctx_health : bpf_sock_addr :=
  { user_ip4 := ex_vip, user_ip6 := ex_v6zero, user_port := ex_vport, protocol := 6,
    sk := ex_sk_health }

/-- A HostPort service (no NodePort flag, no loopback flag). -/
def ex_svc_hostport : lb4_service :=
  { count := 1, rev_nat_index := 9, backend_id := 0, l7_lb_proxy_port := 0,
    flags := { ex_no_flags with is_hostport := true } }

/-- The node of `ex_env_nodeport` whose wildcard entry `0.0.0.0:31000`, a port inside the
NodePort range 30000-32767, is the HostPort service `ex_svc_hostport`. -/
def ex_env_hostport_in_range : Env :=
  { ex_env_nodeport with
    lb4_lookup_service := fun key _ =>
      if key.address = 0 ∧ key.dport = ex_nodeport then
        (some ex_svc_hostport, { key with backend_slot := 0 })
      else (none, { key with backend_slot := 0 }) }

/-- The HostPort `8080` in network byte order, a port outside the NodePort range. -/
def ex_hostport : Nat := bswap16 8080

/-- The node of `ex_env` with the wildcard HostPort entry `0.0.0.0:8080`, the HostPort service
`ex_svc_hostport`, which has no loopback flag. -/
def ex_env_hostport : Env :=
  { ex_env with
    lb4_lookup_service := fun key _ =>
      if key.address = 0 ∧ key.dport = ex_hostport then
        (some ex_svc_hostport, { key with backend_slot := 0 })
      else (none, { key with backend_slot := 0 }) }

/-- The key of the destination `127.0.0.1:8080`. -/
def ex_key_loopback_hostport : lb4_key :=
  { address := bswap32 0x7f000001, dport := ex_hostport, backend_slot := 0, proto := 6,
    scope := 0 }

/-- A `post_bind` event of the host-namespace socket `ex_sk_host` on an IPv6 socket bound to
`::ffff:192.168.1.10`, port 31000, TCP. -/
def ex_sock6_bind_mapped : bpf_sock :=
  { family := 10, protocol := 6, src_ip4 := 0,
    src_ip6 := { p1 := 0, p2 := 0, p3 := bswap32 0xffff, p4 := ex_node_ip },
    src_port := 31000, dst_ip4 := 0, dst_ip6 := ex_v6zero, dst_port := 0, sk := ex_sk_host }

/-- The `post_bind` event of the same socket bound to `192.168.1.10`, port 31000, TCP. -/
def ex_sock4_bind : bpf_sock :=
  { family := 2, protocol := 6, src_ip4 := ex_node_ip, src_ip6 := ex_v6zero,
    src_port := 31000, dst_ip4 := 0, dst_ip6 := ex_v6zero, dst_port := 0, sk := ex_sk_host }

/-! ## The divisor of the slot computation -/

/-- The divisor of the modulo at line 386 of `__sock4_xlate_fwd`: `some svc.count` when the
execution reaches `key.backend_slot = (sock_select_slot(ctx_full) % svc->count) + 1`, that is
when none of the returns of lines 280-326 is taken, the service does not leave through the L7
branch of lines 329-356 and the affinity step of lines 358-381 leaves `backend_id == 0`;
`none` when the execution ends or jumps to `out` before that line. -/
def sock4_xlate_fwd_divisor (cfg : Config) (env : Env) (maps : Maps)
    (ctx ctx_full : bpf_sock_addr) (udp_only : Bool) : Option Nat :=
  let client_cookie := get_netns_cookie ctx_full.sk
  let in_hostns := ctx_in_hostns cfg ctx_full.sk
  let protocol := ctx_protocol ctx
  let key := sock4_xlate_fwd_key cfg ctx
  let orig_key := key
  if cfg.ENABLE_SOCKET_LB_HOST_ONLY ∧ ¬ in_hostns then none
  else if ¬ udp_only ∧ ¬ sock_proto_enabled protocol then none
  else
    match (sock4_lookup_with_wildcard cfg env key protocol in_hostns).1 with
    | none => none
    | some svc =>
      if svc.count = 0 ∧ ¬ lb4_svc_is_l7_loadbalancer svc then none
      else if lb4_svc_is_l7_punt_proxy svc then none
      else if sock4_skip_xlate cfg env svc orig_key.address then none
      else if cfg.ENABLE_LOCAL_REDIRECT_POLICY ∧ lb4_svc_is_localredirect svc ∧
          env.lb4_skip_xlate_from_ctx_to_svc (get_netns_cookie ctx_full.sk) orig_key.address
            orig_key.dport then none
      else if cfg.ENABLE_L7_LB ∧ lb4_svc_is_l7_loadbalancer svc then none
      else if lb4_svc_is_affinity svc ∧
          lb4_affinity_backend_id_by_netns maps svc client_cookie ≠ 0 ∧
          (env.__lb4_lookup_backend
            (lb4_affinity_backend_id_by_netns maps svc client_cookie)).isSome then none
      else some svc.count

/-- The divisor of the modulo an execution of `sock6_xlate_v4_in_v6` reaches: the one of the
call of `__sock4_xlate_fwd` at line 833, if that call is made. -/
def sock6_xlate_v4_in_v6_divisor (cfg : Config) (env : Env) (maps : Maps)
    (ctx : bpf_sock_addr) (udp_only : Bool) : Option Nat :=
  if cfg.ENABLE_IPV4 then
    let addr6 := ctx_get_v6_address ctx
    if ¬ is_v4_in_v6 cfg addr6 then none
    else sock4_xlate_fwd_divisor cfg env maps (sock6_fake_ctx ctx addr6) ctx udp_only
  else none

/-- The divisor of the modulo an execution of `__sock6_xlate_fwd` reaches: `some svc.count`
when it reaches line 1089, `key.backend_slot = (sock_select_slot(ctx) % svc->count) + 1`, the
divisor of the IPv4 translation when it ends in `sock6_xlate_v4_in_v6`, `none` otherwise. -/
def sock6_xlate_fwd_divisor (cfg : Config) (env : Env) (maps : Maps)
    (ctx : bpf_sock_addr) (udp_only : Bool) : Option Nat :=
  if cfg.ENABLE_IPV6 then
    let client_cookie := get_netns_cookie ctx.sk
    let in_hostns := ctx_in_hostns cfg ctx.sk
    let protocol := ctx_protocol ctx
    if cfg.ENABLE_SOCKET_LB_HOST_ONLY ∧ ¬ in_hostns then none
    else if ¬ udp_only ∧ ¬ sock_proto_enabled protocol then none
    else
      let key := sock6_xlate_fwd_key cfg ctx
      let orig_key := key
      match (sock6_lookup_with_wildcard cfg env key protocol in_hostns).1 with
      | none => sock6_xlate_v4_in_v6_divisor cfg env maps ctx udp_only
      | some svc =>
        if svc.count = 0 ∧ ¬ lb6_svc_is_l7_loadbalancer svc then none
        else if lb6_svc_is_l7_punt_proxy svc then none
        else if sock6_skip_xlate cfg env svc orig_key.address then none
        else if cfg.ENABLE_LOCAL_REDIRECT_POLICY ∧ lb6_svc_is_localredirect svc ∧
            env.lb6_skip_xlate_from_ctx_to_svc (get_netns_cookie ctx.sk) orig_key.address
              orig_key.dport then none
        else if cfg.ENABLE_L7_LB ∧ lb6_svc_is_l7_loadbalancer svc then none
        else if lb6_svc_is_affinity svc ∧
            lb6_affinity_backend_id_by_netns maps svc client_cookie ≠ 0 ∧
            (env.__lb6_lookup_backend
              (lb6_affinity_backend_id_by_netns maps svc client_cookie)).isSome then none
        else some svc.count
  else sock6_xlate_v4_in_v6_divisor cfg env maps ctx udp_only

/-- An IPv6 L7 load-balancer service without native backends. -/
def ex_svc6_l7 : lb6_service :=
  { count := 0, rev_nat_index := 22, backend_id := 0, l7_lb_proxy_port := bswap16 15001,
    flags := { ex_no_flags with is_l7_loadbalancer := true } }

/-- The node of `ex_env` whose IPv6 service table holds `ex_svc6_l7` under every key. -/
def ex_env_v6l7 : Env :=
  { ex_env with lb6_lookup_service := fun key _ => (some ex_svc6_l7, key) }

/-- Maps whose affinity map pins the clients of network namespace 5, for the service with
reverse-NAT index 7, to the backend id 99, which has no record in the backend table of
`ex_env`. -/
def ex_maps_affinity_gone : Maps :=
  { ex_maps with
    cilium_lb4_affinity := fun key =>
      if key = { client_id := 5, rev_nat_id := 7 } then some 99 else none }

/-- The node of `ex_env_affinity` with an empty slot table: the affinity service is resolved,
but no slot of it names a backend. -/
def ex_env_affinity_noslot : Env :=
  { ex_env_affinity with __lb4_lookup_backend_slot := fun _ => none }

/-- The event `ex_ctx6_mapped` after its destination was rewritten to the mapped form of
`ex_backend1`: the peer `::ffff:10.0.1.5`, port 8080, as a reply on the same socket names
it. -/
def ex_ctx6_backend1 : bpf_sock_addr :=
  { user_ip4 := 0,
    user_ip6 := { p1 := 0, p2 := 0, p3 := bswap32 0xffff, p4 := ex_backend1.address },
    user_port := ex_backend1.port, protocol := 17, sk := ex_sk }

/-! ## Sequences of forward translations -/

/-- One call of `__sock4_xlate_fwd`: the tables and the kernel answers at the time of the
call, the two contexts and the flag `udp_only`. -/
structure fwd4_call where
  env : Env
  k : Kernel
  ctx : bpf_sock_addr
  ctx_full : bpf_sock_addr
  udp_only : Bool

/-- The maps after a sequence of calls of `__sock4_xlate_fwd`, each run on the maps the call
before it left. -/
def sock4_xlate_fwd_calls (cfg : Config) : Maps → List fwd4_call → Maps
  | maps, [] => maps
  | maps, c :: cs =>
    sock4_xlate_fwd_calls cfg
      (__sock4_xlate_fwd cfg c.env c.k maps c.ctx c.ctx_full c.udp_only).maps cs

/-- The reverse-NAT record a call of `__sock4_xlate_fwd` hands to `sock4_update_revnat` at
the label `out` (line 412, with `key` and `val` as lines 146-152 fill them); `none` when the
call returns before `out`. -/
def sock4_xlate_fwd_record (cfg : Config) (maps : Maps) (c : fwd4_call) :
    Option (ipv4_revnat_tuple × ipv4_revnat_entry) :=
  match __sock4_xlate_fwd_body cfg c.env c.k maps c.ctx c.ctx_full c.udp_only with
  | .ret _ => none
  | .out backend svc _ =>
    some ({ cookie := sock_local_cookie c.ctx_full, address := backend.address,
            port := backend.port },
          { address := (sock4_xlate_fwd_key cfg c.ctx).address,
            port := (sock4_xlate_fwd_key cfg c.ctx).dport, rev_nat_index := svc.rev_nat_index })

/-- Whether no call of the sequence, run on the maps the calls before it left, hands to
`sock4_update_revnat` a record under `key` with a value other than `val`. -/
def sock4_xlate_fwd_calls_keep (cfg : Config) (key : ipv4_revnat_tuple)
    (val : ipv4_revnat_entry) : Maps → List fwd4_call → Bool
  | _, [] => true
  | maps, c :: cs =>
    (match sock4_xlate_fwd_record cfg maps c with
     | some r => decide (r.1 = key → r.2 = val)
     | none => true) &&
    sock4_xlate_fwd_calls_keep cfg key val
      (__sock4_xlate_fwd cfg c.env c.k maps c.ctx c.ctx_full c.udp_only).maps cs

/-- The address `10.96.0.20` in network byte order. -/
def ex_vip2 : Nat := bswap32 0x0A600014

/-- A second ClusterIP service, `10.96.0.20:80` (reverse-NAT index 8), with one backend. -/
def ex_svc2 : lb4_service :=
  { count := 1, rev_nat_index := 8, backend_id := 0, l7_lb_proxy_port := 0,
    flags := ex_no_flags }

/-- The node of `ex_env` with, in addition, the service `10.96.0.20:80` whose only slot names
the backend 11, `10.0.1.5:8080`, which is also the first backend of `10.96.0.10:80`. -/
def ex_env_shared : Env :=
  { ex_env with
    lb4_lookup_service := fun key _ =>
      if key.address = ex_vip ∧ key.dport = ex_vport then
        (some ex_svc, { key with backend_slot := 0 })
      else if key.address = ex_vip2 ∧ key.dport = ex_vport then
        (some ex_svc2, { key with backend_slot := 0 })
      else (none, { key with backend_slot := 0 })
    __lb4_lookup_backend_slot := fun key =>
      if key.address = ex_vip ∧ key.dport = ex_vport ∧ key.backend_slot = 1 then
        some { ex_svc with backend_id := 11 }
      else if key.address = ex_vip ∧ key.dport = ex_vport ∧ key.backend_slot = 2 then
        some { ex_svc with backend_id := 12 }
      else if key.address = ex_vip2 ∧ key.dport = ex_vport ∧ key.backend_slot = 1 then
        some { ex_svc2 with backend_id := 11 }
      else none }

/-- A UDP `sendmsg` event of `ex_sk` to the service `10.96.0.20:80`. -/
def ex_ctx_vip2 : bpf_sock_addr := { ex_ctx with user_ip4 := ex_vip2 }

/-- Three further calls on the example node: a `sendmsg` of another socket to
`10.96.0.10:80`, a `sendmsg` of `ex_sk` to an address that is no service, and a `sendmsg` of
`ex_sk` to `10.96.0.10:80` again. -/
def ex_calls : List fwd4_call :=
  [{ env := ex_env_shared, k := ex_kernel, ctx := ex_ctx_host, ctx_full := ex_ctx_host,
     udp_only := true },
   { env := ex_env_shared, k := ex_kernel, ctx := ex_ctx_noservice, ctx_full := ex_ctx_noservice,
     udp_only := true },
   { env := ex_env_shared, k := ex_kernel, ctx := ex_ctx, ctx_full := ex_ctx,
     udp_only := true }]

/-- The service `ex_svc` after all its backends were removed: same reverse-NAT index, `count`
zero. -/
def ex_svc_drained : lb4_service := { ex_svc with count := 0 }

/-- The node of `ex_env` after the backends of its service were removed. -/
def ex_env_drained : Env :=
  { ex_env with
    lb4_lookup_service := fun key _ =>
      if key.address = ex_vip ∧ key.dport = ex_vport then
        (some ex_svc_drained, { key with backend_slot := 0 })
      else (none, { key with backend_slot := 0 }) }

theorem map_update_elem_ret_nonpos {κ ν : Type} [DecidableEq κ] (k : Kernel)
    (m : κ → Option ν) (key : κ) (val : ν) : (map_update_elem k m key val).1 ≤ 0 := by
  unfold map_update_elem
  split
  · simp
  · simp

theorem map_update_elem_lookup {κ ν : Type} [DecidableEq κ] (k : Kernel)
    (m : κ → Option ν) (key : κ) (val : ν) (h : 0 ≤ (map_update_elem k m key val).1) :
    (map_update_elem k m key val).2 key = some val := by
  unfold map_update_elem at h ⊢
  split
  · simp
  · rename_i hne
    rw [if_neg hne] at h
    simp at h
    omega

theorem sock4_update_revnat_lookup (k : Kernel) (maps : Maps) (ctx : bpf_sock_addr)
    (backend : lb4_backend) (orig_key : lb4_key) (rev_nat_id : Nat)
    (h : ¬ (sock4_update_revnat k maps ctx backend orig_key rev_nat_id).1 < 0) :
    (sock4_update_revnat k maps ctx backend orig_key rev_nat_id).2.cilium_lb4_reverse_sk
        { cookie := sock_local_cookie ctx, address := backend.address, port := backend.port } =
      some { address := orig_key.address, port := orig_key.dport, rev_nat_index := rev_nat_id } := by
  unfold sock4_update_revnat at h ⊢
  simp only [map_lookup_elem] at h ⊢
  split
  · rename_i hc
    rw [if_pos hc] at h
    simp only at h ⊢
    exact map_update_elem_lookup _ _ _ _ (by omega)
  · rename_i hc
    simp only [not_or, not_not] at hc
    exact hc.2

/-! ## Lemmas on the exits of the forward body -/

theorem sock4_fwd_selected_out (maps : Maps) (svc : lb4_service) (client_cookie : Nat)
    (backend : Option lb4_backend) (backend_id : Nat) (bfa : Bool) (B : lb4_backend)
    (s : lb4_service) (m : Maps)
    (h : __sock4_xlate_fwd_selected maps svc client_cookie backend backend_id bfa = .out B s m) :
    s = svc ∧ backend = some B ∧ m.cilium_lb4_reverse_sk = maps.cilium_lb4_reverse_sk := by
  unfold __sock4_xlate_fwd_selected at h
  split at h
  · cases h
  · split at h
    · cases h
      simp [lb4_update_affinity_by_netns]
    · cases h
      simp

theorem sock4_fwd_slot_out (env : Env) (k : Kernel) (maps : Maps) (ctx_full : bpf_sock_addr)
    (svc : lb4_service) (key : lb4_key) (client_cookie : Nat) (B : lb4_backend)
    (s : lb4_service) (m : Maps)
    (h : __sock4_xlate_fwd_slot env k maps ctx_full svc key client_cookie = .out B s m) :
    s = svc ∧ m.cilium_lb4_reverse_sk = maps.cilium_lb4_reverse_sk := by
  unfold __sock4_xlate_fwd_slot at h
  simp only at h
  split at h
  · cases h
  · have := sock4_fwd_selected_out _ _ _ _ _ _ _ _ _ h
    exact ⟨this.1, this.2.2⟩

theorem sock4_fwd_select_out (env : Env) (k : Kernel) (maps : Maps) (ctx_full : bpf_sock_addr)
    (svc : lb4_service) (key : lb4_key) (client_cookie : Nat) (B : lb4_backend)
    (s : lb4_service) (m : Maps)
    (h : __sock4_xlate_fwd_select env k maps ctx_full svc key client_cookie = .out B s m) :
    s = svc ∧ m.cilium_lb4_reverse_sk = maps.cilium_lb4_reverse_sk := by
  unfold __sock4_xlate_fwd_select at h
  simp only at h
  split at h
  · split at h
    · split at h
      · have := sock4_fwd_selected_out _ _ _ _ _ _ _ _ _ h
        exact ⟨this.1, this.2.2⟩
      · exact sock4_fwd_slot_out _ _ _ _ _ _ _ _ _ _ h
    · exact sock4_fwd_slot_out _ _ _ _ _ _ _ _ _ _ h
  · exact sock4_fwd_slot_out _ _ _ _ _ _ _ _ _ _ h

theorem sock4_fwd_body_out (cfg : Config) (env : Env) (k : Kernel) (maps : Maps)
    (ctx ctx_full : bpf_sock_addr) (udp_only : Bool) (B : lb4_backend) (svc : lb4_service)
    (m : Maps)
    (h : __sock4_xlate_fwd_body cfg env k maps ctx ctx_full udp_only = .out B svc m) :
    (sock4_lookup_with_wildcard cfg env (sock4_xlate_fwd_key cfg ctx) (ctx_protocol ctx)
        (ctx_in_hostns cfg ctx_full.sk)).1 = some svc ∧
      ¬ (svc.count = 0 ∧ ¬ lb4_svc_is_l7_loadbalancer svc) ∧
      m.cilium_lb4_reverse_sk = maps.cilium_lb4_reverse_sk := by
  unfold __sock4_xlate_fwd_body at h
  simp only at h
  split at h
  · cases h
  split at h
  · cases h
  split at h
  · cases h
  rename_i svc0 hsvc
  split at h
  · cases h
  rename_i hcnt
  split at h
  · cases h
  split at h
  · cases h
  split at h
  · cases h
  split at h
  · split at h
    · cases h
      exact ⟨hsvc, hcnt, rfl⟩
    · cases h
  · obtain ⟨rfl, hm⟩ := sock4_fwd_select_out _ _ _ _ _ _ _ _ _ _ h
    exact ⟨hsvc, hcnt, hm⟩

/-! ## Forward / reverse round trip -/

/-- C1: forward/reverse round trip (IPv4). Whenever `__sock4_xlate_fwd` reaches the label
`out` with a backend `B` for the service `svc` (found by the exact lookup or by the wildcard
fallback) and returns `0`, the event's destination is `B`, and `__sock4_xlate_rev` run for
the same socket (same cookie, same protocol, same namespace) with destination `B` against the
resulting maps returns `0` and sets the destination to the address and the port the
application supplied to the forward call: the original address, also when the service was
found under the zeroed wildcard address, and the original 16-bit port `ctx_dst_port`. -/
theorem sock4_xlate_fwd_rev_round_trip (cfg : Config) (env : Env) (k : Kernel) (maps : Maps)
    (ctx ctx_full : bpf_sock_addr) (udp_only : Bool) (B : lb4_backend) (svc : lb4_service)
    (m : Maps) (rctx rctx_full : bpf_sock_addr)
    (hbody : __sock4_xlate_fwd_body cfg env k maps ctx ctx_full udp_only = .out B svc m)
    (hret : (__sock4_xlate_fwd cfg env k maps ctx ctx_full udp_only).ret = 0)
    (hcookie : sock_local_cookie rctx_full = sock_local_cookie ctx_full)
    (hns : ctx_in_hostns cfg rctx_full.sk = ctx_in_hostns cfg ctx_full.sk)
    (hproto : ctx_protocol rctx = ctx_protocol ctx)
    (hip : rctx.user_ip4 = B.address)
    (hrport : ctx_dst_port rctx = B.port) :
    (__sock4_xlate_fwd cfg env k maps ctx ctx_full udp_only).ctx.user_ip4 = B.address ∧
    (__sock4_xlate_fwd cfg env k maps ctx ctx_full udp_only).ctx.user_port = B.port ∧
    (__sock4_xlate_rev cfg env (__sock4_xlate_fwd cfg env k maps ctx ctx_full udp_only).maps
        rctx rctx_full).ret = 0 ∧
    (__sock4_xlate_rev cfg env (__sock4_xlate_fwd cfg env k maps ctx ctx_full udp_only).maps
        rctx rctx_full).ctx.user_ip4 = ctx.user_ip4 ∧
    (__sock4_xlate_rev cfg env (__sock4_xlate_fwd cfg env k maps ctx ctx_full udp_only).maps
        rctx rctx_full).ctx.user_port = ctx_dst_port ctx := by
  obtain ⟨hsvc, hcnt, -⟩ := sock4_fwd_body_out _ _ _ _ _ _ _ _ _ _ hbody
  have hfwd : __sock4_xlate_fwd cfg env k maps ctx ctx_full udp_only =
      __sock4_xlate_fwd_out k m ctx ctx_full (sock4_xlate_fwd_key cfg ctx) B svc := by
    unfold __sock4_xlate_fwd
    rw [hbody]
  rw [hfwd] at hret ⊢
  unfold __sock4_xlate_fwd_out at hret ⊢
  simp only at hret ⊢
  by_cases hw : (sock4_update_revnat k m ctx_full B (sock4_xlate_fwd_key cfg ctx)
      svc.rev_nat_index).1 < 0
  · rw [if_pos hw] at hret
    simp [ENOMEM] at hret
  · rw [if_neg hw]
    have hl := sock4_update_revnat_lookup k m ctx_full B (sock4_xlate_fwd_key cfg ctx)
      svc.rev_nat_index hw
    have hkey : sock4_xlate_rev_tuple rctx rctx_full =
        ⟨sock_local_cookie ctx_full, B.address, B.port⟩ := by
      simp [sock4_xlate_rev_tuple, hcookie, hip, hrport]
    refine ⟨rfl, rfl, ?_⟩
    unfold __sock4_xlate_rev
    simp only [map_lookup_elem, hkey, hl]
    have hsk2 : sock4_xlate_rev_key cfg rctx ⟨(sock4_xlate_fwd_key cfg ctx).address,
        (sock4_xlate_fwd_key cfg ctx).dport, svc.rev_nat_index⟩ = sock4_xlate_fwd_key cfg ctx := by
      simp [sock4_xlate_rev_key, sock4_xlate_fwd_key, hproto]
    rw [hsk2, hproto, hns, hsvc]
    simp only
    have hc : ¬ (svc.rev_nat_index ≠ svc.rev_nat_index ∨
        (svc.count = 0 ∧ ¬ lb4_svc_is_l7_loadbalancer svc = true)) := by
      simp only [ne_eq, not_true_eq_false, false_or]
      exact hcnt
    rw [if_neg hc]
    refine ⟨rfl, ?_, ?_⟩
    · simp [ctx_set_port, sock4_xlate_fwd_key]
    · simp [ctx_set_port, sock4_xlate_fwd_key]

theorem sock4_xlate_fwd_rev_round_trip_witness :
    (__sock4_xlate_fwd ex_cfg ex_env ex_kernel ex_maps ex_ctx ex_ctx false).ctx.user_ip4 =
      ex_backend1.address ∧
    (__sock4_xlate_fwd ex_cfg ex_env ex_kernel ex_maps ex_ctx ex_ctx false).ctx.user_port =
      ex_backend1.port ∧
    (__sock4_xlate_rev ex_cfg ex_env
        (__sock4_xlate_fwd ex_cfg ex_env ex_kernel ex_maps ex_ctx ex_ctx false).maps
        ex_ctx_backend1 ex_ctx).ret = 0 ∧
    (__sock4_xlate_rev ex_cfg ex_env
        (__sock4_xlate_fwd ex_cfg ex_env ex_kernel ex_maps ex_ctx ex_ctx false).maps
        ex_ctx_backend1 ex_ctx).ctx.user_ip4 = ex_ctx.user_ip4 ∧
    (__sock4_xlate_rev ex_cfg ex_env
        (__sock4_xlate_fwd ex_cfg ex_env ex_kernel ex_maps ex_ctx ex_ctx false).maps
        ex_ctx_backend1 ex_ctx).ctx.user_port = ctx_dst_port ex_ctx :=
  sock4_xlate_fwd_rev_round_trip ex_cfg ex_env ex_kernel ex_maps ex_ctx ex_ctx false
    ex_backend1 ex_svc ex_maps ex_ctx_backend1 ex_ctx rfl rfl rfl rfl rfl rfl rfl

/-! ## Pass-through -/

theorem sock4_lookup_with_wildcard_none (cfg : Config) (env : Env) (key : lb4_key)
    (protocol : Nat) (in_hostns : Bool)
    (hexact : (env.lb4_lookup_service key true).1 = none)
    (hwild : (sock4_wildcard_lookup_full cfg env
      (lb4_key_set_protocol cfg (env.lb4_lookup_service key true).2 protocol) in_hostns).1 = none) :
    (sock4_lookup_with_wildcard cfg env key protocol in_hostns).1 = none := by
  unfold sock4_lookup_with_wildcard
  simp only [hexact]
  exact hwild

theorem sock4_fwd_body_miss (cfg : Config) (env : Env) (k : Kernel) (maps : Maps)
    (ctx ctx_full : bpf_sock_addr) (udp_only : Bool)
    (hmiss : (sock4_lookup_with_wildcard cfg env (sock4_xlate_fwd_key cfg ctx) (ctx_protocol ctx)
      (ctx_in_hostns cfg ctx_full.sk)).1 = none) :
    __sock4_xlate_fwd_body cfg env k maps ctx ctx_full udp_only = .ret (- ENXIO) ∨
      __sock4_xlate_fwd_body cfg env k maps ctx ctx_full udp_only = .ret (-ENOTSUP) := by
  unfold __sock4_xlate_fwd_body
  simp only [hmiss]
  split
  · exact Or.inl rfl
  · split
    · exact Or.inr rfl
    · exact Or.inl rfl

theorem sock4_fwd_miss (cfg : Config) (env : Env) (k : Kernel) (maps : Maps)
    (ctx ctx_full : bpf_sock_addr) (udp_only : Bool)
    (hmiss : (sock4_lookup_with_wildcard cfg env (sock4_xlate_fwd_key cfg ctx) (ctx_protocol ctx)
      (ctx_in_hostns cfg ctx_full.sk)).1 = none) :
    ((__sock4_xlate_fwd cfg env k maps ctx ctx_full udp_only).ret = - ENXIO ∨
      (__sock4_xlate_fwd cfg env k maps ctx ctx_full udp_only).ret = -ENOTSUP) ∧
    (__sock4_xlate_fwd cfg env k maps ctx ctx_full udp_only).ctx = ctx ∧
    (__sock4_xlate_fwd cfg env k maps ctx ctx_full udp_only).maps = maps := by
  unfold __sock4_xlate_fwd
  rcases sock4_fwd_body_miss cfg env k maps ctx ctx_full udp_only hmiss with h | h
  · rw [h]
    exact ⟨Or.inl rfl, rfl, rfl⟩
  · rw [h]
    exact ⟨Or.inr rfl, rfl, rfl⟩

/-- C2: pass-through. For every v4 connect or sendmsg event whose destination matches no
service, neither by the exact lookup nor by the wildcard fallback, `cil_sock4_connect` and
`cil_sock4_sendmsg` return `SYS_PROCEED`, set no error, and leave the event (so its
destination address and port) and the maps as they were on entry. -/
theorem cil_sock4_connect_sendmsg_pass_through (cfg : Config) (env : Env) (k : Kernel)
    (maps : Maps) (ctx : bpf_sock_addr)
    (hexact : (env.lb4_lookup_service (sock4_xlate_fwd_key cfg ctx) true).1 = none)
    (hwild : (sock4_wildcard_lookup_full cfg env
      (lb4_key_set_protocol cfg (env.lb4_lookup_service (sock4_xlate_fwd_key cfg ctx) true).2
        (ctx_protocol ctx)) (ctx_in_hostns cfg ctx.sk)).1 = none) :
    ((cil_sock4_connect cfg env k maps ctx).verdict = SYS_PROCEED ∧
      (cil_sock4_connect cfg env k maps ctx).retval = none ∧
      (cil_sock4_connect cfg env k maps ctx).ctx = ctx ∧
      (cil_sock4_connect cfg env k maps ctx).maps = maps) ∧
    ((cil_sock4_sendmsg cfg env k maps ctx).verdict = SYS_PROCEED ∧
      (cil_sock4_sendmsg cfg env k maps ctx).retval = none ∧
      (cil_sock4_sendmsg cfg env k maps ctx).ctx = ctx ∧
      (cil_sock4_sendmsg cfg env k maps ctx).maps = maps) := by
  have hmiss := sock4_lookup_with_wildcard_none cfg env _ _ _ hexact hwild
  have hne : ∀ r : Int, (r = - ENXIO ∨ r = -ENOTSUP) → ¬ (r = -EHOSTUNREACH ∨ r = -ENOMEM) := by
    intro r hr
    rcases hr with h | h <;> simp [h, ENXIO, ENOTSUP, EHOSTUNREACH, ENOMEM]
  constructor
  · obtain ⟨hr, hc, hm⟩ := sock4_fwd_miss cfg env k maps ctx ctx false hmiss
    unfold cil_sock4_connect
    split
    · exact ⟨rfl, rfl, rfl, rfl⟩
    · simp only
      rw [if_neg (hne _ hr)]
      exact ⟨rfl, rfl, hc, hm⟩
  · obtain ⟨hr, hc, hm⟩ := sock4_fwd_miss cfg env k maps ctx ctx true hmiss
    unfold cil_sock4_sendmsg
    simp only
    rw [if_neg (hne _ hr)]
    exact ⟨rfl, rfl, hc, hm⟩

theorem cil_sock4_connect_sendmsg_pass_through_witness :
    ((cil_sock4_connect ex_cfg ex_env ex_kernel ex_maps ex_ctx_noservice).verdict =
        SYS_PROCEED ∧
      (cil_sock4_connect ex_cfg ex_env ex_kernel ex_maps ex_ctx_noservice).retval = none ∧
      (cil_sock4_connect ex_cfg ex_env ex_kernel ex_maps ex_ctx_noservice).ctx =
        ex_ctx_noservice ∧
      (cil_sock4_connect ex_cfg ex_env ex_kernel ex_maps ex_ctx_noservice).maps = ex_maps) ∧
    ((cil_sock4_sendmsg ex_cfg ex_env ex_kernel ex_maps ex_ctx_noservice).verdict =
        SYS_PROCEED ∧
      (cil_sock4_sendmsg ex_cfg ex_env ex_kernel ex_maps ex_ctx_noservice).retval = none ∧
      (cil_sock4_sendmsg ex_cfg ex_env ex_kernel ex_maps ex_ctx_noservice).ctx =
        ex_ctx_noservice ∧
      (cil_sock4_sendmsg ex_cfg ex_env ex_kernel ex_maps ex_ctx_noservice).maps = ex_maps) :=
  cil_sock4_connect_sendmsg_pass_through ex_cfg ex_env ex_kernel ex_maps ex_ctx_noservice
    (by decide) (by decide)

/-! ## Reverse translation -/

theorem map_delete_elem_absent {κ ν : Type} [DecidableEq κ] (m : κ → Option ν) (key : κ)
    (h : m key = none) : (map_delete_elem m key).2 = m := by
  funext x
  unfold map_delete_elem
  by_cases hx : x = key
  · simp [hx, h]
  · simp [hx]

theorem sock4_xlate_rev_absent (cfg : Config) (env : Env) (maps : Maps)
    (ctx ctx_full : bpf_sock_addr)
    (h : maps.cilium_lb4_reverse_sk (sock4_xlate_rev_tuple ctx ctx_full) = none) :
    __sock4_xlate_rev cfg env maps ctx ctx_full = { ret := - ENXIO, ctx := ctx, maps := maps } := by
  unfold __sock4_xlate_rev
  simp only [map_lookup_elem, h]

/-- The reverse translation with an entry `val` under the socket's key: the three staleness
checks decide between the rewrite and the deletion of the entry. -/
theorem sock4_xlate_rev_present (cfg : Config) (env : Env) (maps : Maps)
    (ctx ctx_full : bpf_sock_addr) (val : ipv4_revnat_entry)
    (h : maps.cilium_lb4_reverse_sk (sock4_xlate_rev_tuple ctx ctx_full) = some val) :
    __sock4_xlate_rev cfg env maps ctx ctx_full =
      if ∃ svc, (sock4_lookup_with_wildcard cfg env (sock4_xlate_rev_key cfg ctx val)
            (ctx_protocol ctx) (ctx_in_hostns cfg ctx_full.sk)).1 = some svc ∧
          svc.rev_nat_index = val.rev_nat_index ∧
          (svc.count ≠ 0 ∨ lb4_svc_is_l7_loadbalancer svc = true) then
        { ret := 0, ctx := { ctx with user_ip4 := val.address, user_port := val.port },
          maps := maps }
      else
        { ret := -ENOENT, ctx := ctx,
          maps := { maps with
            cilium_lb4_reverse_sk := fun x =>
              if x = sock4_xlate_rev_tuple ctx ctx_full then none
              else maps.cilium_lb4_reverse_sk x } } := by
  unfold __sock4_xlate_rev
  simp only [map_lookup_elem, h, map_delete_elem]
  split
  · rename_i hnone
    rw [if_neg]
    rintro ⟨svc, hs, -⟩
    rw [hnone] at hs
    cases hs
  · rename_i svc hsome
    by_cases hc : svc.rev_nat_index ≠ val.rev_nat_index ∨
        (svc.count = 0 ∧ ¬ lb4_svc_is_l7_loadbalancer svc = true)
    · rw [if_pos hc, if_neg]
      rintro ⟨svc2, hs, hidx, hcnt⟩
      rw [hsome] at hs
      cases hs
      rcases hc with hc | ⟨h0, hl⟩
      · exact hc hidx
      · rcases hcnt with hcnt | hcnt
        · exact hcnt h0
        · exact hl hcnt
    · rw [if_neg hc, if_pos]
      · rfl
      · refine ⟨svc, hsome, ?_, ?_⟩
        · by_contra hne
          exact hc (Or.inl hne)
        · by_contra hne
          simp only [not_or, not_not] at hne
          exact hc (Or.inr ⟨hne.1, by simpa using hne.2⟩)

/-- C3: staleness self-heal. If the reverse-NAT map holds an entry `val` for (socket cookie,
current address, current port) and the service recorded in it resolves neither exactly nor
by wildcard, `__sock4_xlate_rev` returns `-ENOENT`, leaves the event unchanged and removes
that entry (every other entry and every other map is untouched); a second identical call
finds no entry, returns `-ENXIO` and changes neither the event nor the maps. -/
theorem sock4_xlate_rev_self_heal (cfg : Config) (env : Env) (maps : Maps)
    (ctx ctx_full : bpf_sock_addr) (val : ipv4_revnat_entry)
    (hentry : maps.cilium_lb4_reverse_sk (sock4_xlate_rev_tuple ctx ctx_full) = some val)
    (hexact : (env.lb4_lookup_service (sock4_xlate_rev_key cfg ctx val) true).1 = none)
    (hwild : (sock4_wildcard_lookup_full cfg env
      (lb4_key_set_protocol cfg (env.lb4_lookup_service (sock4_xlate_rev_key cfg ctx val) true).2
        (ctx_protocol ctx)) (ctx_in_hostns cfg ctx_full.sk)).1 = none) :
    (__sock4_xlate_rev cfg env maps ctx ctx_full).ret = -ENOENT ∧
    (__sock4_xlate_rev cfg env maps ctx ctx_full).ctx = ctx ∧
    (__sock4_xlate_rev cfg env maps ctx ctx_full).maps.cilium_lb4_reverse_sk
      (sock4_xlate_rev_tuple ctx ctx_full) = none ∧
    (∀ x, x ≠ sock4_xlate_rev_tuple ctx ctx_full →
      (__sock4_xlate_rev cfg env maps ctx ctx_full).maps.cilium_lb4_reverse_sk x =
        maps.cilium_lb4_reverse_sk x) ∧
    (__sock4_xlate_rev cfg env maps ctx ctx_full).maps =
      { maps with cilium_lb4_reverse_sk :=
          (__sock4_xlate_rev cfg env maps ctx ctx_full).maps.cilium_lb4_reverse_sk } ∧
    (__sock4_xlate_rev cfg env (__sock4_xlate_rev cfg env maps ctx ctx_full).maps
      (__sock4_xlate_rev cfg env maps ctx ctx_full).ctx ctx_full).ret = - ENXIO ∧
    (__sock4_xlate_rev cfg env (__sock4_xlate_rev cfg env maps ctx ctx_full).maps
      (__sock4_xlate_rev cfg env maps ctx ctx_full).ctx ctx_full).ctx = ctx ∧
    (__sock4_xlate_rev cfg env (__sock4_xlate_rev cfg env maps ctx ctx_full).maps
      (__sock4_xlate_rev cfg env maps ctx ctx_full).ctx ctx_full).maps =
        (__sock4_xlate_rev cfg env maps ctx ctx_full).maps := by
  have hmiss := sock4_lookup_with_wildcard_none cfg env _ _ _ hexact hwild
  have h1 := sock4_xlate_rev_present cfg env maps ctx ctx_full val hentry
  rw [if_neg] at h1
  swap
  · rintro ⟨svc, hs, -⟩
    rw [hmiss] at hs
    cases hs
  rw [h1]
  dsimp only
  have h2 := sock4_xlate_rev_absent cfg env
    { maps with cilium_lb4_reverse_sk := fun x =>
        if x = sock4_xlate_rev_tuple ctx ctx_full then none else maps.cilium_lb4_reverse_sk x }
    ctx ctx_full (by simp)
  rw [h2]
  refine ⟨rfl, rfl, by simp, ?_, rfl, rfl, rfl, rfl⟩
  intro x hx
  simp [hx]

theorem sock4_xlate_rev_self_heal_witness :
    (__sock4_xlate_rev ex_cfg ex_env ex_maps_stale ex_ctx_backend1 ex_ctx).ret = -ENOENT ∧
    (__sock4_xlate_rev ex_cfg ex_env
      (__sock4_xlate_rev ex_cfg ex_env ex_maps_stale ex_ctx_backend1 ex_ctx).maps
      (__sock4_xlate_rev ex_cfg ex_env ex_maps_stale ex_ctx_backend1 ex_ctx).ctx ex_ctx).ret =
        - ENXIO :=
  have h := sock4_xlate_rev_self_heal ex_cfg ex_env ex_maps_stale ex_ctx_backend1 ex_ctx
    { address := bswap32 0x0A600063, port := ex_vport, rev_nat_index := 9 }
    (by decide) (by decide) (by decide)
  ⟨h.1, h.2.2.2.2.2.1⟩

/-- C4: reverse translation is decided exactly by the staleness checks. `__sock4_xlate_rev`
returns `0` if and only if a reverse-NAT entry exists for (socket cookie, current address,
current port), the service re-resolved from the entry's original endpoint (exact lookup, then
wildcard) exists, its `rev_nat_index` equals the entry's and it has `count != 0` or is an L7
load balancer; when it returns `0` the endpoint is the entry's original address and port and
the maps are unchanged; when an entry exists and a check fails the result is `-ENOENT`, the
entry is deleted (nothing else is) and the event is unchanged. -/
theorem sock4_xlate_rev_decided_by_checks (cfg : Config) (env : Env) (maps : Maps)
    (ctx ctx_full : bpf_sock_addr) :
    ((__sock4_xlate_rev cfg env maps ctx ctx_full).ret = 0 ↔
      ∃ val svc, maps.cilium_lb4_reverse_sk (sock4_xlate_rev_tuple ctx ctx_full) = some val ∧
        (sock4_lookup_with_wildcard cfg env (sock4_xlate_rev_key cfg ctx val)
          (ctx_protocol ctx) (ctx_in_hostns cfg ctx_full.sk)).1 = some svc ∧
        svc.rev_nat_index = val.rev_nat_index ∧
        (svc.count ≠ 0 ∨ lb4_svc_is_l7_loadbalancer svc = true)) ∧
    (∀ val, maps.cilium_lb4_reverse_sk (sock4_xlate_rev_tuple ctx ctx_full) = some val →
      ((__sock4_xlate_rev cfg env maps ctx ctx_full).ret = 0 →
        (__sock4_xlate_rev cfg env maps ctx ctx_full).ctx =
          { ctx with user_ip4 := val.address, user_port := val.port } ∧
        (__sock4_xlate_rev cfg env maps ctx ctx_full).maps = maps) ∧
      ((__sock4_xlate_rev cfg env maps ctx ctx_full).ret ≠ 0 →
        (__sock4_xlate_rev cfg env maps ctx ctx_full).ret = -ENOENT ∧
        (__sock4_xlate_rev cfg env maps ctx ctx_full).ctx = ctx ∧
        (__sock4_xlate_rev cfg env maps ctx ctx_full).maps =
          { maps with cilium_lb4_reverse_sk := fun x =>
              if x = sock4_xlate_rev_tuple ctx ctx_full then none
              else maps.cilium_lb4_reverse_sk x })) := by
  constructor
  · cases hv : maps.cilium_lb4_reverse_sk (sock4_xlate_rev_tuple ctx ctx_full) with
    | none =>
      rw [sock4_xlate_rev_absent cfg env maps ctx ctx_full hv]
      simp [ ENXIO]
    | some val =>
      rw [sock4_xlate_rev_present cfg env maps ctx ctx_full val hv]
      constructor
      · intro h
        split at h
        · rename_i hc
          obtain ⟨svc, hs⟩ := hc
          exact ⟨val, svc, rfl, hs⟩
        · simp [ENOENT] at h
      · rintro ⟨val2, svc, hv2, hs⟩
        cases hv2
        rw [if_pos ⟨svc, hs⟩]
  · intro val hv
    rw [sock4_xlate_rev_present cfg env maps ctx ctx_full val hv]
    split
    · exact ⟨fun _ => ⟨rfl, rfl⟩, fun h => absurd rfl h⟩
    · refine ⟨fun h => ?_, fun _ => ⟨rfl, rfl, rfl⟩⟩
      simp [ENOENT] at h

/-! ## Bind guard -/

theorem sock_proto_enabled_iff (proto : Nat) :
    sock_proto_enabled proto = true ↔
      proto = IPPROTO_TCP ∨ proto = IPPROTO_UDP ∨ proto = IPPROTO_UDPLITE := by
  unfold sock_proto_enabled
  split
  · simp [*]
  · split
    · rename_i h1 h2
      simp only [true_iff]
      rcases h2 with h2 | h2
      · exact Or.inr (Or.inr h2)
      · exact Or.inr (Or.inl h2)
    · rename_i h1 h2
      simp only [not_or] at h2
      simp [h1, h2.1, h2.2]

/-- The value `__sock4_post_bind` returns: `-EADDRINUSE` exactly under the guard's
conditions, `0` otherwise. -/
theorem sock4_post_bind_eq (cfg : Config) (env : Env) (ctx ctx_full : bpf_sock) :
    __sock4_post_bind cfg env ctx ctx_full =
      if sock_proto_enabled (sk_protocol ctx) = true ∧ ctx_in_hostns cfg ctx_full.sk = true ∧
          ∃ svc, sock4_post_bind_lookup cfg env (sock4_post_bind_key cfg ctx) (sk_protocol ctx) =
              some svc ∧
            (lb4_svc_is_nodeport svc = true ∨ lb4_svc_is_external_ip svc = true ∨
              lb4_svc_is_loadbalancer svc = true) ∧
            __lb4_svc_is_l7_loadbalancer svc = false ∧ lb4_svc_is_l7_punt_proxy svc = false
      then -EADDRINUSE else 0 := by
  unfold __sock4_post_bind
  simp only
  split
  · rename_i h
    rw [if_neg]
    rintro ⟨hp, hh, -⟩
    rcases h with h | h
    · exact h hp
    · exact h hh
  · rename_i h
    simp only [not_or, not_not] at h
    split
    · rename_i svc hs
      split
      · rename_i hf
        rw [if_pos]
        refine ⟨h.1, h.2, svc, hs, hf.1, ?_, ?_⟩
        · simpa using hf.2.1
        · simpa using hf.2.2
      · rename_i hf
        rw [if_neg]
        rintro ⟨-, -, svc2, hs2, hf1, hf2, hf3⟩
        rw [hs] at hs2
        cases hs2
        exact hf ⟨hf1, by simp [hf2], by simp [hf3]⟩
    · rename_i hs
      rw [if_neg]
      rintro ⟨-, -, svc2, hs2, -⟩
      rw [hs] at hs2
      cases hs2

/-- C8: connect/sendmsg rejection. `cil_sock4_connect`, for a socket that is not a
health-check probe, and `cil_sock4_sendmsg` return `SYS_REJECT` if and only if
`__sock4_xlate_fwd` returns `-EHOSTUNREACH` or `-ENOMEM`, and then that code is the error
handed to `try_set_retval`; for every other result (among them `-ENXIO`, `-EPERM` and
`-ENOTSUP`) they return `SYS_PROCEED` and set no error. -/
theorem cil_sock4_connect_sendmsg_reject_iff (cfg : Config) (env : Env) (k : Kernel)
    (maps : Maps) (ctx : bpf_sock_addr) :
    (sock_is_health_check cfg ctx = false →
      ((cil_sock4_connect cfg env k maps ctx).verdict = SYS_REJECT ↔
        (__sock4_xlate_fwd cfg env k maps ctx ctx false).ret = -EHOSTUNREACH ∨
        (__sock4_xlate_fwd cfg env k maps ctx ctx false).ret = -ENOMEM) ∧
      ((cil_sock4_connect cfg env k maps ctx).verdict = SYS_REJECT →
        (cil_sock4_connect cfg env k maps ctx).retval =
          some (__sock4_xlate_fwd cfg env k maps ctx ctx false).ret) ∧
      ((cil_sock4_connect cfg env k maps ctx).verdict ≠ SYS_REJECT →
        (cil_sock4_connect cfg env k maps ctx).verdict = SYS_PROCEED ∧
        (cil_sock4_connect cfg env k maps ctx).retval = none)) ∧
    (((cil_sock4_sendmsg cfg env k maps ctx).verdict = SYS_REJECT ↔
        (__sock4_xlate_fwd cfg env k maps ctx ctx true).ret = -EHOSTUNREACH ∨
        (__sock4_xlate_fwd cfg env k maps ctx ctx true).ret = -ENOMEM) ∧
      ((cil_sock4_sendmsg cfg env k maps ctx).verdict = SYS_REJECT →
        (cil_sock4_sendmsg cfg env k maps ctx).retval =
          some (__sock4_xlate_fwd cfg env k maps ctx ctx true).ret) ∧
      ((cil_sock4_sendmsg cfg env k maps ctx).verdict ≠ SYS_REJECT →
        (cil_sock4_sendmsg cfg env k maps ctx).verdict = SYS_PROCEED ∧
        (cil_sock4_sendmsg cfg env k maps ctx).retval = none)) := by
  constructor
  · intro hh
    unfold cil_sock4_connect
    rw [if_neg (by simp [hh])]
    simp only
    split
    · rename_i hc
      exact ⟨⟨fun _ => hc, fun _ => rfl⟩, fun _ => rfl, fun h => absurd rfl h⟩
    · rename_i hc
      refine ⟨⟨fun h => ?_, fun h => absurd h hc⟩, fun h => ?_, fun _ => ⟨rfl, rfl⟩⟩
      · simp [SYS_PROCEED, SYS_REJECT] at h
      · simp [SYS_PROCEED, SYS_REJECT] at h
  · unfold cil_sock4_sendmsg
    simp only
    split
    · rename_i hc
      exact ⟨⟨fun _ => hc, fun _ => rfl⟩, fun _ => rfl, fun h => absurd rfl h⟩
    · rename_i hc
      refine ⟨⟨fun h => ?_, fun h => absurd h hc⟩, fun h => ?_, fun _ => ⟨rfl, rfl⟩⟩
      · simp [SYS_PROCEED, SYS_REJECT] at h
      · simp [SYS_PROCEED, SYS_REJECT] at h

/-! ## Wildcard lookup -/

/-- C9: wildcard priority. In `sock4_wildcard_lookup_full`, whenever the NodePort-range pass
(the first call of `sock4_wildcard_lookup`) finds a service flagged NodePort, that service is
the result, whatever the HostPort pass gives; and a result comes from exactly one pass: either
it is what the first pass found, flagged NodePort, or the first pass found no NodePort
service and it is what the second pass found. -/
theorem sock4_wildcard_lookup_full_priority (cfg : Config) (env : Env) (key : lb4_key)
    (in_hostns : Bool) (hnp : cfg.ENABLE_NODEPORT = true) :
    (∀ svc, (sock4_wildcard_lookup cfg env key true false in_hostns).1 = some svc →
      lb4_svc_is_nodeport svc = true →
      (sock4_wildcard_lookup_full cfg env key in_hostns).1 = some svc) ∧
    (∀ svc, (sock4_wildcard_lookup_full cfg env key in_hostns).1 = some svc →
      ((sock4_wildcard_lookup cfg env key true false in_hostns).1 = some svc ∧
        lb4_svc_is_nodeport svc = true) ∨
      ((¬ ∃ s1, (sock4_wildcard_lookup cfg env key true false in_hostns).1 = some s1 ∧
          lb4_svc_is_nodeport s1 = true) ∧
        (sock4_wildcard_lookup cfg env
          { (sock4_wildcard_lookup cfg env key true false in_hostns).2 with
            address := key.address } false true in_hostns).1 = some svc ∧
        lb4_svc_is_hostport svc = true ∧
        (lb4_svc_is_loopback svc = false ∨ is_v4_loopback cfg key.address = true))) := by
  unfold sock4_wildcard_lookup_full
  simp only [hnp, if_true]
  generalize sock4_wildcard_lookup cfg env key true false in_hostns = r1
  generalize sock4_wildcard_lookup cfg env { r1.2 with address := key.address } false true
    in_hostns = r2
  obtain ⟨o1, k1⟩ := r1
  obtain ⟨o2, k2⟩ := r2
  constructor
  · intro svc h1 hn
    simp only at h1
    subst h1
    simp [hn]
  · intro svc h
    cases o1 with
    | some s1 =>
      by_cases hn : lb4_svc_is_nodeport s1 = true
      · simp only [hn, if_true] at h
        cases h
        exact Or.inl ⟨rfl, hn⟩
      · simp only [hn] at h
        right
        refine ⟨by simpa using hn, ?_⟩
        cases o2 with
        | some s2 =>
          by_cases hc : (lb4_svc_is_hostport s2 &&
              (!lb4_svc_is_loopback s2 || is_v4_loopback cfg key.address)) = true
          · simp only [hc, if_true] at h
            simp only [Bool.false_eq_true, if_false, Option.some.injEq] at h
            subst h
            simp only [Bool.and_eq_true, Bool.or_eq_true, Bool.not_eq_true'] at hc
            exact ⟨rfl, hc.1, hc.2⟩
          · simp [hc] at h
        | none =>
          simp at h
    | none =>
      simp only at h
      right
      refine ⟨by simp, ?_⟩
      cases o2 with
      | some s2 =>
        by_cases hc : (lb4_svc_is_hostport s2 &&
            (!lb4_svc_is_loopback s2 || is_v4_loopback cfg key.address)) = true
        · simp only [hc, if_true] at h
          simp only [Bool.false_eq_true, if_false, Option.some.injEq] at h
          subst h
          simp only [Bool.and_eq_true, Bool.or_eq_true, Bool.not_eq_true'] at hc
          exact ⟨rfl, hc.1, hc.2⟩
        · simp [hc] at h
      | none =>
        simp at h

theorem sock4_wildcard_lookup_full_priority_witness :
    (sock4_wildcard_lookup_full ex_cfg ex_env_nodeport ex_key_nodeport false).1 =
      some ex_svc_nodeport :=
  (sock4_wildcard_lookup_full_priority ex_cfg ex_env_nodeport ex_key_nodeport false rfl).1
    ex_svc_nodeport (by decide) (by decide)

/-! ## Selection token -/

theorem sock_select_slot_of_not_tcp (k : Kernel) (ctx : bpf_sock_addr)
    (h : ctx_protocol ctx ≠ IPPROTO_TCP) : sock_select_slot k ctx = sock_local_cookie ctx := by
  unfold sock_select_slot
  rw [if_neg h]

theorem sock4_fwd_slot_indep (env : Env) (k1 k2 : Kernel) (maps : Maps)
    (ctx_full : bpf_sock_addr) (svc : lb4_service) (key : lb4_key) (client_cookie : Nat)
    (h : ctx_protocol ctx_full ≠ IPPROTO_TCP) :
    __sock4_xlate_fwd_slot env k1 maps ctx_full svc key client_cookie =
      __sock4_xlate_fwd_slot env k2 maps ctx_full svc key client_cookie := by
  unfold __sock4_xlate_fwd_slot
  rw [sock_select_slot_of_not_tcp k1 ctx_full h, sock_select_slot_of_not_tcp k2 ctx_full h]

theorem sock4_fwd_select_indep (env : Env) (k1 k2 : Kernel) (maps : Maps)
    (ctx_full : bpf_sock_addr) (svc : lb4_service) (key : lb4_key) (client_cookie : Nat)
    (h : ctx_protocol ctx_full ≠ IPPROTO_TCP) :
    __sock4_xlate_fwd_select env k1 maps ctx_full svc key client_cookie =
      __sock4_xlate_fwd_select env k2 maps ctx_full svc key client_cookie := by
  unfold __sock4_xlate_fwd_select
  rw [sock4_fwd_slot_indep env k1 k2 maps ctx_full svc key client_cookie h]

theorem sock4_fwd_body_indep (cfg : Config) (env : Env) (k1 k2 : Kernel) (maps : Maps)
    (ctx ctx_full : bpf_sock_addr) (udp_only : Bool)
    (h : ctx_protocol ctx_full ≠ IPPROTO_TCP) :
    __sock4_xlate_fwd_body cfg env k1 maps ctx ctx_full udp_only =
      __sock4_xlate_fwd_body cfg env k2 maps ctx ctx_full udp_only := by
  unfold __sock4_xlate_fwd_body
  simp only [sock4_fwd_select_indep env k1 k2 maps ctx_full _ _ _ h]

/-- A fresh selection that ends with the backend `B` ends with `B` again on any maps, whatever
the kernel draws, when the socket is not a TCP socket. -/
theorem sock4_fwd_slot_again (env : Env) (k1 k2 : Kernel) (maps maps2 : Maps)
    (ctx_full : bpf_sock_addr) (svc : lb4_service) (key : lb4_key) (client_cookie : Nat)
    (B : lb4_backend) (s : lb4_service) (m : Maps)
    (hp : ctx_protocol ctx_full ≠ IPPROTO_TCP)
    (h : __sock4_xlate_fwd_slot env k1 maps ctx_full svc key client_cookie = .out B s m) :
    ∃ m2, __sock4_xlate_fwd_slot env k2 maps2 ctx_full svc key client_cookie = .out B svc m2 := by
  unfold __sock4_xlate_fwd_slot at h ⊢
  rw [sock_select_slot_of_not_tcp k1 ctx_full hp] at h
  rw [sock_select_slot_of_not_tcp k2 ctx_full hp]
  simp only at h ⊢
  split at h
  · cases h
  · rename_i bs hbs
    obtain ⟨-, hb, -⟩ := sock4_fwd_selected_out _ _ _ _ _ _ _ _ _ h
    rw [hb]
    unfold __sock4_xlate_fwd_selected
    simp only
    split
    · exact ⟨_, rfl⟩
    · exact ⟨_, rfl⟩

/-- A fresh selection for an affinity service that ends at `out` has written the id of the
chosen backend into the affinity map. -/
theorem sock4_fwd_slot_affinity_written (env : Env) (k : Kernel) (maps : Maps)
    (ctx_full : bpf_sock_addr) (svc : lb4_service) (key : lb4_key) (client_cookie : Nat)
    (B : lb4_backend) (s : lb4_service) (m : Maps)
    (ha : lb4_svc_is_affinity svc = true)
    (h : __sock4_xlate_fwd_slot env k maps ctx_full svc key client_cookie = .out B s m) :
    ∃ id, env.__lb4_lookup_backend id = some B ∧
      lb4_affinity_backend_id_by_netns m svc client_cookie = id := by
  unfold __sock4_xlate_fwd_slot at h
  simp only at h
  split at h
  · cases h
  · rename_i bs hbs
    refine ⟨bs.backend_id, ?_, ?_⟩
    · exact (sock4_fwd_selected_out _ _ _ _ _ _ _ _ _ h).2.1
    · unfold __sock4_xlate_fwd_selected at h
      split at h
      · cases h
      · rw [if_pos ⟨ha, by simp⟩] at h
        cases h
        simp [lb4_affinity_backend_id_by_netns, lb4_update_affinity_by_netns]

theorem sock4_fwd_slot_fill (env : Env) (k1 k2 : Kernel) (maps maps2 : Maps)
    (ctx_full : bpf_sock_addr) (svc : lb4_service) (key : lb4_key) (client_cookie : Nat)
    (B : lb4_backend) (s : lb4_service) (m : Maps)
    (hp : ctx_protocol ctx_full ≠ IPPROTO_TCP)
    (ha : lb4_svc_is_affinity svc = true)
    (h : __sock4_xlate_fwd_slot env k1 maps ctx_full svc key client_cookie = .out B s m)
    (hm : maps2.cilium_lb4_affinity = m.cilium_lb4_affinity) :
    ∃ m2, (if lb4_affinity_backend_id_by_netns maps2 svc client_cookie ≠ 0 then
        match env.__lb4_lookup_backend (lb4_affinity_backend_id_by_netns maps2 svc client_cookie)
          with
        | some b => __sock4_xlate_fwd_selected maps2 svc client_cookie (some b)
            (lb4_affinity_backend_id_by_netns maps2 svc client_cookie) true
        | none => __sock4_xlate_fwd_slot env k2 maps2 ctx_full svc key client_cookie
      else __sock4_xlate_fwd_slot env k2 maps2 ctx_full svc key client_cookie) =
        .out B svc m2 := by
  obtain ⟨id, hb, hid⟩ := sock4_fwd_slot_affinity_written env k1 maps ctx_full svc key
    client_cookie B s m ha h
  have hid2 : lb4_affinity_backend_id_by_netns maps2 svc client_cookie = id := by
    rw [← hid]
    unfold lb4_affinity_backend_id_by_netns
    rw [hm]
  rw [hid2]
  by_cases h0 : id ≠ 0
  · rw [if_pos h0, hb]
    exact ⟨maps2, by simp [__sock4_xlate_fwd_selected]⟩
  · rw [if_neg h0]
    exact sock4_fwd_slot_again env k1 k2 maps maps2 ctx_full svc key client_cookie B s m hp h

/-- What the affinity map holds for the client after a selection that ended at `out`: either
the map is as before, or it names an existing backend id whose record is the chosen backend. -/
theorem sock4_fwd_select_again (env : Env) (k1 k2 : Kernel) (maps maps2 : Maps)
    (ctx_full : bpf_sock_addr) (svc : lb4_service) (key : lb4_key) (client_cookie : Nat)
    (B : lb4_backend) (s : lb4_service) (m : Maps)
    (hp : ctx_protocol ctx_full ≠ IPPROTO_TCP)
    (h : __sock4_xlate_fwd_select env k1 maps ctx_full svc key client_cookie = .out B s m)
    (hm : maps2.cilium_lb4_affinity = m.cilium_lb4_affinity) :
    ∃ m2, __sock4_xlate_fwd_select env k2 maps2 ctx_full svc key client_cookie =
      .out B svc m2 := by
  unfold __sock4_xlate_fwd_select at h ⊢
  by_cases ha : lb4_svc_is_affinity svc = true
  · simp only [ha, if_true] at h ⊢
    by_cases hid : lb4_affinity_backend_id_by_netns maps svc client_cookie ≠ 0
    · rw [if_pos hid] at h
      cases hb : env.__lb4_lookup_backend (lb4_affinity_backend_id_by_netns maps svc client_cookie)
        with
      | some b =>
        rw [hb] at h
        simp only [__sock4_xlate_fwd_selected, not_true_eq_false, and_false, if_false] at h
        cases h
        have hid2 : lb4_affinity_backend_id_by_netns maps2 svc client_cookie =
            lb4_affinity_backend_id_by_netns maps svc client_cookie := by
          unfold lb4_affinity_backend_id_by_netns
          rw [hm]
        rw [hid2, if_pos hid, hb]
        exact ⟨maps2, by simp [__sock4_xlate_fwd_selected]⟩
      | none =>
        rw [hb] at h
        simp only at h
        exact sock4_fwd_slot_fill env k1 k2 maps maps2 ctx_full svc key client_cookie B s m hp
          ha h hm
    · rw [if_neg hid] at h
      exact sock4_fwd_slot_fill env k1 k2 maps maps2 ctx_full svc key client_cookie B s m hp
        ha h hm
  · simp only [ha] at h ⊢
    exact sock4_fwd_slot_again env k1 k2 maps maps2 ctx_full svc key client_cookie B s m hp h

theorem sock4_fwd_body_again (cfg : Config) (env : Env) (k1 k2 : Kernel) (maps maps2 : Maps)
    (ctx ctx_full : bpf_sock_addr) (udp_only : Bool) (B : lb4_backend) (svc : lb4_service)
    (m : Maps) (hp : ctx_protocol ctx_full ≠ IPPROTO_TCP)
    (h : __sock4_xlate_fwd_body cfg env k1 maps ctx ctx_full udp_only = .out B svc m)
    (hm : maps2.cilium_lb4_affinity = m.cilium_lb4_affinity) :
    ∃ m2, __sock4_xlate_fwd_body cfg env k2 maps2 ctx ctx_full udp_only = .out B svc m2 := by
  unfold __sock4_xlate_fwd_body at h ⊢
  simp only at h ⊢
  split at h
  · cases h
  rename_i h1
  rw [if_neg h1]
  split at h
  · cases h
  rename_i h2
  rw [if_neg h2]
  cases hr : (sock4_lookup_with_wildcard cfg env (sock4_xlate_fwd_key cfg ctx) (ctx_protocol ctx)
    (ctx_in_hostns cfg ctx_full.sk)).1 with
  | none =>
    rw [hr] at h
    cases h
  | some svc0 =>
    rw [hr] at h
    simp only at h ⊢
    split at h
    · cases h
    rename_i h3
    rw [if_neg h3]
    split at h
    · cases h
    rename_i h4
    rw [if_neg h4]
    split at h
    · cases h
    rename_i h5
    rw [if_neg h5]
    split at h
    · cases h
    rename_i h6
    rw [if_neg h6]
    split at h
    · rename_i h7
      rw [if_pos h7]
      split at h
      · rename_i h8
        rw [if_pos h8]
        cases h
        exact ⟨maps2, rfl⟩
      · cases h
    · rename_i h7
      rw [if_neg h7]
      obtain ⟨rfl, -⟩ := sock4_fwd_select_out _ _ _ _ _ _ _ _ _ _ h
      exact sock4_fwd_select_again env k1 k2 maps maps2 ctx_full _ _ _ B _ m hp h hm

theorem sock4_update_revnat_frame (k : Kernel) (maps : Maps) (ctx : bpf_sock_addr)
    (backend : lb4_backend) (orig_key : lb4_key) (rev_nat_id : Nat) :
    (sock4_update_revnat k maps ctx backend orig_key rev_nat_id).2 =
      { maps with cilium_lb4_reverse_sk :=
          (sock4_update_revnat k maps ctx backend orig_key rev_nat_id).2.cilium_lb4_reverse_sk } := by
  unfold sock4_update_revnat
  simp only
  split <;> rfl

theorem sock4_fwd_maps_affinity (cfg : Config) (env : Env) (k : Kernel) (maps : Maps)
    (ctx ctx_full : bpf_sock_addr) (udp_only : Bool) (B : lb4_backend) (svc : lb4_service)
    (m : Maps)
    (h : __sock4_xlate_fwd_body cfg env k maps ctx ctx_full udp_only = .out B svc m) :
    (__sock4_xlate_fwd cfg env k maps ctx ctx_full udp_only).maps.cilium_lb4_affinity =
      m.cilium_lb4_affinity := by
  unfold __sock4_xlate_fwd
  rw [h]
  unfold __sock4_xlate_fwd_out
  simp only
  split
  · simp only
    rw [sock4_update_revnat_frame]
  · simp only
    rw [sock4_update_revnat_frame]

/-- C10: stable selection for connectionless sockets. For a TCP event the selection token
`sock_select_slot` is the value drawn by `get_prandom_u32`. For every other event it is the
socket cookie, so the body of `__sock4_xlate_fwd` (backend choice, error, affinity write) is
the same whatever the kernel draws, and a second forward translation by the same socket to
the same destination, run on the maps the first one left and with the same service, slot and
backend tables, reaches `out` with the same backend and service as the first. -/
theorem sock_select_slot_stable (cfg : Config) (env : Env) (k1 k2 : Kernel) (maps : Maps)
    (ctx ctx_full : bpf_sock_addr) (udp_only : Bool) :
    (ctx_protocol ctx_full = IPPROTO_TCP → sock_select_slot k1 ctx_full = k1.get_prandom_u32) ∧
    (ctx_protocol ctx_full ≠ IPPROTO_TCP →
      sock_select_slot k1 ctx_full = sock_local_cookie ctx_full ∧
      __sock4_xlate_fwd_body cfg env k1 maps ctx ctx_full udp_only =
        __sock4_xlate_fwd_body cfg env k2 maps ctx ctx_full udp_only ∧
      ∀ B svc m, __sock4_xlate_fwd_body cfg env k1 maps ctx ctx_full udp_only = .out B svc m →
        ∃ m2, __sock4_xlate_fwd_body cfg env k2
          (__sock4_xlate_fwd cfg env k1 maps ctx ctx_full udp_only).maps ctx ctx_full udp_only =
            .out B svc m2) := by
  constructor
  · intro h
    unfold sock_select_slot
    rw [if_pos h]
  · intro h
    refine ⟨sock_select_slot_of_not_tcp k1 ctx_full h,
      sock4_fwd_body_indep cfg env k1 k2 maps ctx ctx_full udp_only h, ?_⟩
    intro B svc m hb
    exact sock4_fwd_body_again cfg env k1 k2 maps _ ctx ctx_full udp_only B svc m h hb
      (sock4_fwd_maps_affinity cfg env k1 maps ctx ctx_full udp_only B svc m hb)

/-! ## Affinity -/

theorem sock4_update_revnat_ret (k : Kernel) (maps : Maps) (ctx : bpf_sock_addr)
    (backend : lb4_backend) (orig_key : lb4_key) (rev_nat_id : Nat)
    (h : maps.cilium_lb4_reverse_sk
        { cookie := sock_local_cookie ctx, address := backend.address, port := backend.port } =
      some { address := orig_key.address, port := orig_key.dport, rev_nat_index := rev_nat_id }) :
    sock4_update_revnat k maps ctx backend orig_key rev_nat_id = (0, maps) := by
  unfold sock4_update_revnat
  simp only [map_lookup_elem, h]
  simp

/-- The forward translation of an affinity service whose affinity entry names an existing
backend: the body ends at `out` with that backend and the maps untouched. -/
theorem sock4_fwd_body_affinity (cfg : Config) (env : Env) (k : Kernel) (maps : Maps)
    (ctx ctx_full : bpf_sock_addr) (udp_only : Bool) (svc : lb4_service) (B : lb4_backend)
    (hhost : ¬ (cfg.ENABLE_SOCKET_LB_HOST_ONLY = true ∧ ctx_in_hostns cfg ctx_full.sk = false))
    (hproto : udp_only = true ∨ sock_proto_enabled (ctx_protocol ctx) = true)
    (hsvc : (sock4_lookup_with_wildcard cfg env (sock4_xlate_fwd_key cfg ctx) (ctx_protocol ctx)
      (ctx_in_hostns cfg ctx_full.sk)).1 = some svc)
    (hcount : svc.count ≠ 0)
    (hpunt : lb4_svc_is_l7_punt_proxy svc = false)
    (hl7 : lb4_svc_is_l7_loadbalancer svc = false)
    (hskip : sock4_skip_xlate cfg env svc ctx.user_ip4 = false)
    (hlrp : ¬ (cfg.ENABLE_LOCAL_REDIRECT_POLICY = true ∧ lb4_svc_is_localredirect svc = true ∧
      env.lb4_skip_xlate_from_ctx_to_svc (get_netns_cookie ctx_full.sk) ctx.user_ip4
        (ctx_dst_port ctx) = true))
    (haff : lb4_svc_is_affinity svc = true)
    (hid : lb4_affinity_backend_id_by_netns maps svc (get_netns_cookie ctx_full.sk) ≠ 0)
    (hb : env.__lb4_lookup_backend
      (lb4_affinity_backend_id_by_netns maps svc (get_netns_cookie ctx_full.sk)) = some B) :
    __sock4_xlate_fwd_body cfg env k maps ctx ctx_full udp_only = .out B svc maps := by
  unfold __sock4_xlate_fwd_body
  simp only
  rw [if_neg (by simpa using hhost), if_neg (by
    rcases hproto with h | h <;> simp [h]), hsvc]
  simp only
  rw [if_neg (by simp [hcount]), if_neg (by simp [hpunt]),
    if_neg (by simpa [sock4_xlate_fwd_key] using hskip),
    if_neg (by simpa [sock4_xlate_fwd_key] using hlrp), if_neg (by simp [hl7])]
  unfold __sock4_xlate_fwd_select
  simp only [haff, if_true]
  rw [if_pos hid, hb]
  simp [__sock4_xlate_fwd_selected]

/-- C7 (amended): affinity stability. For a resolved service with usable backends
(`count != 0`) and affinity enabled that is neither punt-proxy nor L7 and passes the skip
policy and the local-redirect check, if the affinity map gives a non-zero backend id for the
client identity and a backend record `B` with that id exists, then for every selection token
the body of `__sock4_xlate_fwd` ends at `out` with `B` and without writing the affinity map;
if moreover the reverse-NAT write does not fail, `__sock4_xlate_fwd` returns `0` with the
destination rewritten to the address and port of `B`, and a repeated translation on the
resulting maps again returns `0` with destination `B`, whatever the kernel draws. -/
theorem sock4_xlate_fwd_affinity_stable (cfg : Config) (env : Env) (k : Kernel) (maps : Maps)
    (ctx ctx_full : bpf_sock_addr) (udp_only : Bool) (svc : lb4_service) (B : lb4_backend)
    (hhost : ¬ (cfg.ENABLE_SOCKET_LB_HOST_ONLY = true ∧ ctx_in_hostns cfg ctx_full.sk = false))
    (hproto : udp_only = true ∨ sock_proto_enabled (ctx_protocol ctx) = true)
    (hsvc : (sock4_lookup_with_wildcard cfg env (sock4_xlate_fwd_key cfg ctx) (ctx_protocol ctx)
      (ctx_in_hostns cfg ctx_full.sk)).1 = some svc)
    (hcount : svc.count ≠ 0)
    (hpunt : lb4_svc_is_l7_punt_proxy svc = false)
    (hl7 : lb4_svc_is_l7_loadbalancer svc = false)
    (hskip : sock4_skip_xlate cfg env svc ctx.user_ip4 = false)
    (hlrp : ¬ (cfg.ENABLE_LOCAL_REDIRECT_POLICY = true ∧ lb4_svc_is_localredirect svc = true ∧
      env.lb4_skip_xlate_from_ctx_to_svc (get_netns_cookie ctx_full.sk) ctx.user_ip4
        (ctx_dst_port ctx) = true))
    (haff : lb4_svc_is_affinity svc = true)
    (hid : lb4_affinity_backend_id_by_netns maps svc (get_netns_cookie ctx_full.sk) ≠ 0)
    (hb : env.__lb4_lookup_backend
      (lb4_affinity_backend_id_by_netns maps svc (get_netns_cookie ctx_full.sk)) = some B)
    (hwrite : ¬ (sock4_update_revnat k maps ctx_full B (sock4_xlate_fwd_key cfg ctx)
      svc.rev_nat_index).1 < 0) :
    (∀ k1, __sock4_xlate_fwd_body cfg env k1 maps ctx ctx_full udp_only = .out B svc maps) ∧
    (__sock4_xlate_fwd cfg env k maps ctx ctx_full udp_only).ret = 0 ∧
    (__sock4_xlate_fwd cfg env k maps ctx ctx_full udp_only).ctx.user_ip4 = B.address ∧
    (__sock4_xlate_fwd cfg env k maps ctx ctx_full udp_only).ctx.user_port = B.port ∧
    (__sock4_xlate_fwd cfg env k maps ctx ctx_full udp_only).maps.cilium_lb4_affinity =
      maps.cilium_lb4_affinity ∧
    (∀ k2,
      (__sock4_xlate_fwd cfg env k2 (__sock4_xlate_fwd cfg env k maps ctx ctx_full udp_only).maps
        ctx ctx_full udp_only).ret = 0 ∧
      (__sock4_xlate_fwd cfg env k2 (__sock4_xlate_fwd cfg env k maps ctx ctx_full udp_only).maps
        ctx ctx_full udp_only).ctx.user_ip4 = B.address ∧
      (__sock4_xlate_fwd cfg env k2 (__sock4_xlate_fwd cfg env k maps ctx ctx_full udp_only).maps
        ctx ctx_full udp_only).ctx.user_port = B.port) := by
  have hbody : ∀ k1, __sock4_xlate_fwd_body cfg env k1 maps ctx ctx_full udp_only =
      .out B svc maps := fun k1 =>
    sock4_fwd_body_affinity cfg env k1 maps ctx ctx_full udp_only svc B hhost hproto hsvc hcount
      hpunt hl7 hskip hlrp haff hid hb
  have hfwd : __sock4_xlate_fwd cfg env k maps ctx ctx_full udp_only =
      { ret := 0, ctx := ctx_set_port { ctx with user_ip4 := B.address } B.port,
        maps := (sock4_update_revnat k maps ctx_full B (sock4_xlate_fwd_key cfg ctx)
          svc.rev_nat_index).2 } := by
    unfold __sock4_xlate_fwd
    rw [hbody k]
    simp only [__sock4_xlate_fwd_out]
    rw [if_neg hwrite]
  have hl := sock4_update_revnat_lookup k maps ctx_full B (sock4_xlate_fwd_key cfg ctx)
    svc.rev_nat_index hwrite
  have hframe := sock4_update_revnat_frame k maps ctx_full B (sock4_xlate_fwd_key cfg ctx)
    svc.rev_nat_index
  refine ⟨hbody, ?_, ?_, ?_, ?_, ?_⟩
  · rw [hfwd]
  · simp [hfwd, ctx_set_port]
  · simp [hfwd, ctx_set_port]
  · rw [hfwd]
    simp only
    rw [hframe]
  · intro k2
    rw [hfwd]
    simp only
    have hid2 : lb4_affinity_backend_id_by_netns
        (sock4_update_revnat k maps ctx_full B (sock4_xlate_fwd_key cfg ctx) svc.rev_nat_index).2
        svc (get_netns_cookie ctx_full.sk) =
        lb4_affinity_backend_id_by_netns maps svc (get_netns_cookie ctx_full.sk) := by
      rw [hframe]
      rfl
    have hbody2 := sock4_fwd_body_affinity cfg env k2
      (sock4_update_revnat k maps ctx_full B (sock4_xlate_fwd_key cfg ctx) svc.rev_nat_index).2
      ctx ctx_full udp_only svc B hhost hproto hsvc hcount hpunt hl7 hskip hlrp haff
      (by rw [hid2]; exact hid) (by rw [hid2]; exact hb)
    unfold __sock4_xlate_fwd
    rw [hbody2]
    simp only [__sock4_xlate_fwd_out]
    rw [sock4_update_revnat_ret k2 _ ctx_full B (sock4_xlate_fwd_key cfg ctx) svc.rev_nat_index hl]
    simp [ctx_set_port]

theorem sock4_xlate_fwd_affinity_stable_witness :
    (__sock4_xlate_fwd ex_cfg ex_env_affinity ex_kernel ex_maps_affinity ex_ctx ex_ctx
      false).ret = 0 ∧
    (__sock4_xlate_fwd ex_cfg ex_env_affinity ex_kernel ex_maps_affinity ex_ctx ex_ctx
      false).ctx.user_ip4 = ex_backend2.address ∧
    (__sock4_xlate_fwd ex_cfg ex_env_affinity ex_kernel ex_maps_affinity ex_ctx ex_ctx
      false).ctx.user_port = ex_backend2.port :=
  have h := sock4_xlate_fwd_affinity_stable ex_cfg ex_env_affinity ex_kernel ex_maps_affinity
    ex_ctx ex_ctx false ex_svc_affinity ex_backend2 (by decide) (by decide) (by decide)
    (by decide) (by decide) (by decide) (by decide) (by decide) (by decide) (by decide)
    (by decide) (by decide)
  ⟨h.2.1, h.2.2.1, h.2.2.2.1⟩

/-- C7 (as stated) fails. On each of three nodes the service is resolved, has affinity
enabled, is neither punt-proxy nor L7 and passes the skip policy `sock4_skip_xlate`, the
affinity map names backend 12 for the client and that backend exists; yet the destination is
not rewritten to backend 12: (1) when the reverse-NAT write fails, `__sock4_xlate_fwd` returns
`-ENOMEM`; (2) when the service is local-redirect and the local-redirect check tells the
caller to bypass it, the result is `-ENXIO`; (3) when the service has `count = 0`, the result
is `-EHOSTUNREACH`. In all three the event is left as it was. -/
theorem sock4_xlate_fwd_affinity_not_rewritten :
    ((sock4_lookup_with_wildcard ex_cfg ex_env_affinity (sock4_xlate_fwd_key ex_cfg ex_ctx)
        (ctx_protocol ex_ctx) (ctx_in_hostns ex_cfg ex_ctx.sk)).1 = some ex_svc_affinity ∧
      lb4_svc_is_affinity ex_svc_affinity = true ∧
      lb4_svc_is_l7_punt_proxy ex_svc_affinity = false ∧
      lb4_svc_is_l7_loadbalancer ex_svc_affinity = false ∧
      sock4_skip_xlate ex_cfg ex_env_affinity ex_svc_affinity ex_ctx.user_ip4 = false ∧
      lb4_affinity_backend_id_by_netns ex_maps_affinity ex_svc_affinity
        (get_netns_cookie ex_ctx.sk) = 12 ∧
      ex_env_affinity.__lb4_lookup_backend 12 = some ex_backend2 ∧
      (__sock4_xlate_fwd ex_cfg ex_env_affinity ex_kernel_enomem ex_maps_affinity ex_ctx ex_ctx
        false).ret = -ENOMEM ∧
      (__sock4_xlate_fwd ex_cfg ex_env_affinity ex_kernel_enomem ex_maps_affinity ex_ctx ex_ctx
        false).ctx = ex_ctx) ∧
    ((sock4_lookup_with_wildcard ex_cfg ex_env_affinity_lrp (sock4_xlate_fwd_key ex_cfg ex_ctx)
        (ctx_protocol ex_ctx) (ctx_in_hostns ex_cfg ex_ctx.sk)).1 = some ex_svc_affinity_lrp ∧
      lb4_svc_is_affinity ex_svc_affinity_lrp = true ∧
      lb4_svc_is_l7_punt_proxy ex_svc_affinity_lrp = false ∧
      lb4_svc_is_l7_loadbalancer ex_svc_affinity_lrp = false ∧
      sock4_skip_xlate ex_cfg ex_env_affinity_lrp ex_svc_affinity_lrp ex_ctx.user_ip4 = false ∧
      lb4_affinity_backend_id_by_netns ex_maps_affinity ex_svc_affinity_lrp
        (get_netns_cookie ex_ctx.sk) = 12 ∧
      ex_env_affinity_lrp.__lb4_lookup_backend 12 = some ex_backend2 ∧
      (__sock4_xlate_fwd ex_cfg ex_env_affinity_lrp ex_kernel ex_maps_affinity ex_ctx ex_ctx
        false).ret = - ENXIO ∧
      (__sock4_xlate_fwd ex_cfg ex_env_affinity_lrp ex_kernel ex_maps_affinity ex_ctx ex_ctx
        false).ctx = ex_ctx) ∧
    ((sock4_lookup_with_wildcard ex_cfg ex_env_affinity_empty
        (sock4_xlate_fwd_key ex_cfg ex_ctx) (ctx_protocol ex_ctx)
        (ctx_in_hostns ex_cfg ex_ctx.sk)).1 = some ex_svc_affinity_empty ∧
      lb4_svc_is_affinity ex_svc_affinity_empty = true ∧
      lb4_svc_is_l7_punt_proxy ex_svc_affinity_empty = false ∧
      lb4_svc_is_l7_loadbalancer ex_svc_affinity_empty = false ∧
      sock4_skip_xlate ex_cfg ex_env_affinity_empty ex_svc_affinity_empty ex_ctx.user_ip4 =
        false ∧
      lb4_affinity_backend_id_by_netns ex_maps_affinity ex_svc_affinity_empty
        (get_netns_cookie ex_ctx.sk) = 12 ∧
      ex_env_affinity_empty.__lb4_lookup_backend 12 = some ex_backend2 ∧
      (__sock4_xlate_fwd ex_cfg ex_env_affinity_empty ex_kernel ex_maps_affinity ex_ctx ex_ctx
        false).ret = -EHOSTUNREACH ∧
      (__sock4_xlate_fwd ex_cfg ex_env_affinity_empty ex_kernel ex_maps_affinity ex_ctx ex_ctx
        false).ctx = ex_ctx) ∧
    ex_ctx.user_ip4 ≠ ex_backend2.address := by
  refine ⟨⟨by decide, by decide, by decide, by decide, by decide, by decide, by decide,
    by decide, by decide⟩, ⟨by decide, by decide, by decide, by decide, by decide, by decide,
    by decide, by decide, by decide⟩, ⟨by decide, by decide, by decide, by decide, by decide,
    by decide, by decide, by decide, by decide⟩, by decide⟩

/-! ## Dual-stack adapter -/

theorem sock4_fwd_body_congr (cfg : Config) (env : Env) (k : Kernel) (maps : Maps)
    (ctx ctx_full ctx2 ctx_full2 : bpf_sock_addr) (udp_only : Bool)
    (hip : ctx.user_ip4 = ctx2.user_ip4) (hport : ctx_dst_port ctx = ctx_dst_port ctx2)
    (hproto : ctx_protocol ctx = ctx_protocol ctx2) (hsk : ctx_full.sk = ctx_full2.sk)
    (hfproto : ctx_protocol ctx_full = ctx_protocol ctx_full2) :
    __sock4_xlate_fwd_body cfg env k maps ctx ctx_full udp_only =
      __sock4_xlate_fwd_body cfg env k maps ctx2 ctx_full2 udp_only := by
  have hkey : sock4_xlate_fwd_key cfg ctx = sock4_xlate_fwd_key cfg ctx2 := by
    simp [sock4_xlate_fwd_key, hip, hport, hproto]
  have hslot : ∀ svc key cc, __sock4_xlate_fwd_slot env k maps ctx_full svc key cc =
      __sock4_xlate_fwd_slot env k maps ctx_full2 svc key cc := by
    intro svc key cc
    simp [__sock4_xlate_fwd_slot, sock_select_slot, sock_local_cookie, hsk, hfproto]
  have hsel : ∀ svc key cc, __sock4_xlate_fwd_select env k maps ctx_full svc key cc =
      __sock4_xlate_fwd_select env k maps ctx_full2 svc key cc := by
    intro svc key cc
    simp [__sock4_xlate_fwd_select, hslot]
  unfold __sock4_xlate_fwd_body
  simp only [hkey, hproto, hsk, hsel]

/-- The forward translation reads its first context only through the address, the 16-bit
port and the protocol, and its second context only through the socket identity and the
protocol. -/
theorem sock4_fwd_congr (cfg : Config) (env : Env) (k : Kernel) (maps : Maps)
    (ctx ctx_full ctx2 ctx_full2 : bpf_sock_addr) (udp_only : Bool)
    (hip : ctx.user_ip4 = ctx2.user_ip4) (hport : ctx_dst_port ctx = ctx_dst_port ctx2)
    (hproto : ctx_protocol ctx = ctx_protocol ctx2) (hsk : ctx_full.sk = ctx_full2.sk)
    (hfproto : ctx_protocol ctx_full = ctx_protocol ctx_full2) :
    (__sock4_xlate_fwd cfg env k maps ctx ctx_full udp_only).ret =
      (__sock4_xlate_fwd cfg env k maps ctx2 ctx_full2 udp_only).ret ∧
    (__sock4_xlate_fwd cfg env k maps ctx ctx_full udp_only).maps =
      (__sock4_xlate_fwd cfg env k maps ctx2 ctx_full2 udp_only).maps ∧
    (__sock4_xlate_fwd cfg env k maps ctx ctx_full udp_only).ctx.user_ip4 =
      (__sock4_xlate_fwd cfg env k maps ctx2 ctx_full2 udp_only).ctx.user_ip4 ∧
    (__sock4_xlate_fwd cfg env k maps ctx ctx_full udp_only).ctx.user_port % 65536 =
      (__sock4_xlate_fwd cfg env k maps ctx2 ctx_full2 udp_only).ctx.user_port % 65536 := by
  have hkey : sock4_xlate_fwd_key cfg ctx = sock4_xlate_fwd_key cfg ctx2 := by
    simp [sock4_xlate_fwd_key, hip, hport, hproto]
  have hupd : ∀ m B id, sock4_update_revnat k m ctx_full B (sock4_xlate_fwd_key cfg ctx2) id =
      sock4_update_revnat k m ctx_full2 B (sock4_xlate_fwd_key cfg ctx2) id := by
    intro m B id
    simp [sock4_update_revnat, sock_local_cookie, hsk]
  unfold __sock4_xlate_fwd
  rw [sock4_fwd_body_congr cfg env k maps ctx ctx_full ctx2 ctx_full2 udp_only hip hport hproto
    hsk hfproto]
  cases __sock4_xlate_fwd_body cfg env k maps ctx2 ctx_full2 udp_only with
  | ret code => exact ⟨rfl, rfl, hip, hport⟩
  | out B svc m =>
    simp only [__sock4_xlate_fwd_out, hkey, hupd]
    split
    · exact ⟨rfl, rfl, hip, hport⟩
    · exact ⟨rfl, rfl, rfl, rfl⟩

/-- The dual-stack adapter on an IPv4-mapped destination, in terms of the IPv4 translation
of the equivalent IPv4 event. -/
theorem sock6_xlate_v4_in_v6_eq (cfg : Config) (env : Env) (k : Kernel) (maps : Maps)
    (ctx ctx4 : bpf_sock_addr) (udp_only : Bool)
    (hv4 : cfg.ENABLE_IPV4 = true)
    (hmapped : is_v4_in_v6 cfg ctx.user_ip6 = true)
    (hip : ctx4.user_ip4 = ctx.user_ip6.p4) (hport : ctx4.user_port = ctx.user_port)
    (hproto : ctx4.protocol = ctx.protocol) (hsk : ctx4.sk = ctx.sk) :
    (sock6_xlate_v4_in_v6 cfg env k maps ctx udp_only).maps =
      (__sock4_xlate_fwd cfg env k maps ctx4 ctx4 udp_only).maps ∧
    (sock6_xlate_v4_in_v6 cfg env k maps ctx udp_only).ret =
      (if (__sock4_xlate_fwd cfg env k maps ctx4 ctx4 udp_only).ret < 0 then
        (__sock4_xlate_fwd cfg env k maps ctx4 ctx4 udp_only).ret else 0) ∧
    (sock6_xlate_v4_in_v6 cfg env k maps ctx udp_only).ctx =
      (if (__sock4_xlate_fwd cfg env k maps ctx4 ctx4 udp_only).ret < 0 then ctx
       else { ctx with
         user_ip6 := build_v4_in_v6 cfg (__sock4_xlate_fwd cfg env k maps ctx4 ctx4 udp_only).ctx.user_ip4
         user_port := (__sock4_xlate_fwd cfg env k maps ctx4 ctx4 udp_only).ctx.user_port % 65536 }) := by
  obtain ⟨h1, h2, h3, h4⟩ := sock4_fwd_congr cfg env k maps
    (sock6_fake_ctx ctx (ctx_get_v6_address ctx)) ctx ctx4 ctx4 udp_only
    (by simp [sock6_fake_ctx, ctx_get_v6_address, hip])
    (by simp [sock6_fake_ctx, ctx_dst_port, hport])
    (by simp [sock6_fake_ctx, ctx_protocol, hproto])
    hsk.symm (by simp [ctx_protocol, hproto])
  unfold sock6_xlate_v4_in_v6
  simp only [hv4, if_true]
  rw [if_neg (by simp [ctx_get_v6_address, hmapped])]
  simp only [h1, h2, h3, h4]
  split
  · exact ⟨rfl, rfl, rfl⟩
  · exact ⟨rfl, rfl, rfl⟩

theorem sock4_fwd_ctx_of_ret_ne_zero (cfg : Config) (env : Env) (k : Kernel) (maps : Maps)
    (ctx ctx_full : bpf_sock_addr) (udp_only : Bool)
    (h : (__sock4_xlate_fwd cfg env k maps ctx ctx_full udp_only).ret ≠ 0) :
    (__sock4_xlate_fwd cfg env k maps ctx ctx_full udp_only).ctx = ctx := by
  unfold __sock4_xlate_fwd at h ⊢
  generalize __sock4_xlate_fwd_body cfg env k maps ctx ctx_full udp_only = e at h ⊢
  cases e with
  | ret code => rfl
  | out B svc m =>
    simp only [__sock4_xlate_fwd_out] at h ⊢
    split
    · rfl
    · rename_i hw
      rw [if_neg hw] at h
      exact absurd rfl h

/-- The two gates in front of the lookups are the same in `__sock4_xlate_fwd` and in
`__sock6_xlate_fwd`. -/
theorem sock4_fwd_gated (cfg : Config) (env : Env) (k : Kernel) (maps : Maps)
    (ctx ctx_full : bpf_sock_addr) (udp_only : Bool) :
    (cfg.ENABLE_SOCKET_LB_HOST_ONLY = true ∧ ¬ ctx_in_hostns cfg ctx_full.sk = true →
      __sock4_xlate_fwd cfg env k maps ctx ctx_full udp_only =
        { ret := - ENXIO, ctx := ctx, maps := maps }) ∧
    (¬ (cfg.ENABLE_SOCKET_LB_HOST_ONLY = true ∧ ¬ ctx_in_hostns cfg ctx_full.sk = true) →
      (¬ udp_only = true ∧ ¬ sock_proto_enabled (ctx_protocol ctx) = true) →
      __sock4_xlate_fwd cfg env k maps ctx ctx_full udp_only =
        { ret := -ENOTSUP, ctx := ctx, maps := maps }) := by
  constructor
  · intro h
    unfold __sock4_xlate_fwd __sock4_xlate_fwd_body
    simp only
    rw [if_pos h]
  · intro h1 h2
    unfold __sock4_xlate_fwd __sock4_xlate_fwd_body
    simp only
    rw [if_neg h1, if_pos h2]

/-- C6 (amended): dual-stack equivalence. For every v6 connect/sendmsg event whose
destination is an IPv4-mapped address `::ffff:A` with a (16-bit) port `P`, and for every state
of the stores in which no IPv6 service is resolved for that destination (neither by the exact
IPv6 lookup nor by the IPv6 wildcard fallback; this is void in a build without IPv6),
`__sock6_xlate_fwd` makes the backend choice of `__sock4_xlate_fwd` run on the v4 event
`(A, P)` of the same socket: the maps end up the same, an error of the v4 translation is
returned as it is and any other result as `0`, and the v6 destination becomes the mapped form
of the v4 result's address with the v4 result's port, so that it is unchanged whenever the v4
endpoint is unchanged. -/
theorem sock6_xlate_fwd_dual_stack (cfg : Config) (env : Env) (k : Kernel) (maps : Maps)
    (ctx ctx4 : bpf_sock_addr) (udp_only : Bool)
    (hv4 : cfg.ENABLE_IPV4 = true)
    (hmapped : is_v4_in_v6 cfg ctx.user_ip6 = true)
    (hport16 : ctx.user_port < 65536)
    (hip : ctx4.user_ip4 = ctx.user_ip6.p4) (hport : ctx4.user_port = ctx.user_port)
    (hproto : ctx4.protocol = ctx.protocol) (hsk : ctx4.sk = ctx.sk)
    (hmiss : cfg.ENABLE_IPV6 = true →
      (sock6_lookup_with_wildcard cfg env (sock6_xlate_fwd_key cfg ctx) (ctx_protocol ctx)
        (ctx_in_hostns cfg ctx.sk)).1 = none) :
    (__sock6_xlate_fwd cfg env k maps ctx udp_only).maps =
      (__sock4_xlate_fwd cfg env k maps ctx4 ctx4 udp_only).maps ∧
    (__sock6_xlate_fwd cfg env k maps ctx udp_only).ret =
      (if (__sock4_xlate_fwd cfg env k maps ctx4 ctx4 udp_only).ret < 0 then
        (__sock4_xlate_fwd cfg env k maps ctx4 ctx4 udp_only).ret else 0) ∧
    (__sock6_xlate_fwd cfg env k maps ctx udp_only).ctx =
      { ctx with
        user_ip6 := build_v4_in_v6 cfg
          (__sock4_xlate_fwd cfg env k maps ctx4 ctx4 udp_only).ctx.user_ip4
        user_port := (__sock4_xlate_fwd cfg env k maps ctx4 ctx4 udp_only).ctx.user_port % 65536 } ∧
    ((__sock4_xlate_fwd cfg env k maps ctx4 ctx4 udp_only).ctx.user_ip4 = ctx4.user_ip4 ∧
      (__sock4_xlate_fwd cfg env k maps ctx4 ctx4 udp_only).ctx.user_port = ctx4.user_port →
      (__sock6_xlate_fwd cfg env k maps ctx udp_only).ctx = ctx) := by
  have hsame : ctx =
      { ctx with
        user_ip6 := build_v4_in_v6 cfg ctx4.user_ip4
        user_port := ctx4.user_port % 65536 } := by
    have h6 : ctx.user_ip6 = build_v4_in_v6 cfg ctx.user_ip6.p4 := by
      cases hc : ctx.user_ip6 with
      | mk p1 p2 p3 p4 =>
        rw [hc] at hmapped
        simp only [is_v4_in_v6, Bool.and_eq_true, beq_iff_eq] at hmapped
        simp [build_v4_in_v6, hmapped.1.1, hmapped.1.2, hmapped.2]
    rw [hip, hport, Nat.mod_eq_of_lt hport16, ← h6]
  have hmain : (__sock6_xlate_fwd cfg env k maps ctx udp_only).maps =
        (__sock4_xlate_fwd cfg env k maps ctx4 ctx4 udp_only).maps ∧
      (__sock6_xlate_fwd cfg env k maps ctx udp_only).ret =
        (if (__sock4_xlate_fwd cfg env k maps ctx4 ctx4 udp_only).ret < 0 then
          (__sock4_xlate_fwd cfg env k maps ctx4 ctx4 udp_only).ret else 0) ∧
      (__sock6_xlate_fwd cfg env k maps ctx udp_only).ctx =
        { ctx with
          user_ip6 := build_v4_in_v6 cfg
            (__sock4_xlate_fwd cfg env k maps ctx4 ctx4 udp_only).ctx.user_ip4
          user_port :=
            (__sock4_xlate_fwd cfg env k maps ctx4 ctx4 udp_only).ctx.user_port % 65536 } := by
    have hadapter : (sock6_xlate_v4_in_v6 cfg env k maps ctx udp_only).maps =
          (__sock4_xlate_fwd cfg env k maps ctx4 ctx4 udp_only).maps ∧
        (sock6_xlate_v4_in_v6 cfg env k maps ctx udp_only).ret =
          (if (__sock4_xlate_fwd cfg env k maps ctx4 ctx4 udp_only).ret < 0 then
            (__sock4_xlate_fwd cfg env k maps ctx4 ctx4 udp_only).ret else 0) ∧
        (sock6_xlate_v4_in_v6 cfg env k maps ctx udp_only).ctx =
          { ctx with
            user_ip6 := build_v4_in_v6 cfg
              (__sock4_xlate_fwd cfg env k maps ctx4 ctx4 udp_only).ctx.user_ip4
            user_port :=
              (__sock4_xlate_fwd cfg env k maps ctx4 ctx4 udp_only).ctx.user_port % 65536 } := by
      obtain ⟨e1, e2, e3⟩ := sock6_xlate_v4_in_v6_eq cfg env k maps ctx ctx4 udp_only hv4 hmapped
        hip hport hproto hsk
      refine ⟨e1, e2, ?_⟩
      rw [e3]
      split
      · rename_i hneg
        rw [sock4_fwd_ctx_of_ret_ne_zero cfg env k maps ctx4 ctx4 udp_only (by omega)]
        exact hsame
      · rfl
    unfold __sock6_xlate_fwd
    by_cases h6 : cfg.ENABLE_IPV6 = true
    · simp only [h6, if_true]
      have hgate := sock4_fwd_gated cfg env k maps ctx4 ctx4 udp_only
      rw [hsk] at hgate
      have hp : ctx_protocol ctx4 = ctx_protocol ctx := by simp [ctx_protocol, hproto]
      rw [hp] at hgate
      unfold __sock6_xlate_fwd_body
      simp only [hmiss h6]
      by_cases g1 : cfg.ENABLE_SOCKET_LB_HOST_ONLY = true ∧ ¬ ctx_in_hostns cfg ctx.sk = true
      · rw [if_pos g1, hgate.1 g1]
        exact ⟨rfl, by simp [ ENXIO], hsame⟩
      · rw [if_neg g1]
        by_cases g2 : ¬ udp_only = true ∧ ¬ sock_proto_enabled (ctx_protocol ctx) = true
        · rw [if_pos g2, hgate.2 g1 g2]
          exact ⟨rfl, by simp [ENOTSUP], hsame⟩
        · rw [if_neg g2]
          exact hadapter
    · simp only [h6]
      exact hadapter
  refine ⟨hmain.1, hmain.2.1, hmain.2.2, ?_⟩
  intro hun
  rw [hmain.2.2, hun.1, hun.2]
  exact hsame.symm

theorem sock6_xlate_fwd_dual_stack_witness :
    (__sock6_xlate_fwd ex_cfg ex_env ex_kernel ex_maps ex_ctx6_mapped false).ret = 0 ∧
    (__sock6_xlate_fwd ex_cfg ex_env ex_kernel ex_maps ex_ctx6_mapped false).ctx.user_ip6 =
      build_v4_in_v6 ex_cfg ex_backend1.address ∧
    (__sock6_xlate_fwd ex_cfg ex_env ex_kernel ex_maps ex_ctx6_mapped false).ctx.user_port =
      ex_backend1.port :=
  have h := sock6_xlate_fwd_dual_stack ex_cfg ex_env ex_kernel ex_maps ex_ctx6_mapped ex_ctx
    false rfl (by decide) (by decide) rfl rfl rfl rfl (fun _ => by decide)
  ⟨h.2.1.trans (by decide), (congrArg bpf_sock_addr.user_ip6 h.2.2.1).trans (by decide),
    (congrArg bpf_sock_addr.user_port h.2.2.1).trans (by decide)⟩

/-- C6 (as stated) fails: on the node `ex_env_v6svc` the destination `::ffff:10.96.0.10`,
port 80, is IPv4-mapped and the v4 translation of `10.96.0.10:80` rewrites the destination to
the backend `10.0.1.5:8080`, but the IPv6 service table holds a service under the mapped
address, so `__sock6_xlate_fwd` takes the native IPv6 path and rewrites the destination to
`2001:db8::1`, which is not the mapped form of `10.0.1.5`. -/
theorem sock6_xlate_fwd_v6_service_first :
    is_v4_in_v6 ex_cfg ex_ctx6_mapped.user_ip6 = true ∧
    (__sock4_xlate_fwd ex_cfg ex_env_v6svc ex_kernel ex_maps ex_ctx ex_ctx false).ret = 0 ∧
    (__sock4_xlate_fwd ex_cfg ex_env_v6svc ex_kernel ex_maps ex_ctx ex_ctx false).ctx.user_ip4 =
      ex_backend1.address ∧
    (__sock4_xlate_fwd ex_cfg ex_env_v6svc ex_kernel ex_maps ex_ctx ex_ctx false).ctx.user_port =
      ex_backend1.port ∧
    (__sock6_xlate_fwd ex_cfg ex_env_v6svc ex_kernel ex_maps ex_ctx6_mapped false).ret = 0 ∧
    (__sock6_xlate_fwd ex_cfg ex_env_v6svc ex_kernel ex_maps ex_ctx6_mapped false).ctx.user_ip6 =
      ex_backend6.address ∧
    ex_backend6.address ≠ build_v4_in_v6 ex_cfg ex_backend1.address := by
  refine ⟨by decide, by decide, by decide, by decide, by decide, by decide, by decide⟩

/-! ## The forward body after the lookup -/

/-- The body of `__sock4_xlate_fwd` once the two gates are passed and the lookup has found the
service `svc`: the chain of checks of lines 300-407. -/
theorem sock4_fwd_body_resolved (cfg : Config) (env : Env) (k : Kernel) (maps : Maps)
    (ctx ctx_full : bpf_sock_addr) (udp_only : Bool) (svc : lb4_service)
    (hhost : ¬ (cfg.ENABLE_SOCKET_LB_HOST_ONLY = true ∧ ctx_in_hostns cfg ctx_full.sk = false))
    (hproto : udp_only = true ∨ sock_proto_enabled (ctx_protocol ctx) = true)
    (hsvc : (sock4_lookup_with_wildcard cfg env (sock4_xlate_fwd_key cfg ctx) (ctx_protocol ctx)
      (ctx_in_hostns cfg ctx_full.sk)).1 = some svc) :
    __sock4_xlate_fwd_body cfg env k maps ctx ctx_full udp_only =
      if svc.count = 0 ∧ ¬ lb4_svc_is_l7_loadbalancer svc = true then .ret (-EHOSTUNREACH)
      else if lb4_svc_is_l7_punt_proxy svc = true then .ret SYS_PROCEED
      else if sock4_skip_xlate cfg env svc ctx.user_ip4 = true then .ret (-EPERM)
      else if cfg.ENABLE_LOCAL_REDIRECT_POLICY = true ∧ lb4_svc_is_localredirect svc = true ∧
          env.lb4_skip_xlate_from_ctx_to_svc (get_netns_cookie ctx_full.sk) ctx.user_ip4
            (ctx_dst_port ctx) = true then .ret (- ENXIO)
      else if cfg.ENABLE_L7_LB = true ∧ lb4_svc_is_l7_loadbalancer svc = true then
        if ctx_in_hostns cfg ctx_full.sk = true then
          .out { address := cfg.bpf_htonl 0x7f000001, port := svc.l7_lb_proxy_port % 65536,
                 proto := 0, flags := 0 } svc maps
        else .ret 0
      else __sock4_xlate_fwd_select env k maps ctx_full svc
        (sock4_lookup_with_wildcard cfg env (sock4_xlate_fwd_key cfg ctx) (ctx_protocol ctx)
          (ctx_in_hostns cfg ctx_full.sk)).2 (get_netns_cookie ctx_full.sk) := by
  unfold __sock4_xlate_fwd_body
  simp only
  rw [if_neg (by simpa using hhost), if_neg (by
    rcases hproto with h | h <;> simp [h]), hsvc]
  simp only [sock4_xlate_fwd_key]

/-! ## Fresh selection -/

/-- The fresh selection when the backend count is between 1 and 65535: the slot is
`token % count + 1`, without wrap-around in the 16-bit slot field. -/
theorem sock4_fwd_slot_eq (env : Env) (k : Kernel) (maps : Maps) (ctx_full : bpf_sock_addr)
    (svc : lb4_service) (key : lb4_key) (client_cookie : Nat)
    (hc1 : 1 ≤ svc.count) (hc16 : svc.count < 65536) :
    __sock4_xlate_fwd_slot env k maps ctx_full svc key client_cookie =
      match env.__lb4_lookup_backend_slot
        { key with backend_slot := sock_select_slot k ctx_full % svc.count + 1 } with
      | none => .ret (-EHOSTUNREACH)
      | some backend_slot =>
        match env.__lb4_lookup_backend backend_slot.backend_id with
        | none => .ret (-EHOSTUNREACH)
        | some B =>
          .out B svc (if lb4_svc_is_affinity svc = true then
            lb4_update_affinity_by_netns maps svc client_cookie backend_slot.backend_id
            else maps) := by
  have hlt : sock_select_slot k ctx_full % svc.count < svc.count := Nat.mod_lt _ (by omega)
  have hmod : (sock_select_slot k ctx_full % svc.count + 1) % 65536 =
      sock_select_slot k ctx_full % svc.count + 1 := Nat.mod_eq_of_lt (by omega)
  unfold __sock4_xlate_fwd_slot
  simp only [hmod]
  cases env.__lb4_lookup_backend_slot
    { key with backend_slot := sock_select_slot k ctx_full % svc.count + 1 } with
  | none => rfl
  | some bs =>
    simp only [__sock4_xlate_fwd_selected]
    cases env.__lb4_lookup_backend bs.backend_id with
    | none => rfl
    | some B =>
      simp only
      by_cases ha : lb4_svc_is_affinity svc = true
      · simp [ha]
      · simp [ha]

/-- The selection when the affinity lookup gives no usable backend is the fresh selection. -/
theorem sock4_fwd_select_fresh (env : Env) (k : Kernel) (maps : Maps) (ctx_full : bpf_sock_addr)
    (svc : lb4_service) (key : lb4_key) (client_cookie : Nat)
    (hnoaff : lb4_svc_is_affinity svc = false ∨
      lb4_affinity_backend_id_by_netns maps svc client_cookie = 0 ∨
      env.__lb4_lookup_backend (lb4_affinity_backend_id_by_netns maps svc client_cookie) = none) :
    __sock4_xlate_fwd_select env k maps ctx_full svc key client_cookie =
      __sock4_xlate_fwd_slot env k maps ctx_full svc key client_cookie := by
  unfold __sock4_xlate_fwd_select
  split
  · rename_i ha
    simp only
    split
    · rename_i hid
      rcases hnoaff with h | h | h
      · rw [h] at ha
        cases ha
      · exact absurd h hid
      · rw [h]
    · rfl
  · rfl

/-- C11: fresh selection slot. When `__sock4_xlate_fwd` reaches the backend selection for a
service with backend count `c`, `1 <= c < 65536`, and there is no usable affinity entry
(affinity disabled, no entry, or an entry whose backend record is gone), the slot looked up is
`(token % c) + 1` on the untruncated token of `sock_select_slot`; it lies in `1..c`, it is
unchanged by the narrowing to the 16-bit slot field, and the chosen backend is the record
whose id the slot table stores under (service key, that slot); a missing slot entry or a
missing backend record gives `-EHOSTUNREACH`. -/
theorem sock4_xlate_fwd_fresh_slot (cfg : Config) (env : Env) (k : Kernel) (maps : Maps)
    (ctx ctx_full : bpf_sock_addr) (udp_only : Bool) (svc : lb4_service)
    (hhost : ¬ (cfg.ENABLE_SOCKET_LB_HOST_ONLY = true ∧ ctx_in_hostns cfg ctx_full.sk = false))
    (hproto : udp_only = true ∨ sock_proto_enabled (ctx_protocol ctx) = true)
    (hsvc : (sock4_lookup_with_wildcard cfg env (sock4_xlate_fwd_key cfg ctx) (ctx_protocol ctx)
      (ctx_in_hostns cfg ctx_full.sk)).1 = some svc)
    (hpunt : lb4_svc_is_l7_punt_proxy svc = false)
    (hskip : sock4_skip_xlate cfg env svc ctx.user_ip4 = false)
    (hlrp : ¬ (cfg.ENABLE_LOCAL_REDIRECT_POLICY = true ∧ lb4_svc_is_localredirect svc = true ∧
      env.lb4_skip_xlate_from_ctx_to_svc (get_netns_cookie ctx_full.sk) ctx.user_ip4
        (ctx_dst_port ctx) = true))
    (hl7 : ¬ (cfg.ENABLE_L7_LB = true ∧ lb4_svc_is_l7_loadbalancer svc = true))
    (hc1 : 1 ≤ svc.count) (hc16 : svc.count < 65536)
    (hnoaff : lb4_svc_is_affinity svc = false ∨
      lb4_affinity_backend_id_by_netns maps svc (get_netns_cookie ctx_full.sk) = 0 ∨
      env.__lb4_lookup_backend
        (lb4_affinity_backend_id_by_netns maps svc (get_netns_cookie ctx_full.sk)) = none) :
    1 ≤ sock_select_slot k ctx_full % svc.count + 1 ∧
    sock_select_slot k ctx_full % svc.count + 1 ≤ svc.count ∧
    (sock_select_slot k ctx_full % svc.count + 1) % 65536 =
      sock_select_slot k ctx_full % svc.count + 1 ∧
    __sock4_xlate_fwd_body cfg env k maps ctx ctx_full udp_only =
      match env.__lb4_lookup_backend_slot
        { (sock4_lookup_with_wildcard cfg env (sock4_xlate_fwd_key cfg ctx) (ctx_protocol ctx)
            (ctx_in_hostns cfg ctx_full.sk)).2 with
          backend_slot := sock_select_slot k ctx_full % svc.count + 1 } with
      | none => .ret (-EHOSTUNREACH)
      | some backend_slot =>
        match env.__lb4_lookup_backend backend_slot.backend_id with
        | none => .ret (-EHOSTUNREACH)
        | some B =>
          .out B svc (if lb4_svc_is_affinity svc = true then
            lb4_update_affinity_by_netns maps svc (get_netns_cookie ctx_full.sk)
              backend_slot.backend_id
            else maps) := by
  have hlt : sock_select_slot k ctx_full % svc.count < svc.count := Nat.mod_lt _ (by omega)
  refine ⟨by omega, by omega, Nat.mod_eq_of_lt (by omega), ?_⟩
  rw [sock4_fwd_body_resolved cfg env k maps ctx ctx_full udp_only svc hhost hproto hsvc,
    if_neg (by omega), if_neg (by simp [hpunt]), if_neg (by simp [hskip]), if_neg hlrp,
    if_neg hl7, sock4_fwd_select_fresh env k maps ctx_full svc _ _ hnoaff,
    sock4_fwd_slot_eq env k maps ctx_full svc _ _ hc1 hc16]

theorem sock4_xlate_fwd_fresh_slot_witness :
    __sock4_xlate_fwd_body ex_cfg ex_env ex_kernel ex_maps ex_ctx ex_ctx false =
      .out ex_backend1 ex_svc ex_maps :=
  (sock4_xlate_fwd_fresh_slot ex_cfg ex_env ex_kernel ex_maps ex_ctx ex_ctx false ex_svc
    (by decide) (by decide) (by decide) (by decide) (by decide) (by decide) (by decide)
    (by decide) (by decide) (by decide)).2.2.2.trans rfl

/-! ## Reverse-NAT write failure -/

theorem sock4_update_revnat_failed (k : Kernel) (maps : Maps) (ctx : bpf_sock_addr)
    (backend : lb4_backend) (orig_key : lb4_key) (rev_nat_id : Nat)
    (h : (sock4_update_revnat k maps ctx backend orig_key rev_nat_id).1 < 0) :
    (sock4_update_revnat k maps ctx backend orig_key rev_nat_id).2 = maps := by
  unfold sock4_update_revnat at h ⊢
  simp only at h ⊢
  split
  · rename_i hc
    rw [if_pos hc] at h
    unfold map_update_elem at h ⊢
    split
    · rename_i h0
      rw [if_pos h0] at h
      simp at h
    · rfl
  · rfl

/-- C12: a failed reverse-NAT write leaves the event as it was. If the body of
`__sock4_xlate_fwd` selected a backend (it reached the label `out`) and the write of the
reverse-NAT entry fails, `__sock4_xlate_fwd` returns `-ENOMEM`, the event, so its destination
address and port, is the same as on entry and the reverse-NAT map is unchanged; and
`cil_sock4_connect`, which runs the translation for every socket that is not a health-check
probe, returns `SYS_REJECT` with the error `-ENOMEM` and the event unchanged. -/
theorem sock4_xlate_fwd_revnat_write_failure (cfg : Config) (env : Env) (k : Kernel)
    (maps : Maps) (ctx ctx_full : bpf_sock_addr) (udp_only : Bool) (B : lb4_backend)
    (svc : lb4_service) (m : Maps)
    (hbody : __sock4_xlate_fwd_body cfg env k maps ctx ctx_full udp_only = .out B svc m)
    (hfail : (sock4_update_revnat k m ctx_full B (sock4_xlate_fwd_key cfg ctx)
      svc.rev_nat_index).1 < 0) :
    (__sock4_xlate_fwd cfg env k maps ctx ctx_full udp_only).ret = -ENOMEM ∧
    (__sock4_xlate_fwd cfg env k maps ctx ctx_full udp_only).ctx = ctx ∧
    (__sock4_xlate_fwd cfg env k maps ctx ctx_full udp_only).maps.cilium_lb4_reverse_sk =
      maps.cilium_lb4_reverse_sk ∧
    (ctx_full = ctx → udp_only = false → sock_is_health_check cfg ctx = false →
      (cil_sock4_connect cfg env k maps ctx).verdict = SYS_REJECT ∧
      (cil_sock4_connect cfg env k maps ctx).retval = some (-ENOMEM) ∧
      (cil_sock4_connect cfg env k maps ctx).ctx = ctx) := by
  have hfwd : __sock4_xlate_fwd cfg env k maps ctx ctx_full udp_only =
      { ret := -ENOMEM, ctx := ctx, maps := m } := by
    unfold __sock4_xlate_fwd
    rw [hbody]
    simp only [__sock4_xlate_fwd_out]
    rw [if_pos hfail, sock4_update_revnat_failed k m ctx_full B _ _ hfail]
  refine ⟨by rw [hfwd], by rw [hfwd], ?_, ?_⟩
  · rw [hfwd]
    exact (sock4_fwd_body_out cfg env k maps ctx ctx_full udp_only B svc m hbody).2.2
  · intro hctx hudp hhc
    subst hctx
    subst hudp
    unfold cil_sock4_connect
    rw [if_neg (by simp [hhc]), hfwd]
    simp

theorem sock4_xlate_fwd_revnat_write_failure_witness :
    (__sock4_xlate_fwd ex_cfg ex_env ex_kernel_enomem ex_maps ex_ctx ex_ctx false).ret =
      -ENOMEM ∧
    (__sock4_xlate_fwd ex_cfg ex_env ex_kernel_enomem ex_maps ex_ctx ex_ctx false).ctx = ex_ctx ∧
    (cil_sock4_connect ex_cfg ex_env ex_kernel_enomem ex_maps ex_ctx).verdict = SYS_REJECT ∧
    (cil_sock4_connect ex_cfg ex_env ex_kernel_enomem ex_maps ex_ctx).retval =
      some (-ENOMEM) :=
  have h := sock4_xlate_fwd_revnat_write_failure ex_cfg ex_env ex_kernel_enomem ex_maps ex_ctx
    ex_ctx false ex_backend1 ex_svc ex_maps rfl (by decide)
  ⟨h.1, h.2.1, (h.2.2.2 rfl rfl rfl).1, (h.2.2.2 rfl rfl rfl).2.1⟩

/-! ## Skip policy -/

/-- C13: skip policy. `sock4_skip_xlate svc addr` is true exactly when `svc` is a
dual-stack-peer service, or when `svc` is ExternalIP with the mitigation enabled or is HostPort
with `addr` outside `127.0.0.0/8`, and the endpoint classifier does not give `addr` the host
identity; and for a resolved service with usable backends (`count != 0`, or L7) that is not
punt-proxy, `__sock4_xlate_fwd` returns `-EPERM` and leaves the event and the maps unchanged
whenever `sock4_skip_xlate` holds for the original destination address. -/
theorem sock4_skip_xlate_policy (cfg : Config) (env : Env) :
    (∀ (s : lb4_service) (addr : Nat), sock4_skip_xlate cfg env s addr = true ↔
      (lb4_to_lb6_service s = true ∨
        (((lb4_svc_is_external_ip s = true ∧ cfg.DISABLE_EXTERNAL_IP_MITIGATION = false) ∨
            (lb4_svc_is_hostport s = true ∧ is_v4_loopback cfg addr = false)) ∧
          ¬ ∃ info, env.lookup_ip4_remote_endpoint addr 0 = some info ∧
            info.sec_identity = cfg.HOST_ID))) ∧
    (∀ (k : Kernel) (maps : Maps) (ctx ctx_full : bpf_sock_addr) (udp_only : Bool)
      (svc : lb4_service),
      ¬ (cfg.ENABLE_SOCKET_LB_HOST_ONLY = true ∧ ctx_in_hostns cfg ctx_full.sk = false) →
      (udp_only = true ∨ sock_proto_enabled (ctx_protocol ctx) = true) →
      (sock4_lookup_with_wildcard cfg env (sock4_xlate_fwd_key cfg ctx) (ctx_protocol ctx)
        (ctx_in_hostns cfg ctx_full.sk)).1 = some svc →
      (svc.count ≠ 0 ∨ lb4_svc_is_l7_loadbalancer svc = true) →
      lb4_svc_is_l7_punt_proxy svc = false →
      sock4_skip_xlate cfg env svc ctx.user_ip4 = true →
      __sock4_xlate_fwd cfg env k maps ctx ctx_full udp_only =
        { ret := -EPERM, ctx := ctx, maps := maps }) := by
  constructor
  · intro s addr
    unfold sock4_skip_xlate
    by_cases h1 : lb4_to_lb6_service s = true
    · simp [h1]
    · simp only [h1, Bool.false_eq_true, if_false, false_or]
      by_cases h2 : (lb4_svc_is_external_ip s = true ∧ ¬ cfg.DISABLE_EXTERNAL_IP_MITIGATION = true) ∨
          (lb4_svc_is_hostport s = true ∧ ¬ is_v4_loopback cfg addr = true)
      · rw [if_pos h2]
        have h2b : (lb4_svc_is_external_ip s = true ∧ cfg.DISABLE_EXTERNAL_IP_MITIGATION = false) ∨
            (lb4_svc_is_hostport s = true ∧ is_v4_loopback cfg addr = false) := by
          simpa using h2
        cases hl : env.lookup_ip4_remote_endpoint addr 0 with
        | none => simp [h2b]
        | some info =>
          by_cases hid : info.sec_identity = cfg.HOST_ID
          · simp [hid]
          · simp [hid, h2b]
      · rw [if_neg h2]
        have h2b : ¬ ((lb4_svc_is_external_ip s = true ∧
            cfg.DISABLE_EXTERNAL_IP_MITIGATION = false) ∨
            (lb4_svc_is_hostport s = true ∧ is_v4_loopback cfg addr = false)) := by
          simpa using h2
        simp [h2b]
  · intro k maps ctx ctx_full udp_only svc hhost hproto hsvc husable hpunt hskip
    unfold __sock4_xlate_fwd
    rw [sock4_fwd_body_resolved cfg env k maps ctx ctx_full udp_only svc hhost hproto hsvc,
      if_neg (by
        rintro ⟨h0, hl⟩
        rcases husable with h | h
        · exact h h0
        · exact hl h), if_neg (by simp [hpunt]), if_pos hskip]

theorem sock4_skip_xlate_policy_witness :
    __sock4_xlate_fwd ex_cfg ex_env_extip ex_kernel ex_maps ex_ctx ex_ctx false =
      { ret := -EPERM, ctx := ex_ctx, maps := ex_maps } :=
  (sock4_skip_xlate_policy ex_cfg ex_env_extip).2 ex_kernel ex_maps ex_ctx ex_ctx false
    ex_svc_extip (by decide) (by decide) (by decide) (by decide) (by decide) (by decide)

/-! ## L7 load balancer -/

/-- The body of `__sock4_xlate_fwd` for a resolved L7 load-balancer service that passes the
checks in front of the L7 branch. -/
theorem sock4_fwd_body_l7 (cfg : Config) (env : Env) (k : Kernel) (maps : Maps)
    (ctx ctx_full : bpf_sock_addr) (udp_only : Bool) (svc : lb4_service)
    (hcfg : cfg.ENABLE_L7_LB = true)
    (hhost : ¬ (cfg.ENABLE_SOCKET_LB_HOST_ONLY = true ∧ ctx_in_hostns cfg ctx_full.sk = false))
    (hproto : udp_only = true ∨ sock_proto_enabled (ctx_protocol ctx) = true)
    (hsvc : (sock4_lookup_with_wildcard cfg env (sock4_xlate_fwd_key cfg ctx) (ctx_protocol ctx)
      (ctx_in_hostns cfg ctx_full.sk)).1 = some svc)
    (hl7 : lb4_svc_is_l7_loadbalancer svc = true)
    (hpunt : lb4_svc_is_l7_punt_proxy svc = false)
    (hskip : sock4_skip_xlate cfg env svc ctx.user_ip4 = false)
    (hlrp : ¬ (cfg.ENABLE_LOCAL_REDIRECT_POLICY = true ∧ lb4_svc_is_localredirect svc = true ∧
      env.lb4_skip_xlate_from_ctx_to_svc (get_netns_cookie ctx_full.sk) ctx.user_ip4
        (ctx_dst_port ctx) = true)) :
    __sock4_xlate_fwd_body cfg env k maps ctx ctx_full udp_only =
      if ctx_in_hostns cfg ctx_full.sk = true then
        .out { address := cfg.bpf_htonl 0x7f000001, port := svc.l7_lb_proxy_port % 65536,
               proto := 0, flags := 0 } svc maps
      else .ret 0 := by
  rw [sock4_fwd_body_resolved cfg env k maps ctx ctx_full udp_only svc hhost hproto hsvc,
    if_neg (by simp [hl7]), if_neg (by simp [hpunt]), if_neg (by simp [hskip]), if_neg hlrp,
    if_pos ⟨hcfg, hl7⟩]

/-- C14 (amended): L7 load balancer handling. In a build with L7 load-balancer support, for a
resolved L7-load-balancer service that is not punt-proxy and passes the skip and
local-redirect checks: if the caller is in the host namespace and the reverse-NAT write does
not fail, `__sock4_xlate_fwd` returns `0`, rewrites the destination to `127.0.0.1` with the
(16-bit) port `l7_lb_proxy_port` of the service and the reverse-NAT map holds, for (socket
cookie, that endpoint), the original destination and the service's `rev_nat_index`; if the
caller is not in the host namespace it returns `0` and leaves the event and the maps
unchanged; in both cases the result is the same whatever the slot table and the backend table
hold. -/
theorem sock4_xlate_fwd_l7_loadbalancer (cfg : Config) (env : Env) (k : Kernel) (maps : Maps)
    (ctx ctx_full : bpf_sock_addr) (udp_only : Bool) (svc : lb4_service)
    (hcfg : cfg.ENABLE_L7_LB = true)
    (hhost : ¬ (cfg.ENABLE_SOCKET_LB_HOST_ONLY = true ∧ ctx_in_hostns cfg ctx_full.sk = false))
    (hproto : udp_only = true ∨ sock_proto_enabled (ctx_protocol ctx) = true)
    (hsvc : (sock4_lookup_with_wildcard cfg env (sock4_xlate_fwd_key cfg ctx) (ctx_protocol ctx)
      (ctx_in_hostns cfg ctx_full.sk)).1 = some svc)
    (hl7 : lb4_svc_is_l7_loadbalancer svc = true)
    (hpunt : lb4_svc_is_l7_punt_proxy svc = false)
    (hskip : sock4_skip_xlate cfg env svc ctx.user_ip4 = false)
    (hlrp : ¬ (cfg.ENABLE_LOCAL_REDIRECT_POLICY = true ∧ lb4_svc_is_localredirect svc = true ∧
      env.lb4_skip_xlate_from_ctx_to_svc (get_netns_cookie ctx_full.sk) ctx.user_ip4
        (ctx_dst_port ctx) = true)) :
    (ctx_in_hostns cfg ctx_full.sk = true →
      ¬ (sock4_update_revnat k maps ctx_full
          { address := cfg.bpf_htonl 0x7f000001, port := svc.l7_lb_proxy_port % 65536,
            proto := 0, flags := 0 }
          (sock4_xlate_fwd_key cfg ctx) svc.rev_nat_index).1 < 0 →
      (__sock4_xlate_fwd cfg env k maps ctx ctx_full udp_only).ret = 0 ∧
      (__sock4_xlate_fwd cfg env k maps ctx ctx_full udp_only).ctx =
        { ctx with user_ip4 := cfg.bpf_htonl 0x7f000001
                   user_port := svc.l7_lb_proxy_port % 65536 } ∧
      (__sock4_xlate_fwd cfg env k maps ctx ctx_full udp_only).maps.cilium_lb4_reverse_sk
          { cookie := sock_local_cookie ctx_full, address := cfg.bpf_htonl 0x7f000001,
            port := svc.l7_lb_proxy_port % 65536 } =
        some { address := ctx.user_ip4, port := ctx_dst_port ctx,
               rev_nat_index := svc.rev_nat_index }) ∧
    (ctx_in_hostns cfg ctx_full.sk = false →
      __sock4_xlate_fwd cfg env k maps ctx ctx_full udp_only =
        { ret := 0, ctx := ctx, maps := maps }) ∧
    (∀ (slots : lb4_key → Option lb4_service) (backends : Nat → Option lb4_backend),
      __sock4_xlate_fwd cfg
          { env with __lb4_lookup_backend_slot := slots, __lb4_lookup_backend := backends }
          k maps ctx ctx_full udp_only =
        __sock4_xlate_fwd cfg env k maps ctx ctx_full udp_only) := by
  have hb := sock4_fwd_body_l7 cfg env k maps ctx ctx_full udp_only svc hcfg hhost hproto hsvc
    hl7 hpunt hskip hlrp
  refine ⟨?_, ?_, ?_⟩
  · intro hns hw
    have hfwd : __sock4_xlate_fwd cfg env k maps ctx ctx_full udp_only =
        __sock4_xlate_fwd_out k maps ctx ctx_full (sock4_xlate_fwd_key cfg ctx)
          { address := cfg.bpf_htonl 0x7f000001, port := svc.l7_lb_proxy_port % 65536,
            proto := 0, flags := 0 } svc := by
      unfold __sock4_xlate_fwd
      rw [hb, if_pos hns]
    have hl := sock4_update_revnat_lookup k maps ctx_full
      { address := cfg.bpf_htonl 0x7f000001, port := svc.l7_lb_proxy_port % 65536,
        proto := 0, flags := 0 } (sock4_xlate_fwd_key cfg ctx) svc.rev_nat_index hw
    rw [hfwd]
    unfold __sock4_xlate_fwd_out
    simp only
    rw [if_neg hw]
    exact ⟨rfl, rfl, hl⟩
  · intro hns
    unfold __sock4_xlate_fwd
    rw [hb, if_neg (by simp [hns])]
  · intro slots backends
    have hb2 := sock4_fwd_body_l7 cfg
      { env with __lb4_lookup_backend_slot := slots, __lb4_lookup_backend := backends }
      k maps ctx ctx_full udp_only svc hcfg hhost hproto hsvc hl7 hpunt hskip hlrp
    unfold __sock4_xlate_fwd
    rw [hb, hb2]

theorem sock4_xlate_fwd_l7_loadbalancer_witness :
    (__sock4_xlate_fwd ex_cfg ex_env_l7 ex_kernel ex_maps ex_ctx_host ex_ctx_host false).ret =
      0 ∧
    (__sock4_xlate_fwd ex_cfg ex_env_l7 ex_kernel ex_maps ex_ctx_host ex_ctx_host false).ctx =
      { ex_ctx_host with user_ip4 := bswap32 0x7f000001, user_port := bswap16 15001 } ∧
    __sock4_xlate_fwd ex_cfg ex_env_l7 ex_kernel ex_maps ex_ctx ex_ctx false =
      { ret := 0, ctx := ex_ctx, maps := ex_maps } :=
  have h := sock4_xlate_fwd_l7_loadbalancer ex_cfg ex_env_l7 ex_kernel ex_maps ex_ctx_host
    ex_ctx_host false ex_svc_l7 rfl (by decide) (by decide) (by decide) (by decide)
    (by decide) (by decide) (by decide)
  have h2 := sock4_xlate_fwd_l7_loadbalancer ex_cfg ex_env_l7 ex_kernel ex_maps ex_ctx
    ex_ctx false ex_svc_l7 rfl (by decide) (by decide) (by decide) (by decide)
    (by decide) (by decide) (by decide)
  ⟨(h.1 (by decide) (by decide)).1, (h.1 (by decide) (by decide)).2.1, h2.2.1 (by decide)⟩

/-- C14 (as stated) fails: on the node `ex_env_l7` the destination `10.96.0.10:80` resolves to
an L7-load-balancer service that is not punt-proxy and passes the skip and local-redirect
checks, and the caller `ex_sk_host` is in the host namespace; when the reverse-NAT write fails
`__sock4_xlate_fwd` returns `-ENOMEM`, the destination is still `10.96.0.10:80`, not
`127.0.0.1`, and no reverse-NAT entry is recorded for (socket, `127.0.0.1`, proxy port). -/
theorem sock4_xlate_fwd_l7_write_failure :
    ex_cfg.ENABLE_L7_LB = true ∧
    (sock4_lookup_with_wildcard ex_cfg ex_env_l7 (sock4_xlate_fwd_key ex_cfg ex_ctx_host)
      (ctx_protocol ex_ctx_host) (ctx_in_hostns ex_cfg ex_ctx_host.sk)).1 = some ex_svc_l7 ∧
    lb4_svc_is_l7_loadbalancer ex_svc_l7 = true ∧
    lb4_svc_is_l7_punt_proxy ex_svc_l7 = false ∧
    sock4_skip_xlate ex_cfg ex_env_l7 ex_svc_l7 ex_ctx_host.user_ip4 = false ∧
    lb4_svc_is_localredirect ex_svc_l7 = false ∧
    ctx_in_hostns ex_cfg ex_ctx_host.sk = true ∧
    (__sock4_xlate_fwd ex_cfg ex_env_l7 ex_kernel_enomem ex_maps ex_ctx_host ex_ctx_host
      false).ret = -ENOMEM ∧
    (__sock4_xlate_fwd ex_cfg ex_env_l7 ex_kernel_enomem ex_maps ex_ctx_host ex_ctx_host
      false).ctx = ex_ctx_host ∧
    ex_ctx_host.user_ip4 ≠ ex_cfg.bpf_htonl 0x7f000001 ∧
    (__sock4_xlate_fwd ex_cfg ex_env_l7 ex_kernel_enomem ex_maps ex_ctx_host ex_ctx_host
      false).maps.cilium_lb4_reverse_sk
        { cookie := 777, address := ex_backend_l7.address, port := ex_backend_l7.port } =
      none := by
  refine ⟨by decide, by decide, by decide, by decide, by decide, by decide, by decide,
    by decide, by decide, by decide, by decide⟩

/-! ## Service without usable backend -/

/-- C17: service without usable backend. Whenever `__sock4_xlate_fwd` resolves the
destination (exactly or by wildcard) to a service with backend count 0 that is not an L7 load
balancer, it returns `-EHOSTUNREACH` and leaves the event and every map unchanged, whatever
the other flags of the service are (punt-proxy included), whatever the skip policy, the
local-redirect check, the affinity map, the slot table and the backend table hold. -/
theorem sock4_xlate_fwd_no_usable_backend (cfg : Config) (env : Env) (k : Kernel) (maps : Maps)
    (ctx ctx_full : bpf_sock_addr) (udp_only : Bool) (svc : lb4_service)
    (hhost : ¬ (cfg.ENABLE_SOCKET_LB_HOST_ONLY = true ∧ ctx_in_hostns cfg ctx_full.sk = false))
    (hproto : udp_only = true ∨ sock_proto_enabled (ctx_protocol ctx) = true)
    (hsvc : (sock4_lookup_with_wildcard cfg env (sock4_xlate_fwd_key cfg ctx) (ctx_protocol ctx)
      (ctx_in_hostns cfg ctx_full.sk)).1 = some svc)
    (hcount : svc.count = 0)
    (hl7 : lb4_svc_is_l7_loadbalancer svc = false) :
    __sock4_xlate_fwd cfg env k maps ctx ctx_full udp_only =
      { ret := -EHOSTUNREACH, ctx := ctx, maps := maps } := by
  unfold __sock4_xlate_fwd
  rw [sock4_fwd_body_resolved cfg env k maps ctx ctx_full udp_only svc hhost hproto hsvc,
    if_pos ⟨hcount, by simp [hl7]⟩]

theorem sock4_xlate_fwd_no_usable_backend_witness :
    __sock4_xlate_fwd ex_cfg ex_env_punt_empty ex_kernel ex_maps ex_ctx ex_ctx false =
      { ret := -EHOSTUNREACH, ctx := ex_ctx, maps := ex_maps } :=
  sock4_xlate_fwd_no_usable_backend ex_cfg ex_env_punt_empty ex_kernel ex_maps ex_ctx ex_ctx
    false ex_svc_punt_empty (by decide) (by decide) (by decide) rfl rfl

/-! ## Pre-bind of the health checker -/

/-- C15: pre-bind for health probes. For a v4 bind event of a health-check socket in the host
namespace with protocol TCP, UDP or UDP-Lite: if the write to the health map succeeds, the map
holds the original (address, port, protocol) under the socket cookie, the bind target is
address `0` and port `0` and `cil_sock4_pre_bind` returns `SYS_PROCEED`; if the write fails,
the event and the maps are unchanged and the hook returns `SYS_REJECT` with `-ENOBUFS`. For a
socket that is not a health probe, not in the host namespace, or of another protocol, neither
the event nor the maps change (and the hook returns `SYS_PROCEED`). -/
theorem cil_sock4_pre_bind_health (cfg : Config) (k : Kernel) (maps : Maps)
    (ctx : bpf_sock_addr) :
    (sock_is_health_check cfg ctx = true → ctx_in_hostns cfg ctx.sk = true →
      (ctx_protocol ctx = IPPROTO_TCP ∨ ctx_protocol ctx = IPPROTO_UDP ∨
        ctx_protocol ctx = IPPROTO_UDPLITE) →
      (k.map_update_errno = 0 →
        (cil_sock4_pre_bind cfg k maps ctx).maps.cilium_lb4_health (get_socket_cookie ctx.sk) =
          some { address := ctx.user_ip4, port := ctx_dst_port ctx, proto := ctx_protocol ctx } ∧
        (∀ x, x ≠ get_socket_cookie ctx.sk →
          (cil_sock4_pre_bind cfg k maps ctx).maps.cilium_lb4_health x =
            maps.cilium_lb4_health x) ∧
        (cil_sock4_pre_bind cfg k maps ctx).ctx = { ctx with user_ip4 := 0, user_port := 0 } ∧
        (cil_sock4_pre_bind cfg k maps ctx).verdict = SYS_PROCEED ∧
        (cil_sock4_pre_bind cfg k maps ctx).retval = none) ∧
      (k.map_update_errno ≠ 0 →
        (cil_sock4_pre_bind cfg k maps ctx).ctx = ctx ∧
        (cil_sock4_pre_bind cfg k maps ctx).maps = maps ∧
        (cil_sock4_pre_bind cfg k maps ctx).verdict = SYS_REJECT ∧
        (cil_sock4_pre_bind cfg k maps ctx).retval = some (-ENOBUFS))) ∧
    ((sock_is_health_check cfg ctx = false ∨ ctx_in_hostns cfg ctx.sk = false ∨
        ¬ (ctx_protocol ctx = IPPROTO_TCP ∨ ctx_protocol ctx = IPPROTO_UDP ∨
          ctx_protocol ctx = IPPROTO_UDPLITE)) →
      (cil_sock4_pre_bind cfg k maps ctx).ctx = ctx ∧
      (cil_sock4_pre_bind cfg k maps ctx).maps = maps ∧
      (cil_sock4_pre_bind cfg k maps ctx).verdict = SYS_PROCEED ∧
      (cil_sock4_pre_bind cfg k maps ctx).retval = none) := by
  constructor
  · intro hhc hns hproto
    rw [← sock_proto_enabled_iff] at hproto
    have hgate : ¬ (¬ sock_proto_enabled (ctx_protocol ctx) = true ∨
        ¬ ctx_in_hostns cfg ctx.sk = true) := by
      simp [hproto, hns]
    constructor
    · intro hok
      unfold cil_sock4_pre_bind
      rw [if_neg hgate, if_pos hhc]
      simp only [__sock4_pre_bind, map_update_elem, hok, if_true]
      refine ⟨by simp, ?_, rfl, rfl, rfl⟩
      intro x hx
      simp [hx]
    · intro hfail
      unfold cil_sock4_pre_bind
      rw [if_neg hgate, if_pos hhc]
      simp only [__sock4_pre_bind, map_update_elem, hfail, if_false]
      have hne : ¬ (-(k.map_update_errno : Int) = 0) := by
        intro h
        apply hfail
        omega
      simp [hne]
  · intro h
    unfold cil_sock4_pre_bind
    by_cases hgate : ¬ sock_proto_enabled (ctx_protocol ctx) = true ∨
        ¬ ctx_in_hostns cfg ctx.sk = true
    · rw [if_pos hgate]
      exact ⟨rfl, rfl, rfl, rfl⟩
    · rw [if_neg hgate]
      simp only [not_or, not_not] at hgate
      rcases h with h | h | h
      · rw [if_neg (by simp [h])]
        exact ⟨rfl, rfl, rfl, rfl⟩
      · rw [hgate.2] at h
        cases h
      · rw [← sock_proto_enabled_iff] at h
        exact absurd hgate.1 h

theorem cil_sock4_pre_bind_health_witness :
    (cil_sock4_pre_bind ex_cfg ex_kernel ex_maps ex_ctx_health).maps.cilium_lb4_health 888 =
      some { address := ex_vip, port := ex_vport, proto := 6 } ∧
    (cil_sock4_pre_bind ex_cfg ex_kernel ex_maps ex_ctx_health).ctx =
      { ex_ctx_health with user_ip4 := 0, user_port := 0 } ∧
    (cil_sock4_pre_bind ex_cfg ex_kernel ex_maps ex_ctx_health).verdict = SYS_PROCEED ∧
    (cil_sock4_pre_bind ex_cfg ex_kernel_enomem ex_maps ex_ctx_health).verdict = SYS_REJECT ∧
    (cil_sock4_pre_bind ex_cfg ex_kernel_enomem ex_maps ex_ctx_health).retval =
      some (-ENOBUFS) :=
  have h := (cil_sock4_pre_bind_health ex_cfg ex_kernel ex_maps ex_ctx_health).1
    (by decide) (by decide) (by decide)
  have h2 := (cil_sock4_pre_bind_health ex_cfg ex_kernel_enomem ex_maps ex_ctx_health).1
    (by decide) (by decide) (by decide)
  ⟨(h.1 rfl).1, (h.1 rfl).2.2.1, (h.1 rfl).2.2.2.1, (h2.2 (by decide)).2.2.1,
    (h2.2 (by decide)).2.2.2⟩

/-! ## Socket release -/

theorem sock6_xlate_rev_absent (cfg : Config) (env : Env) (maps : Maps) (ctx : bpf_sock_addr)
    (h : cfg.ENABLE_IPV6 = true → maps.cilium_lb6_reverse_sk (sock6_xlate_rev_tuple ctx) = none) :
    __sock6_xlate_rev cfg env maps ctx = sock6_xlate_rev_v4_in_v6 cfg env maps ctx := by
  unfold __sock6_xlate_rev
  by_cases h6 : cfg.ENABLE_IPV6 = true
  · simp only [h6, if_true, map_lookup_elem, h h6]
  · simp only [h6]
    rfl

theorem lb4_key_with_address_self (key : lb4_key) :
    ({ key with address := key.address } : lb4_key) = key := by
  cases key
  rfl

/-- A call of `sock4_wildcard_lookup` whose port test fails returns no service and leaves the
key alone: the NodePort pass for a port outside the range, the HostPort pass for a port
inside it. -/
theorem sock4_wildcard_lookup_port_rejected (cfg : Config) (env : Env) (key : lb4_key)
    (include_remote_hosts inv_match in_hostns : Bool)
    (h : Bool.xor (decide (cfg.bpf_ntohs key.dport < cfg.NODEPORT_PORT_MIN ∨
      cfg.bpf_ntohs key.dport > cfg.NODEPORT_PORT_MAX)) inv_match = true) :
    sock4_wildcard_lookup cfg env key include_remote_hosts inv_match in_hostns = (none, key) := by
  unfold sock4_wildcard_lookup
  simp only [h, if_true]

/-- The HostPort pass for a port outside the NodePort range and an address that qualifies:
the lookup with the zeroed address. -/
theorem sock4_wildcard_lookup_hostport_pass (cfg : Config) (env : Env) (key : lb4_key)
    (in_hostns : Bool)
    (hout : cfg.bpf_ntohs key.dport < cfg.NODEPORT_PORT_MIN ∨
      cfg.bpf_ntohs key.dport > cfg.NODEPORT_PORT_MAX)
    (hq : (in_hostns = true ∧ is_v4_loopback cfg key.address = true) ∨
      ∃ info, env.lookup_ip4_remote_endpoint key.address 0 = some info ∧
        info.sec_identity = cfg.HOST_ID) :
    sock4_wildcard_lookup cfg env key false true in_hostns =
      env.lb4_lookup_service { key with address := 0 } true := by
  unfold sock4_wildcard_lookup
  simp only [hout, decide_True, Bool.xor_self, Bool.false_eq_true, if_false]
  by_cases hl : in_hostns = true ∧ is_v4_loopback cfg key.address = true
  · rw [if_pos hl]
  · rw [if_neg hl]
    rcases hq with hq | ⟨info, hi, hid⟩
    · exact absurd hq hl
    · rw [hi]
      simp [hid]

/-- The result of `sock4_wildcard_lookup_full` for a port outside the NodePort range: the
NodePort pass gives nothing and the HostPort pass decides. -/
theorem sock4_wildcard_lookup_full_outside (cfg : Config) (env : Env) (key : lb4_key)
    (in_hostns : Bool) (hnp : cfg.ENABLE_NODEPORT = true)
    (hout : cfg.bpf_ntohs key.dport < cfg.NODEPORT_PORT_MIN ∨
      cfg.bpf_ntohs key.dport > cfg.NODEPORT_PORT_MAX) :
    (sock4_wildcard_lookup_full cfg env key in_hostns).1 =
      match (sock4_wildcard_lookup cfg env key false true in_hostns).1 with
      | some svc =>
        if lb4_svc_is_hostport svc = true ∧
            (lb4_svc_is_loopback svc = false ∨ is_v4_loopback cfg key.address = true) then
          some svc
        else none
      | none => none := by
  have h1 : sock4_wildcard_lookup cfg env key true false in_hostns = (none, key) :=
    sock4_wildcard_lookup_port_rejected cfg env key true false in_hostns (by simp [hout])
  unfold sock4_wildcard_lookup_full
  simp only [hnp, if_true, h1, lb4_key_with_address_self]
  cases h2 : (sock4_wildcard_lookup cfg env key false true in_hostns).1 with
  | none => simp
  | some svc =>
    by_cases hc : lb4_svc_is_hostport svc = true ∧
        (lb4_svc_is_loopback svc = false ∨ is_v4_loopback cfg key.address = true)
    · have hb : (lb4_svc_is_hostport svc &&
          (!lb4_svc_is_loopback svc || is_v4_loopback cfg key.address)) = true := by
        simpa using hc
      simp [hb, h2, hc]
    · have hb : ¬ (lb4_svc_is_hostport svc &&
          (!lb4_svc_is_loopback svc || is_v4_loopback cfg key.address)) = true := by
        simpa using hc
      simp [hb, hc]

/-- The result of `sock4_wildcard_lookup_full` for a port inside the NodePort range, when the
lookup helper leaves the port of the key alone: the HostPort pass gives nothing, so a result
is a NodePort service of the first pass. -/
theorem sock4_wildcard_lookup_full_inside (cfg : Config) (env : Env) (key : lb4_key)
    (in_hostns : Bool) (hnp : cfg.ENABLE_NODEPORT = true)
    (hin : ¬ (cfg.bpf_ntohs key.dport < cfg.NODEPORT_PORT_MIN ∨
      cfg.bpf_ntohs key.dport > cfg.NODEPORT_PORT_MAX))
    (hd : (sock4_wildcard_lookup cfg env key true false in_hostns).2.dport = key.dport) :
    (sock4_wildcard_lookup_full cfg env key in_hostns).1 =
      match (sock4_wildcard_lookup cfg env key true false in_hostns).1 with
      | some svc => if lb4_svc_is_nodeport svc = true then some svc else none
      | none => none := by
  have h2 : sock4_wildcard_lookup cfg env
      { (sock4_wildcard_lookup cfg env key true false in_hostns).2 with address := key.address }
      false true in_hostns =
      (none, { (sock4_wildcard_lookup cfg env key true false in_hostns).2 with
        address := key.address }) :=
    sock4_wildcard_lookup_port_rejected cfg env _ false true in_hostns (by
      simp only [hd]
      simp [hin])
  unfold sock4_wildcard_lookup_full
  simp only [hnp, if_true, h2]
  cases h1 : (sock4_wildcard_lookup cfg env key true false in_hostns).1 with
  | none => simp
  | some svc =>
    by_cases hn : lb4_svc_is_nodeport svc = true
    · simp [hn, h1]
    · simp [hn]

/-- C18 (amended): the HostPort wildcard pass is restricted to the ports outside the NodePort
range. In a build with NodePort support: for every destination port outside
`[NODEPORT_PORT_MIN, NODEPORT_PORT_MAX]` whose address qualifies for the wildcard lookup
(loopback from the host namespace, or host identity), the HostPort pass of
`sock4_wildcard_lookup_full` (the second call of `sock4_wildcard_lookup`) performs the
zero-address lookup, and a hostport-flagged service it finds, whose loopback flag is unset or
whose destination is loopback, is the result; for a port inside the range the HostPort pass
performs no lookup and returns no service, so that a result of `sock4_wildcard_lookup_full`
is a NodePort service of the first pass (the lookup helper leaving the port of the key
alone). -/
theorem sock4_wildcard_lookup_full_hostport_range (cfg : Config) (env : Env) (key : lb4_key)
    (in_hostns : Bool) (hnp : cfg.ENABLE_NODEPORT = true) :
    ((cfg.bpf_ntohs key.dport < cfg.NODEPORT_PORT_MIN ∨
        cfg.bpf_ntohs key.dport > cfg.NODEPORT_PORT_MAX) →
      ((in_hostns = true ∧ is_v4_loopback cfg key.address = true) ∨
        ∃ info, env.lookup_ip4_remote_endpoint key.address 0 = some info ∧
          info.sec_identity = cfg.HOST_ID) →
      sock4_wildcard_lookup cfg env key false true in_hostns =
        env.lb4_lookup_service { key with address := 0 } true ∧
      ∀ svc, (env.lb4_lookup_service { key with address := 0 } true).1 = some svc →
        lb4_svc_is_hostport svc = true →
        (lb4_svc_is_loopback svc = false ∨ is_v4_loopback cfg key.address = true) →
        (sock4_wildcard_lookup_full cfg env key in_hostns).1 = some svc) ∧
    (¬ (cfg.bpf_ntohs key.dport < cfg.NODEPORT_PORT_MIN ∨
        cfg.bpf_ntohs key.dport > cfg.NODEPORT_PORT_MAX) →
      (∀ key2 : lb4_key, key2.dport = key.dport →
        sock4_wildcard_lookup cfg env key2 false true in_hostns = (none, key2)) ∧
      ((sock4_wildcard_lookup cfg env key true false in_hostns).2.dport = key.dport →
        ∀ svc, (sock4_wildcard_lookup_full cfg env key in_hostns).1 = some svc →
          (sock4_wildcard_lookup cfg env key true false in_hostns).1 = some svc ∧
          lb4_svc_is_nodeport svc = true)) := by
  constructor
  · intro hout hq
    have hpass := sock4_wildcard_lookup_hostport_pass cfg env key in_hostns hout hq
    refine ⟨hpass, ?_⟩
    intro svc hs hh hl
    rw [sock4_wildcard_lookup_full_outside cfg env key in_hostns hnp hout, hpass, hs]
    simp only
    rw [if_pos ⟨hh, hl⟩]
  · intro hin
    constructor
    · intro key2 hd
      exact sock4_wildcard_lookup_port_rejected cfg env key2 false true in_hostns (by
        rw [hd]
        simp [hin])
    · intro hd svc hs
      rw [sock4_wildcard_lookup_full_inside cfg env key in_hostns hnp hin hd] at hs
      cases h1 : (sock4_wildcard_lookup cfg env key true false in_hostns).1 with
      | none =>
        rw [h1] at hs
        cases hs
      | some s1 =>
        rw [h1] at hs
        simp only at hs
        by_cases hn : lb4_svc_is_nodeport s1 = true
        · rw [if_pos hn] at hs
          cases hs
          exact ⟨rfl, hn⟩
        · rw [if_neg hn] at hs
          cases hs

theorem sock4_wildcard_lookup_full_hostport_range_witness :
    (sock4_wildcard_lookup_full ex_cfg ex_env_hostport ex_key_loopback_hostport true).1 =
      some ex_svc_hostport :=
  ((sock4_wildcard_lookup_full_hostport_range ex_cfg ex_env_hostport ex_key_loopback_hostport
    true rfl).1 (by decide) (by decide)).2 ex_svc_hostport (by decide) (by decide) (by decide)

/-- C18 (as stated) fails: on the node `ex_env_hostport_in_range` the destination
`192.168.1.10:31000` has a port inside the NodePort range 30000-32767 and an address with the
host identity, and the zero-address lookup finds the hostport-flagged service
`ex_svc_hostport`; yet the HostPort pass returns no service, and neither does
`sock4_wildcard_lookup_full`. -/
theorem sock4_wildcard_lookup_hostport_inside_range :
    ex_cfg.NODEPORT_PORT_MIN ≤ ex_cfg.bpf_ntohs ex_key_nodeport.dport ∧
    ex_cfg.bpf_ntohs ex_key_nodeport.dport ≤ ex_cfg.NODEPORT_PORT_MAX ∧
    ex_env_hostport_in_range.lookup_ip4_remote_endpoint ex_key_nodeport.address 0 =
      some { sec_identity := ex_cfg.HOST_ID } ∧
    (ex_env_hostport_in_range.lb4_lookup_service { ex_key_nodeport with address := 0 } true).1 =
      some ex_svc_hostport ∧
    lb4_svc_is_hostport ex_svc_hostport = true ∧
    lb4_svc_is_loopback ex_svc_hostport = false ∧
    (sock4_wildcard_lookup ex_cfg ex_env_hostport_in_range ex_key_nodeport false true false).1 =
      none ∧
    (sock4_wildcard_lookup_full ex_cfg ex_env_hostport_in_range ex_key_nodeport false).1 =
      none := by
  refine ⟨by decide, by decide, by decide, by decide, by decide, by decide, by decide,
    by decide⟩

/-- C19 (amended): HostPort loopback agreement. In a build with NodePort support, a service
returned by the HostPort pass of `sock4_wildcard_lookup_full` (a result that is not a NodePort
service of the first pass) is flagged hostport, and if it is loopback-flagged the original
destination address is loopback: a loopback-flagged wildcard hostport service is never
returned for a non-loopback destination. A wildcard hostport service without the loopback flag
is returned for every qualifying destination with a port outside the NodePort range, loopback
or not. -/
theorem sock4_wildcard_lookup_full_hostport_loopback (cfg : Config) (env : Env)
    (key : lb4_key) (in_hostns : Bool) (hnp : cfg.ENABLE_NODEPORT = true) :
    (∀ svc, (sock4_wildcard_lookup_full cfg env key in_hostns).1 = some svc →
      (¬ ∃ s1, (sock4_wildcard_lookup cfg env key true false in_hostns).1 = some s1 ∧
        lb4_svc_is_nodeport s1 = true) →
      lb4_svc_is_hostport svc = true ∧
      (lb4_svc_is_loopback svc = true → is_v4_loopback cfg key.address = true)) ∧
    ((cfg.bpf_ntohs key.dport < cfg.NODEPORT_PORT_MIN ∨
        cfg.bpf_ntohs key.dport > cfg.NODEPORT_PORT_MAX) →
      ((in_hostns = true ∧ is_v4_loopback cfg key.address = true) ∨
        ∃ info, env.lookup_ip4_remote_endpoint key.address 0 = some info ∧
          info.sec_identity = cfg.HOST_ID) →
      ∀ svc, (env.lb4_lookup_service { key with address := 0 } true).1 = some svc →
        lb4_svc_is_hostport svc = true → lb4_svc_is_loopback svc = false →
        (sock4_wildcard_lookup_full cfg env key in_hostns).1 = some svc) := by
  constructor
  · unfold sock4_wildcard_lookup_full
    simp only [hnp, if_true]
    generalize sock4_wildcard_lookup cfg env key true false in_hostns = r1
    generalize sock4_wildcard_lookup cfg env { r1.2 with address := key.address } false true
      in_hostns = r2
    obtain ⟨o1, k1⟩ := r1
    obtain ⟨o2, k2⟩ := r2
    intro svc h hfirst
    simp only at h hfirst
    cases o2 with
    | none =>
      cases o1 with
      | none => simp at h
      | some s1 =>
        have hn : ¬ lb4_svc_is_nodeport s1 = true := fun hn => hfirst ⟨s1, rfl, hn⟩
        simp [hn] at h
    | some s2 =>
      by_cases hc : (lb4_svc_is_hostport s2 &&
          (!lb4_svc_is_loopback s2 || is_v4_loopback cfg key.address)) = true
      · have hs : s2 = svc := by
          cases o1 with
          | none => simpa [hc] using h
          | some s1 =>
            have hn : ¬ lb4_svc_is_nodeport s1 = true := fun hn => hfirst ⟨s1, rfl, hn⟩
            simpa [hc, hn] using h
        subst hs
        simp only [Bool.and_eq_true, Bool.or_eq_true, Bool.not_eq_true'] at hc
        refine ⟨hc.1, ?_⟩
        intro hl
        rcases hc.2 with h2 | h2
        · rw [hl] at h2
          cases h2
        · exact h2
      · cases o1 with
        | none => simp [hc] at h
        | some s1 =>
          have hn : ¬ lb4_svc_is_nodeport s1 = true := fun hn => hfirst ⟨s1, rfl, hn⟩
          simp [hc, hn] at h
  · intro hout hq svc hs hh hl
    rw [sock4_wildcard_lookup_full_outside cfg env key in_hostns hnp hout,
      sock4_wildcard_lookup_hostport_pass cfg env key in_hostns hout hq, hs]
    simp only
    rw [if_pos ⟨hh, Or.inl hl⟩]

theorem sock4_wildcard_lookup_full_hostport_loopback_witness :
    lb4_svc_is_hostport ex_svc_hostport = true ∧
    (lb4_svc_is_loopback ex_svc_hostport = true →
      is_v4_loopback ex_cfg ex_key_loopback_hostport.address = true) :=
  (sock4_wildcard_lookup_full_hostport_loopback ex_cfg ex_env_hostport
    ex_key_loopback_hostport true rfl).1 ex_svc_hostport (by decide) (by decide)

/-- C19 (as stated) fails: on the node `ex_env_hostport` the destination `127.0.0.1:8080`,
looked up from the host namespace, is a loopback address; the NodePort pass finds nothing and
the HostPort pass returns the wildcard hostport service `ex_svc_hostport`, which has no
loopback flag. -/
theorem sock4_wildcard_lookup_full_unflagged_for_loopback :
    is_v4_loopback ex_cfg ex_key_loopback_hostport.address = true ∧
    (sock4_wildcard_lookup ex_cfg ex_env_hostport ex_key_loopback_hostport true false true).1 =
      none ∧
    (sock4_wildcard_lookup_full ex_cfg ex_env_hostport ex_key_loopback_hostport true).1 =
      some ex_svc_hostport ∧
    lb4_svc_is_hostport ex_svc_hostport = true ∧
    lb4_svc_is_loopback ex_svc_hostport = false := by
  refine ⟨by decide, by decide, by decide, by decide, by decide⟩

/-! ## Bind guard through the dual-stack adapter -/

/-- The bind guard reads its first context only through the protocol, the source address and
the source port, and its second context only through the socket identity. -/
theorem sock4_post_bind_congr (cfg : Config) (env : Env) (ctx ctx_full ctx2 ctx_full2 : bpf_sock)
    (hproto : sk_protocol ctx = sk_protocol ctx2) (hip : ctx.src_ip4 = ctx2.src_ip4)
    (hport : ctx_src_port cfg ctx = ctx_src_port cfg ctx2) (hsk : ctx_full.sk = ctx_full2.sk) :
    __sock4_post_bind cfg env ctx ctx_full = __sock4_post_bind cfg env ctx2 ctx_full2 := by
  have hkey : sock4_post_bind_key cfg ctx = sock4_post_bind_key cfg ctx2 := by
    simp [sock4_post_bind_key, hproto, hip, hport]
  unfold __sock4_post_bind
  simp only [hkey, hproto, hsk]

theorem sock4_post_bind_values (cfg : Config) (env : Env) (ctx ctx_full : bpf_sock) :
    __sock4_post_bind cfg env ctx ctx_full = 0 ∨
      __sock4_post_bind cfg env ctx ctx_full = -EADDRINUSE := by
  rw [sock4_post_bind_eq]
  split
  · exact Or.inr rfl
  · exact Or.inl rfl

/-- C20: bind guard through the dual-stack adapter. For every v6 post-bind event for which no
v6 service is resolved (neither by the exact lookup nor by the NodePort wildcard lookup): if
the source address is IPv4-mapped (`::ffff:A`), `__sock6_post_bind` returns, in a build with
IPv4, the decision of `__sock4_post_bind` on the v4 event with source address `A` and the
same source port, protocol and socket, which is `0` or `-EADDRINUSE`; if the source address is
not IPv4-mapped it returns `0`. This holds in the host namespace and outside of it, where both
return `0`. -/
theorem sock6_post_bind_dual_stack (cfg : Config) (env : Env) (ctx ctx4 : bpf_sock)
    (hmiss : sock6_post_bind_lookup cfg env (sock6_post_bind_key cfg ctx) (sk_protocol ctx) =
      none) :
    (cfg.ENABLE_IPV4 = true → is_v4_in_v6 cfg ctx.src_ip6 = true →
      ctx4.src_ip4 = ctx.src_ip6.p4 → ctx4.src_port = ctx.src_port →
      ctx4.protocol = ctx.protocol → ctx4.sk = ctx.sk →
      __sock6_post_bind cfg env ctx = __sock4_post_bind cfg env ctx4 ctx4 ∧
      (__sock6_post_bind cfg env ctx = 0 ∨ __sock6_post_bind cfg env ctx = -EADDRINUSE)) ∧
    (is_v4_in_v6 cfg ctx.src_ip6 = false → __sock6_post_bind cfg env ctx = 0) := by
  have hgate4 : ∀ c f : bpf_sock, (¬ sock_proto_enabled (sk_protocol c) = true ∨
      ¬ ctx_in_hostns cfg f.sk = true) → __sock4_post_bind cfg env c f = 0 := by
    intro c f h
    unfold __sock4_post_bind
    simp only
    rw [if_pos h]
  constructor
  · intro hv4 hmapped hip hport hproto hsk
    have heq : __sock6_post_bind cfg env ctx = __sock4_post_bind cfg env ctx4 ctx4 := by
      unfold __sock6_post_bind
      simp only
      by_cases hg : ¬ sock_proto_enabled (sk_protocol ctx) = true ∨
          ¬ ctx_in_hostns cfg ctx.sk = true
      · rw [if_pos hg, hgate4 ctx4 ctx4 (by
          simpa [sk_protocol, hproto, hsk] using hg)]
      · rw [if_neg hg, hmiss]
        simp only [sock6_post_bind_v4_in_v6, hv4, if_true, ctx_get_v6_src_address, hmapped]
        simp only [not_true_eq_false, if_false]
        exact sock4_post_bind_congr cfg env _ ctx ctx4 ctx4
          (by simp [sock6_post_bind_fake_ctx, sk_protocol, hproto])
          (by simp [sock6_post_bind_fake_ctx, hip])
          (by simp [sock6_post_bind_fake_ctx, ctx_src_port, hport])
          hsk.symm
    refine ⟨heq, ?_⟩
    rw [heq]
    exact sock4_post_bind_values cfg env ctx4 ctx4
  · intro hnot
    unfold __sock6_post_bind
    simp only
    split
    · rfl
    · rw [hmiss]
      simp only [sock6_post_bind_v4_in_v6, ctx_get_v6_src_address, hnot]
      simp

theorem sock6_post_bind_dual_stack_witness :
    __sock6_post_bind ex_cfg ex_env_nodeport ex_sock6_bind_mapped = -EADDRINUSE ∧
    __sock4_post_bind ex_cfg ex_env_nodeport ex_sock4_bind ex_sock4_bind = -EADDRINUSE :=
  have h := (sock6_post_bind_dual_stack ex_cfg ex_env_nodeport ex_sock6_bind_mapped
    ex_sock4_bind (by decide)).1 rfl (by decide) rfl rfl rfl rfl
  ⟨h.1.trans (by decide), by decide⟩

/-! ## Frame of the forward translation -/

theorem sock4_fwd_selected_ret (maps : Maps) (svc : lb4_service) (client_cookie : Nat)
    (backend : Option lb4_backend) (backend_id : Nat) (bfa : Bool) (code : Int)
    (h : __sock4_xlate_fwd_selected maps svc client_cookie backend backend_id bfa = .ret code) :
    code = -EHOSTUNREACH := by
  unfold __sock4_xlate_fwd_selected at h
  split at h
  · cases h
    rfl
  · split at h <;> cases h

theorem sock4_fwd_slot_ret (env : Env) (k : Kernel) (maps : Maps) (ctx_full : bpf_sock_addr)
    (svc : lb4_service) (key : lb4_key) (client_cookie : Nat) (code : Int)
    (h : __sock4_xlate_fwd_slot env k maps ctx_full svc key client_cookie = .ret code) :
    code = -EHOSTUNREACH := by
  unfold __sock4_xlate_fwd_slot at h
  simp only at h
  split at h
  · cases h
    rfl
  · exact sock4_fwd_selected_ret _ _ _ _ _ _ _ h

theorem sock4_fwd_select_ret (env : Env) (k : Kernel) (maps : Maps) (ctx_full : bpf_sock_addr)
    (svc : lb4_service) (key : lb4_key) (client_cookie : Nat) (code : Int)
    (h : __sock4_xlate_fwd_select env k maps ctx_full svc key client_cookie = .ret code) :
    code = -EHOSTUNREACH := by
  unfold __sock4_xlate_fwd_select at h
  simp only at h
  split at h
  · split at h
    · split at h
      · exact sock4_fwd_selected_ret _ _ _ _ _ _ _ h
      · exact sock4_fwd_slot_ret _ _ _ _ _ _ _ _ h
    · exact sock4_fwd_slot_ret _ _ _ _ _ _ _ _ h
  · exact sock4_fwd_slot_ret _ _ _ _ _ _ _ _ h

/-- The codes the body of `__sock4_xlate_fwd` returns before the label `out`: `0` (L7 service,
caller outside the host namespace), a negative error, or `SYS_PROCEED` for a resolved
punt-proxy service. -/
theorem sock4_fwd_body_ret (cfg : Config) (env : Env) (k : Kernel) (maps : Maps)
    (ctx ctx_full : bpf_sock_addr) (udp_only : Bool) (code : Int)
    (h : __sock4_xlate_fwd_body cfg env k maps ctx ctx_full udp_only = .ret code) :
    code = 0 ∨ code < 0 ∨
      (code = SYS_PROCEED ∧ ∃ svc,
        (sock4_lookup_with_wildcard cfg env (sock4_xlate_fwd_key cfg ctx) (ctx_protocol ctx)
          (ctx_in_hostns cfg ctx_full.sk)).1 = some svc ∧
        lb4_svc_is_l7_punt_proxy svc = true) := by
  unfold __sock4_xlate_fwd_body at h
  simp only at h
  split at h
  · cases h
    simp [ ENXIO]
  split at h
  · cases h
    simp [ENOTSUP]
  split at h
  · cases h
    simp [ ENXIO]
  rename_i svc0 hsvc
  split at h
  · cases h
    simp [EHOSTUNREACH]
  split at h
  · rename_i hp
    cases h
    exact Or.inr (Or.inr ⟨rfl, svc0, hsvc, hp⟩)
  split at h
  · cases h
    simp [EPERM]
  split at h
  · cases h
    simp [ ENXIO]
  split at h
  · split at h
    · cases h
    · cases h
      exact Or.inl rfl
  · have := sock4_fwd_select_ret _ _ _ _ _ _ _ _ h
    subst this
    simp [EHOSTUNREACH]

/-- C27: frame of the forward translation. For every configuration, table state, kernel answer
and event, if `__sock4_xlate_fwd` returns a code other than `0` then the event (so its
destination address and port) is the one given on entry and the reverse-NAT map is the map on
entry, no entry added, none changed; such a code is negative or is `SYS_PROCEED` for a
resolved punt-proxy service. Hence an execution that leaves a different destination address or
port has returned `0`. -/
theorem sock4_xlate_fwd_frame (cfg : Config) (env : Env) (k : Kernel) (maps : Maps)
    (ctx ctx_full : bpf_sock_addr) (udp_only : Bool) :
    ((__sock4_xlate_fwd cfg env k maps ctx ctx_full udp_only).ret ≠ 0 →
      (__sock4_xlate_fwd cfg env k maps ctx ctx_full udp_only).ctx = ctx ∧
      (__sock4_xlate_fwd cfg env k maps ctx ctx_full udp_only).maps.cilium_lb4_reverse_sk =
        maps.cilium_lb4_reverse_sk ∧
      ((__sock4_xlate_fwd cfg env k maps ctx ctx_full udp_only).ret < 0 ∨
        ((__sock4_xlate_fwd cfg env k maps ctx ctx_full udp_only).ret = SYS_PROCEED ∧
          ∃ svc, (sock4_lookup_with_wildcard cfg env (sock4_xlate_fwd_key cfg ctx)
              (ctx_protocol ctx) (ctx_in_hostns cfg ctx_full.sk)).1 = some svc ∧
            lb4_svc_is_l7_punt_proxy svc = true))) ∧
    ((__sock4_xlate_fwd cfg env k maps ctx ctx_full udp_only).ctx.user_ip4 ≠ ctx.user_ip4 ∨
      (__sock4_xlate_fwd cfg env k maps ctx ctx_full udp_only).ctx.user_port ≠ ctx.user_port →
      (__sock4_xlate_fwd cfg env k maps ctx ctx_full udp_only).ret = 0) := by
  have hframe : (__sock4_xlate_fwd cfg env k maps ctx ctx_full udp_only).ret ≠ 0 →
      (__sock4_xlate_fwd cfg env k maps ctx ctx_full udp_only).maps.cilium_lb4_reverse_sk =
        maps.cilium_lb4_reverse_sk ∧
      ((__sock4_xlate_fwd cfg env k maps ctx ctx_full udp_only).ret < 0 ∨
        ((__sock4_xlate_fwd cfg env k maps ctx ctx_full udp_only).ret = SYS_PROCEED ∧
          ∃ svc, (sock4_lookup_with_wildcard cfg env (sock4_xlate_fwd_key cfg ctx)
              (ctx_protocol ctx) (ctx_in_hostns cfg ctx_full.sk)).1 = some svc ∧
            lb4_svc_is_l7_punt_proxy svc = true)) := by
    intro hne
    unfold __sock4_xlate_fwd at hne ⊢
    cases hb : __sock4_xlate_fwd_body cfg env k maps ctx ctx_full udp_only with
    | ret code =>
      rw [hb] at hne
      dsimp only at hne ⊢
      refine ⟨rfl, ?_⟩
      rcases sock4_fwd_body_ret cfg env k maps ctx ctx_full udp_only code hb with h0 | hneg | hp
      · exact absurd h0 hne
      · exact Or.inl hneg
      · exact Or.inr hp
    | out B svc m =>
      rw [hb] at hne
      simp only [__sock4_xlate_fwd_out] at hne ⊢
      by_cases hw : (sock4_update_revnat k m ctx_full B (sock4_xlate_fwd_key cfg ctx)
          svc.rev_nat_index).1 < 0
      · rw [if_pos hw]
        simp only
        rw [sock4_update_revnat_failed k m ctx_full B _ _ hw]
        exact ⟨(sock4_fwd_body_out cfg env k maps ctx ctx_full udp_only B svc m hb).2.2,
          Or.inl (by simp [ENOMEM])⟩
      · rw [if_neg hw] at hne
        exact absurd rfl hne
  refine ⟨fun hne => ⟨sock4_fwd_ctx_of_ret_ne_zero cfg env k maps ctx ctx_full udp_only hne,
    hframe hne⟩, ?_⟩
  intro hch
  by_contra hne
  rw [sock4_fwd_ctx_of_ret_ne_zero cfg env k maps ctx ctx_full udp_only hne] at hch
  rcases hch with h | h <;> exact h rfl

theorem sock4_xlate_fwd_frame_witness :
    (__sock4_xlate_fwd ex_cfg ex_env ex_kernel_enomem ex_maps ex_ctx ex_ctx false).ret =
      -ENOMEM ∧
    (__sock4_xlate_fwd ex_cfg ex_env ex_kernel_enomem ex_maps ex_ctx ex_ctx false).ctx = ex_ctx ∧
    (__sock4_xlate_fwd ex_cfg ex_env ex_kernel_enomem ex_maps ex_ctx ex_ctx
      false).maps.cilium_lb4_reverse_sk = ex_maps.cilium_lb4_reverse_sk :=
  have h := (sock4_xlate_fwd_frame ex_cfg ex_env ex_kernel_enomem ex_maps ex_ctx ex_ctx false).1
    (by decide)
  ⟨by decide, h.1, h.2.1⟩

/-! ## Idempotence of the reverse-NAT recording -/

theorem sock4_update_revnat_written (k : Kernel) (maps : Maps) (ctx : bpf_sock_addr)
    (backend : lb4_backend) (orig_key : lb4_key) (rev_nat_id : Nat)
    (h : maps.cilium_lb4_reverse_sk
        { cookie := sock_local_cookie ctx, address := backend.address, port := backend.port } ≠
      some { address := orig_key.address, port := orig_key.dport, rev_nat_index := rev_nat_id }) :
    sock4_update_revnat k maps ctx backend orig_key rev_nat_id =
      ((map_update_elem k maps.cilium_lb4_reverse_sk
          { cookie := sock_local_cookie ctx, address := backend.address, port := backend.port }
          { address := orig_key.address, port := orig_key.dport,
            rev_nat_index := rev_nat_id }).1,
       { maps with cilium_lb4_reverse_sk := (map_update_elem k maps.cilium_lb4_reverse_sk
          { cookie := sock_local_cookie ctx, address := backend.address, port := backend.port }
          { address := orig_key.address, port := orig_key.dport,
            rev_nat_index := rev_nat_id }).2 }) := by
  unfold sock4_update_revnat
  simp only [map_lookup_elem]
  rw [if_pos (Or.inr h)]

theorem sock6_update_revnat_lookup (k : Kernel) (maps : Maps) (ctx : bpf_sock_addr)
    (backend : lb6_backend) (orig_key : lb6_key) (rev_nat_index : Nat)
    (h : ¬ (sock6_update_revnat k maps ctx backend orig_key rev_nat_index).1 < 0) :
    (sock6_update_revnat k maps ctx backend orig_key rev_nat_index).2.cilium_lb6_reverse_sk
        { cookie := sock_local_cookie ctx, address := backend.address, port := backend.port } =
      some { address := orig_key.address, port := orig_key.dport,
             rev_nat_index := rev_nat_index } := by
  unfold sock6_update_revnat at h ⊢
  simp only [map_lookup_elem] at h ⊢
  split
  · rename_i hc
    rw [if_pos hc] at h
    simp only at h ⊢
    exact map_update_elem_lookup _ _ _ _ (by omega)
  · rename_i hc
    simp only [not_or, not_not] at hc
    exact hc.2

theorem sock6_update_revnat_ret (k : Kernel) (maps : Maps) (ctx : bpf_sock_addr)
    (backend : lb6_backend) (orig_key : lb6_key) (rev_nat_index : Nat)
    (h : maps.cilium_lb6_reverse_sk
        { cookie := sock_local_cookie ctx, address := backend.address, port := backend.port } =
      some { address := orig_key.address, port := orig_key.dport,
             rev_nat_index := rev_nat_index }) :
    sock6_update_revnat k maps ctx backend orig_key rev_nat_index = (0, maps) := by
  unfold sock6_update_revnat
  simp only [map_lookup_elem, h]
  simp

theorem sock6_update_revnat_written (k : Kernel) (maps : Maps) (ctx : bpf_sock_addr)
    (backend : lb6_backend) (orig_key : lb6_key) (rev_nat_index : Nat)
    (h : maps.cilium_lb6_reverse_sk
        { cookie := sock_local_cookie ctx, address := backend.address, port := backend.port } ≠
      some { address := orig_key.address, port := orig_key.dport,
             rev_nat_index := rev_nat_index }) :
    sock6_update_revnat k maps ctx backend orig_key rev_nat_index =
      ((map_update_elem k maps.cilium_lb6_reverse_sk
          { cookie := sock_local_cookie ctx, address := backend.address, port := backend.port }
          { address := orig_key.address, port := orig_key.dport,
            rev_nat_index := rev_nat_index }).1,
       { maps with cilium_lb6_reverse_sk := (map_update_elem k maps.cilium_lb6_reverse_sk
          { cookie := sock_local_cookie ctx, address := backend.address, port := backend.port }
          { address := orig_key.address, port := orig_key.dport,
            rev_nat_index := rev_nat_index }).2 }) := by
  unfold sock6_update_revnat
  simp only [map_lookup_elem]
  rw [if_pos (Or.inr h)]

/-- C28: reverse-NAT recording is idempotent. `sock4_update_revnat` calls `map_update_elem`
exactly when the map holds, under (socket cookie, backend address, backend port), no entry or
an entry other than (original address, original port, `rev_nat_index`): with the same entry
already there it returns `0` and leaves every map as it is whatever the kernel would answer
to a write, otherwise its result is the result of the one write under that key. After a call
that returned `0` the lookup under that key gives exactly that value, and a second call with
the same arguments, whatever the kernel would answer to a write, returns `0` and leaves the
maps equal to the maps after the first call. The same holds for `sock6_update_revnat`. -/
theorem sock4_update_revnat_idempotent (k k2 : Kernel) (maps : Maps) (ctx : bpf_sock_addr) :
    (∀ (backend : lb4_backend) (orig_key : lb4_key) (rev_nat_id : Nat),
      (maps.cilium_lb4_reverse_sk
          { cookie := sock_local_cookie ctx, address := backend.address, port := backend.port } =
        some { address := orig_key.address, port := orig_key.dport,
               rev_nat_index := rev_nat_id } →
        sock4_update_revnat k maps ctx backend orig_key rev_nat_id = (0, maps)) ∧
      (maps.cilium_lb4_reverse_sk
          { cookie := sock_local_cookie ctx, address := backend.address, port := backend.port } ≠
        some { address := orig_key.address, port := orig_key.dport,
               rev_nat_index := rev_nat_id } →
        sock4_update_revnat k maps ctx backend orig_key rev_nat_id =
          ((map_update_elem k maps.cilium_lb4_reverse_sk
              { cookie := sock_local_cookie ctx, address := backend.address,
                port := backend.port }
              { address := orig_key.address, port := orig_key.dport,
                rev_nat_index := rev_nat_id }).1,
           { maps with cilium_lb4_reverse_sk := (map_update_elem k maps.cilium_lb4_reverse_sk
              { cookie := sock_local_cookie ctx, address := backend.address,
                port := backend.port }
              { address := orig_key.address, port := orig_key.dport,
                rev_nat_index := rev_nat_id }).2 })) ∧
      ((sock4_update_revnat k maps ctx backend orig_key rev_nat_id).1 = 0 →
        (sock4_update_revnat k maps ctx backend orig_key rev_nat_id).2.cilium_lb4_reverse_sk
            { cookie := sock_local_cookie ctx, address := backend.address,
              port := backend.port } =
          some { address := orig_key.address, port := orig_key.dport,
                 rev_nat_index := rev_nat_id } ∧
        sock4_update_revnat k2 (sock4_update_revnat k maps ctx backend orig_key rev_nat_id).2
            ctx backend orig_key rev_nat_id =
          (0, (sock4_update_revnat k maps ctx backend orig_key rev_nat_id).2))) ∧
    (∀ (backend : lb6_backend) (orig_key : lb6_key) (rev_nat_index : Nat),
      (maps.cilium_lb6_reverse_sk
          { cookie := sock_local_cookie ctx, address := backend.address, port := backend.port } =
        some { address := orig_key.address, port := orig_key.dport,
               rev_nat_index := rev_nat_index } →
        sock6_update_revnat k maps ctx backend orig_key rev_nat_index = (0, maps)) ∧
      (maps.cilium_lb6_reverse_sk
          { cookie := sock_local_cookie ctx, address := backend.address, port := backend.port } ≠
        some { address := orig_key.address, port := orig_key.dport,
               rev_nat_index := rev_nat_index } →
        sock6_update_revnat k maps ctx backend orig_key rev_nat_index =
          ((map_update_elem k maps.cilium_lb6_reverse_sk
              { cookie := sock_local_cookie ctx, address := backend.address,
                port := backend.port }
              { address := orig_key.address, port := orig_key.dport,
                rev_nat_index := rev_nat_index }).1,
           { maps with cilium_lb6_reverse_sk := (map_update_elem k maps.cilium_lb6_reverse_sk
              { cookie := sock_local_cookie ctx, address := backend.address,
                port := backend.port }
              { address := orig_key.address, port := orig_key.dport,
                rev_nat_index := rev_nat_index }).2 })) ∧
      ((sock6_update_revnat k maps ctx backend orig_key rev_nat_index).1 = 0 →
        (sock6_update_revnat k maps ctx backend orig_key rev_nat_index).2.cilium_lb6_reverse_sk
            { cookie := sock_local_cookie ctx, address := backend.address,
              port := backend.port } =
          some { address := orig_key.address, port := orig_key.dport,
                 rev_nat_index := rev_nat_index } ∧
        sock6_update_revnat k2
            (sock6_update_revnat k maps ctx backend orig_key rev_nat_index).2
            ctx backend orig_key rev_nat_index =
          (0, (sock6_update_revnat k maps ctx backend orig_key rev_nat_index).2))) := by
  constructor
  · intro backend orig_key rev_nat_id
    refine ⟨sock4_update_revnat_ret k maps ctx backend orig_key rev_nat_id,
      sock4_update_revnat_written k maps ctx backend orig_key rev_nat_id, ?_⟩
    intro h0
    have hl := sock4_update_revnat_lookup k maps ctx backend orig_key rev_nat_id (by omega)
    exact ⟨hl, sock4_update_revnat_ret k2 _ ctx backend orig_key rev_nat_id hl⟩
  · intro backend orig_key rev_nat_index
    refine ⟨sock6_update_revnat_ret k maps ctx backend orig_key rev_nat_index,
      sock6_update_revnat_written k maps ctx backend orig_key rev_nat_index, ?_⟩
    intro h0
    have hl := sock6_update_revnat_lookup k maps ctx backend orig_key rev_nat_index (by omega)
    exact ⟨hl, sock6_update_revnat_ret k2 _ ctx backend orig_key rev_nat_index hl⟩

theorem sock4_update_revnat_idempotent_witness :
    (sock4_update_revnat ex_kernel ex_maps ex_ctx ex_backend1 (sock4_xlate_fwd_key ex_cfg ex_ctx)
        7).1 = 0 ∧
    (sock4_update_revnat ex_kernel ex_maps ex_ctx ex_backend1 (sock4_xlate_fwd_key ex_cfg ex_ctx)
        7).2.cilium_lb4_reverse_sk
        { cookie := 4242, address := ex_backend1.address, port := ex_backend1.port } =
      some { address := ex_vip, port := ex_vport, rev_nat_index := 7 } ∧
    sock4_update_revnat ex_kernel_enomem
        (sock4_update_revnat ex_kernel ex_maps ex_ctx ex_backend1
          (sock4_xlate_fwd_key ex_cfg ex_ctx) 7).2
        ex_ctx ex_backend1 (sock4_xlate_fwd_key ex_cfg ex_ctx) 7 =
      (0, (sock4_update_revnat ex_kernel ex_maps ex_ctx ex_backend1
          (sock4_xlate_fwd_key ex_cfg ex_ctx) 7).2) :=
  have h := ((sock4_update_revnat_idempotent ex_kernel ex_kernel_enomem ex_maps ex_ctx).1
    ex_backend1 (sock4_xlate_fwd_key ex_cfg ex_ctx) 7).2.2 (by decide)
  ⟨by decide, h.1, h.2⟩

/-! ## No division by zero in the slot computation -/

/-- An execution of `__sock4_xlate_fwd` that reaches the slot computation runs the fresh
selection of lines 383-407 for the resolved service, and the divisor is its `count`. -/
theorem sock4_fwd_divisor_slot (cfg : Config) (env : Env) (k : Kernel) (maps : Maps)
    (ctx ctx_full : bpf_sock_addr) (udp_only : Bool) (c : Nat)
    (h : sock4_xlate_fwd_divisor cfg env maps ctx ctx_full udp_only = some c) :
    ∃ svc, (sock4_lookup_with_wildcard cfg env (sock4_xlate_fwd_key cfg ctx) (ctx_protocol ctx)
        (ctx_in_hostns cfg ctx_full.sk)).1 = some svc ∧ svc.count = c ∧
      ¬ (svc.count = 0 ∧ ¬ lb4_svc_is_l7_loadbalancer svc = true) ∧
      ¬ (cfg.ENABLE_L7_LB = true ∧ lb4_svc_is_l7_loadbalancer svc = true) ∧
      __sock4_xlate_fwd_body cfg env k maps ctx ctx_full udp_only =
        __sock4_xlate_fwd_slot env k maps ctx_full svc
          (sock4_lookup_with_wildcard cfg env (sock4_xlate_fwd_key cfg ctx) (ctx_protocol ctx)
            (ctx_in_hostns cfg ctx_full.sk)).2 (get_netns_cookie ctx_full.sk) := by
  unfold sock4_xlate_fwd_divisor at h
  unfold __sock4_xlate_fwd_body
  simp only at h ⊢
  split at h
  · cases h
  rename_i h1
  rw [if_neg h1]
  split at h
  · cases h
  rename_i h2
  rw [if_neg h2]
  split at h
  · cases h
  rename_i svc hsvc
  rw [hsvc]
  split at h
  · cases h
  rename_i h3
  rw [if_neg h3]
  split at h
  · cases h
  rename_i h4
  rw [if_neg h4]
  split at h
  · cases h
  rename_i h5
  rw [if_neg h5]
  split at h
  · cases h
  rename_i h6
  rw [if_neg h6]
  split at h
  · cases h
  rename_i h7
  rw [if_neg h7]
  split at h
  · cases h
  rename_i h8
  cases h
  refine ⟨svc, rfl, rfl, h3, h7, ?_⟩
  apply sock4_fwd_select_fresh
  by_cases ha : lb4_svc_is_affinity svc = true
  · by_cases hid : lb4_affinity_backend_id_by_netns maps svc (get_netns_cookie ctx_full.sk) = 0
    · exact Or.inr (Or.inl hid)
    · refine Or.inr (Or.inr ?_)
      cases hb : env.__lb4_lookup_backend
        (lb4_affinity_backend_id_by_netns maps svc (get_netns_cookie ctx_full.sk)) with
      | none => rfl
      | some b =>
        exfalso
        apply h8
        simp [ha, hid, hb]
  · exact Or.inl (by simpa using ha)

theorem sock6_fwd_select_fresh (env : Env) (k : Kernel) (maps : Maps) (ctx : bpf_sock_addr)
    (svc : lb6_service) (key : lb6_key) (client_cookie : Nat)
    (hnoaff : lb6_svc_is_affinity svc = false ∨
      lb6_affinity_backend_id_by_netns maps svc client_cookie = 0 ∨
      env.__lb6_lookup_backend (lb6_affinity_backend_id_by_netns maps svc client_cookie) = none) :
    __sock6_xlate_fwd_select env k maps ctx svc key client_cookie =
      __sock6_xlate_fwd_slot env k maps ctx svc key client_cookie := by
  unfold __sock6_xlate_fwd_select
  split
  · rename_i ha
    simp only
    split
    · rename_i hid
      rcases hnoaff with h | h | h
      · rw [h] at ha
        cases ha
      · exact absurd h hid
      · rw [h]
    · rfl
  · rfl

/-- An execution of `__sock6_xlate_fwd` that reaches a slot computation either runs the fresh
selection of lines 1086-1110 for the resolved IPv6 service, the divisor being its `count`, or
has found no IPv6 service and reaches the computation of `__sock4_xlate_fwd` behind
`sock6_xlate_v4_in_v6`. -/
theorem sock6_fwd_divisor_slot (cfg : Config) (env : Env) (k : Kernel) (maps : Maps)
    (ctx : bpf_sock_addr) (udp_only : Bool) (c : Nat)
    (h : sock6_xlate_fwd_divisor cfg env maps ctx udp_only = some c) :
    (cfg.ENABLE_IPV6 = true ∧
      ∃ svc, (sock6_lookup_with_wildcard cfg env (sock6_xlate_fwd_key cfg ctx) (ctx_protocol ctx)
          (ctx_in_hostns cfg ctx.sk)).1 = some svc ∧ svc.count = c ∧
        ¬ (svc.count = 0 ∧ ¬ lb6_svc_is_l7_loadbalancer svc = true) ∧
        ¬ (cfg.ENABLE_L7_LB = true ∧ lb6_svc_is_l7_loadbalancer svc = true) ∧
        __sock6_xlate_fwd_body cfg env k maps ctx udp_only =
          __sock6_xlate_fwd_slot env k maps ctx svc
            (sock6_lookup_with_wildcard cfg env (sock6_xlate_fwd_key cfg ctx) (ctx_protocol ctx)
              (ctx_in_hostns cfg ctx.sk)).2 (get_netns_cookie ctx.sk)) ∨
    (cfg.ENABLE_IPV4 = true ∧ is_v4_in_v6 cfg (ctx_get_v6_address ctx) = true ∧
      (cfg.ENABLE_IPV6 = true →
        __sock6_xlate_fwd_body cfg env k maps ctx udp_only = .v4_in_v6) ∧
      sock4_xlate_fwd_divisor cfg env maps (sock6_fake_ctx ctx (ctx_get_v6_address ctx)) ctx
        udp_only = some c) := by
  have hadapter : sock6_xlate_v4_in_v6_divisor cfg env maps ctx udp_only = some c →
      cfg.ENABLE_IPV4 = true ∧ is_v4_in_v6 cfg (ctx_get_v6_address ctx) = true ∧
      sock4_xlate_fwd_divisor cfg env maps (sock6_fake_ctx ctx (ctx_get_v6_address ctx)) ctx
        udp_only = some c := by
    intro ha
    unfold sock6_xlate_v4_in_v6_divisor at ha
    split at ha
    · rename_i hv4
      simp only at ha
      split at ha
      · cases ha
      · rename_i hm
        exact ⟨hv4, by simpa using hm, ha⟩
    · cases ha
  unfold sock6_xlate_fwd_divisor at h
  by_cases h6 : cfg.ENABLE_IPV6 = true
  · rw [if_pos h6] at h
    unfold __sock6_xlate_fwd_body
    simp only at h ⊢
    split at h
    · cases h
    rename_i h1
    rw [if_neg h1]
    split at h
    · cases h
    rename_i h2
    rw [if_neg h2]
    split at h
    · rename_i hnone
      rw [hnone]
      obtain ⟨a1, a2, a3⟩ := hadapter h
      exact Or.inr ⟨a1, a2, fun _ => rfl, a3⟩
    rename_i svc hsvc
    rw [hsvc]
    split at h
    · cases h
    rename_i h3
    rw [if_neg h3]
    split at h
    · cases h
    rename_i h4
    rw [if_neg h4]
    split at h
    · cases h
    rename_i h5
    rw [if_neg h5]
    split at h
    · cases h
    rename_i h6b
    rw [if_neg h6b]
    split at h
    · cases h
    rename_i h7
    rw [if_neg h7]
    split at h
    · cases h
    rename_i h8
    cases h
    refine Or.inl ⟨h6, svc, rfl, rfl, h3, h7, ?_⟩
    apply sock6_fwd_select_fresh
    by_cases ha : lb6_svc_is_affinity svc = true
    · by_cases hid : lb6_affinity_backend_id_by_netns maps svc (get_netns_cookie ctx.sk) = 0
      · exact Or.inr (Or.inl hid)
      · refine Or.inr (Or.inr ?_)
        cases hb : env.__lb6_lookup_backend
          (lb6_affinity_backend_id_by_netns maps svc (get_netns_cookie ctx.sk)) with
        | none => rfl
        | some b =>
          exfalso
          apply h8
          simp [ha, hid, hb]
    · exact Or.inl (by simpa using ha)
  · rw [if_neg h6] at h
    obtain ⟨a1, a2, a3⟩ := hadapter h
    exact Or.inr ⟨a1, a2, fun h => absurd h h6, a3⟩

/-- C26: no division by zero in the backend selection. In a build with L7 load-balancer
support (`ENABLE_L7_LB`), whenever an execution of `__sock4_xlate_fwd` reaches the computation
`(sock_select_slot(ctx_full) % svc->count) + 1` of line 386, the divisor `svc->count` is not
zero, and the same holds for every execution of `__sock6_xlate_fwd` that reaches the
computation of line 1089 or, having found no IPv6 service, the one of line 386 behind
`sock6_xlate_v4_in_v6`. The service, slot and backend tables and the affinity map are
arbitrary, so the resolved record may have `count == 0` with the L7 flag set: such a record
leaves through the L7 branch and never reaches the computation. -/
theorem sock_xlate_fwd_divisor_nonzero (cfg : Config) (env : Env) (maps : Maps)
    (ctx ctx_full : bpf_sock_addr) (udp_only : Bool) (hl7 : cfg.ENABLE_L7_LB = true) :
    (∀ c, sock4_xlate_fwd_divisor cfg env maps ctx ctx_full udp_only = some c → c ≠ 0) ∧
    (∀ c, sock6_xlate_fwd_divisor cfg env maps ctx udp_only = some c → c ≠ 0) ∧
    (∀ svc, (sock4_lookup_with_wildcard cfg env (sock4_xlate_fwd_key cfg ctx) (ctx_protocol ctx)
        (ctx_in_hostns cfg ctx_full.sk)).1 = some svc → svc.count = 0 →
      sock4_xlate_fwd_divisor cfg env maps ctx ctx_full udp_only = none) ∧
    (∀ svc, cfg.ENABLE_IPV6 = true →
      (sock6_lookup_with_wildcard cfg env (sock6_xlate_fwd_key cfg ctx) (ctx_protocol ctx)
        (ctx_in_hostns cfg ctx.sk)).1 = some svc → svc.count = 0 →
      sock6_xlate_fwd_divisor cfg env maps ctx udp_only = none) := by
  have h4 : ∀ (ctx ctx_full : bpf_sock_addr) (c : Nat),
      sock4_xlate_fwd_divisor cfg env maps ctx ctx_full udp_only = some c → c ≠ 0 := by
    intro ctx ctx_full c h
    obtain ⟨svc, -, hc, hcnt, hnl7, -⟩ :=
      sock4_fwd_divisor_slot cfg env ⟨0, 0⟩ maps ctx ctx_full udp_only c h
    intro h0
    rw [h0] at hc
    exact hcnt ⟨hc, fun hl => hnl7 ⟨hl7, hl⟩⟩
  have h6 : ∀ c, sock6_xlate_fwd_divisor cfg env maps ctx udp_only = some c → c ≠ 0 := by
    intro c h
    rcases sock6_fwd_divisor_slot cfg env ⟨0, 0⟩ maps ctx udp_only c h with
      ⟨-, svc, -, hc, hcnt, hnl7, -⟩ | ⟨-, -, -, hd⟩
    · intro h0
      rw [h0] at hc
      exact hcnt ⟨hc, fun hl => hnl7 ⟨hl7, hl⟩⟩
    · exact h4 _ _ c hd
  refine ⟨h4 ctx ctx_full, h6, ?_, ?_⟩
  · intro svc hsvc hc0
    cases hd : sock4_xlate_fwd_divisor cfg env maps ctx ctx_full udp_only with
    | none => rfl
    | some c =>
      exfalso
      obtain ⟨svc2, hsvc2, hc, -⟩ :=
        sock4_fwd_divisor_slot cfg env ⟨0, 0⟩ maps ctx ctx_full udp_only c hd
      rw [hsvc] at hsvc2
      cases hsvc2
      exact h4 ctx ctx_full c hd (hc.symm.trans hc0)
  · intro svc h6e hsvc hc0
    unfold sock6_xlate_fwd_divisor
    rw [if_pos h6e]
    simp only [hsvc]
    by_cases hl : lb6_svc_is_l7_loadbalancer svc = true
    · simp [hl, hl7]
    · simp [hl, hc0]

theorem sock_xlate_fwd_divisor_nonzero_witness :
    sock4_xlate_fwd_divisor ex_cfg ex_env ex_maps ex_ctx ex_ctx false = some 2 ∧
    (2 : Nat) ≠ 0 ∧
    sock4_xlate_fwd_divisor ex_cfg ex_env_l7 ex_maps ex_ctx ex_ctx false = none ∧
    sock6_xlate_fwd_divisor ex_cfg ex_env ex_maps ex_ctx6_mapped false = some 2 ∧
    sock6_xlate_fwd_divisor ex_cfg ex_env_v6l7 ex_maps ex_ctx6_mapped false = none :=
  ⟨by decide,
    (sock_xlate_fwd_divisor_nonzero ex_cfg ex_env ex_maps ex_ctx ex_ctx false rfl).1 2
      (by decide),
    (sock_xlate_fwd_divisor_nonzero ex_cfg ex_env_l7 ex_maps ex_ctx ex_ctx false rfl).2.2.1
      ex_svc_l7 (by decide) rfl,
    by decide,
    (sock_xlate_fwd_divisor_nonzero ex_cfg ex_env_v6l7 ex_maps ex_ctx6_mapped ex_ctx6_mapped
      false rfl).2.2.2 ex_svc6_l7 rfl (by decide) rfl⟩
/-- An execution of `__sock4_xlate_fwd` that does not reach the slot computation reads neither
the selection token nor the slot table, which line 387 reads right after the computation: its
body gives the same result for every value the kernel draws and every slot table. -/
theorem sock4_fwd_divisor_none (cfg : Config) (env : Env) (k k2 : Kernel) (maps : Maps)
    (ctx ctx_full : bpf_sock_addr) (udp_only : Bool) (f : lb4_key → Option lb4_service)
    (h : sock4_xlate_fwd_divisor cfg env maps ctx ctx_full udp_only = none) :
    __sock4_xlate_fwd_body cfg { env with __lb4_lookup_backend_slot := f } k2 maps ctx ctx_full
        udp_only =
      __sock4_xlate_fwd_body cfg env k maps ctx ctx_full udp_only := by
  have e1 : ∀ key p hns, sock4_lookup_with_wildcard cfg
      { env with __lb4_lookup_backend_slot := f } key p hns =
      sock4_lookup_with_wildcard cfg env key p hns := fun _ _ _ => rfl
  have e2 : ∀ svc a, sock4_skip_xlate cfg { env with __lb4_lookup_backend_slot := f } svc a =
      sock4_skip_xlate cfg env svc a := fun _ _ => rfl
  unfold sock4_xlate_fwd_divisor at h
  unfold __sock4_xlate_fwd_body
  simp only [e1, e2] at h ⊢
  split
  · rfl
  rename_i h1
  rw [if_neg h1] at h
  split
  · rfl
  rename_i h2
  rw [if_neg h2] at h
  cases hr : (sock4_lookup_with_wildcard cfg env (sock4_xlate_fwd_key cfg ctx) (ctx_protocol ctx)
    (ctx_in_hostns cfg ctx_full.sk)).1 with
  | none => rfl
  | some svc =>
    rw [hr] at h
    simp only at h ⊢
    split
    · rfl
    rename_i h3
    rw [if_neg h3] at h
    split
    · rfl
    rename_i h4
    rw [if_neg h4] at h
    split
    · rfl
    rename_i h5
    rw [if_neg h5] at h
    split
    · rfl
    rename_i h6
    rw [if_neg h6] at h
    split
    · rfl
    rename_i h7
    rw [if_neg h7] at h
    split at h
    · rename_i h8
      obtain ⟨ha, hid, hb⟩ := h8
      unfold __sock4_xlate_fwd_select
      simp only [ha, if_true]
      rw [if_pos hid, if_pos hid]
      cases hbk : env.__lb4_lookup_backend
        (lb4_affinity_backend_id_by_netns maps svc (get_netns_cookie ctx_full.sk)) with
      | none =>
        rw [hbk] at hb
        cases hb
      | some b => rfl
    · cases h

/-- An execution of `__sock6_xlate_fwd` that reaches no slot computation reads neither the
selection token nor a slot table: the IPv6 part gives the same result for every value the
kernel draws and every contents of the two slot tables, and so does the body of
`__sock4_xlate_fwd` when the execution ends in `sock6_xlate_v4_in_v6`. -/
theorem sock6_fwd_divisor_none (cfg : Config) (env : Env) (k k2 : Kernel) (maps : Maps)
    (ctx : bpf_sock_addr) (udp_only : Bool) (f4 : lb4_key → Option lb4_service)
    (f6 : lb6_key → Option lb6_service)
    (h : sock6_xlate_fwd_divisor cfg env maps ctx udp_only = none) :
    (cfg.ENABLE_IPV6 = true →
      __sock6_xlate_fwd_body cfg
          { env with __lb4_lookup_backend_slot := f4, __lb6_lookup_backend_slot := f6 }
          k2 maps ctx udp_only =
        __sock6_xlate_fwd_body cfg env k maps ctx udp_only) ∧
    ((cfg.ENABLE_IPV6 = true → __sock6_xlate_fwd_body cfg env k maps ctx udp_only = .v4_in_v6) →
      cfg.ENABLE_IPV4 = true → is_v4_in_v6 cfg (ctx_get_v6_address ctx) = true →
      __sock4_xlate_fwd_body cfg
          { env with __lb4_lookup_backend_slot := f4, __lb6_lookup_backend_slot := f6 }
          k2 maps (sock6_fake_ctx ctx (ctx_get_v6_address ctx)) ctx udp_only =
        __sock4_xlate_fwd_body cfg env k maps (sock6_fake_ctx ctx (ctx_get_v6_address ctx)) ctx
          udp_only) := by
  have e1 : ∀ key p hns, sock6_lookup_with_wildcard cfg
      { env with __lb4_lookup_backend_slot := f4, __lb6_lookup_backend_slot := f6 } key p hns =
      sock6_lookup_with_wildcard cfg env key p hns := fun _ _ _ => rfl
  have e2 : ∀ svc a, sock6_skip_xlate cfg
      { env with __lb4_lookup_backend_slot := f4, __lb6_lookup_backend_slot := f6 } svc a =
      sock6_skip_xlate cfg env svc a := fun _ _ => rfl
  have hadapter : cfg.ENABLE_IPV4 = true → is_v4_in_v6 cfg (ctx_get_v6_address ctx) = true →
      sock6_xlate_v4_in_v6_divisor cfg env maps ctx udp_only =
        sock4_xlate_fwd_divisor cfg env maps (sock6_fake_ctx ctx (ctx_get_v6_address ctx)) ctx
          udp_only := by
    intro hv4 hm
    unfold sock6_xlate_v4_in_v6_divisor
    rw [if_pos hv4]
    simp only
    rw [if_neg (by simp [hm])]
  constructor
  · intro h6e
    unfold sock6_xlate_fwd_divisor at h
    rw [if_pos h6e] at h
    unfold __sock6_xlate_fwd_body
    simp only [e1, e2] at h ⊢
    split
    · rfl
    rename_i h1
    rw [if_neg h1] at h
    split
    · rfl
    rename_i h2
    rw [if_neg h2] at h
    cases hr : (sock6_lookup_with_wildcard cfg env (sock6_xlate_fwd_key cfg ctx)
      (ctx_protocol ctx) (ctx_in_hostns cfg ctx.sk)).1 with
    | none => rfl
    | some svc =>
      rw [hr] at h
      simp only at h ⊢
      split
      · rfl
      rename_i h3
      rw [if_neg h3] at h
      split
      · rfl
      rename_i h4
      rw [if_neg h4] at h
      split
      · rfl
      rename_i h5
      rw [if_neg h5] at h
      split
      · rfl
      rename_i h6
      rw [if_neg h6] at h
      split
      · rfl
      rename_i h7
      rw [if_neg h7] at h
      split at h
      · rename_i h8
        obtain ⟨ha, hid, hb⟩ := h8
        unfold __sock6_xlate_fwd_select
        simp only [ha, if_true]
        rw [if_pos hid, if_pos hid]
        cases hbk : env.__lb6_lookup_backend
          (lb6_affinity_backend_id_by_netns maps svc (get_netns_cookie ctx.sk)) with
        | none =>
          rw [hbk] at hb
          cases hb
        | some b => rfl
      · cases h
  · intro hv hv4 hm
    have hd : sock4_xlate_fwd_divisor cfg env maps (sock6_fake_ctx ctx (ctx_get_v6_address ctx))
        ctx udp_only = none := by
      rw [← hadapter hv4 hm, ← h]
      unfold sock6_xlate_fwd_divisor
      by_cases h6e : cfg.ENABLE_IPV6 = true
      · rw [if_pos h6e]
        have hb := hv h6e
        unfold __sock6_xlate_fwd_body at hb
        simp only at hb ⊢
        split at hb
        · cases hb
        rename_i h1
        rw [if_neg h1]
        split at hb
        · cases hb
        rename_i h2
        rw [if_neg h2]
        cases hr : (sock6_lookup_with_wildcard cfg env (sock6_xlate_fwd_key cfg ctx)
          (ctx_protocol ctx) (ctx_in_hostns cfg ctx.sk)).1 with
        | none => rfl
        | some svc =>
          exfalso
          rw [hr] at hb
          simp only at hb
          split at hb
          · cases hb
          split at hb
          · cases hb
          split at hb
          · cases hb
          split at hb
          · cases hb
          split at hb
          · split at hb <;> cases hb
          · unfold __sock6_xlate_fwd_select __sock6_xlate_fwd_slot __sock6_xlate_fwd_selected
              at hb
            simp only at hb
            repeat (split at hb <;> try cases hb)
      · rw [if_neg h6e]
    exact sock4_fwd_divisor_none cfg env k k2 maps _ ctx udp_only f4 hd

/-! ## Protocol validation -/

/-- The divisor of the slot computation once the two gates are passed and the lookup has found
the service `svc`. -/
theorem sock4_fwd_divisor_resolved (cfg : Config) (env : Env) (maps : Maps)
    (ctx ctx_full : bpf_sock_addr) (udp_only : Bool) (svc : lb4_service)
    (hhost : ¬ (cfg.ENABLE_SOCKET_LB_HOST_ONLY = true ∧ ctx_in_hostns cfg ctx_full.sk = false))
    (hproto : udp_only = true ∨ sock_proto_enabled (ctx_protocol ctx) = true)
    (hsvc : (sock4_lookup_with_wildcard cfg env (sock4_xlate_fwd_key cfg ctx) (ctx_protocol ctx)
      (ctx_in_hostns cfg ctx_full.sk)).1 = some svc) :
    sock4_xlate_fwd_divisor cfg env maps ctx ctx_full udp_only =
      if svc.count = 0 ∧ ¬ lb4_svc_is_l7_loadbalancer svc = true then none
      else if lb4_svc_is_l7_punt_proxy svc = true then none
      else if sock4_skip_xlate cfg env svc ctx.user_ip4 = true then none
      else if cfg.ENABLE_LOCAL_REDIRECT_POLICY = true ∧ lb4_svc_is_localredirect svc = true ∧
          env.lb4_skip_xlate_from_ctx_to_svc (get_netns_cookie ctx_full.sk) ctx.user_ip4
            (ctx_dst_port ctx) = true then none
      else if cfg.ENABLE_L7_LB = true ∧ lb4_svc_is_l7_loadbalancer svc = true then none
      else if lb4_svc_is_affinity svc = true ∧
          lb4_affinity_backend_id_by_netns maps svc (get_netns_cookie ctx_full.sk) ≠ 0 ∧
          (env.__lb4_lookup_backend (lb4_affinity_backend_id_by_netns maps svc
            (get_netns_cookie ctx_full.sk))).isSome = true then none
      else some svc.count := by
  unfold sock4_xlate_fwd_divisor
  simp only
  rw [if_neg (by simpa using hhost), if_neg (by
    rcases hproto with h | h <;> simp [h]), hsvc]
  simp only [sock4_xlate_fwd_key]

/-- C22: affinity reselection. For a resolved affinity service (with backends, neither
punt-proxy nor L7, passing the skip policy and the local-redirect check) whose affinity entry
for the client names a backend id without a backend record, `__sock4_xlate_fwd` reaches the
slot computation and runs the fresh selection. When that selection finds a backend `B`, the
affinity map of the resulting maps holds, under (client, service), the id of `B`, a non-zero id
whose record is `B` (the backend table holds no record under `0`, the value lines 369 and 383
read as "no backend"). Every later translation for the same client that resolves to the same
service and passes the same checks, on those maps and whatever the kernel draws, ends at `out`
with `B` without writing the maps and without reaching the slot computation; this holds in
particular for the same event again. -/
theorem sock4_xlate_fwd_affinity_reselect (cfg : Config) (env : Env) (k : Kernel) (maps : Maps)
    (ctx ctx_full : bpf_sock_addr) (udp_only : Bool) (svc : lb4_service)
    (hhost : ¬ (cfg.ENABLE_SOCKET_LB_HOST_ONLY = true ∧ ctx_in_hostns cfg ctx_full.sk = false))
    (hproto : udp_only = true ∨ sock_proto_enabled (ctx_protocol ctx) = true)
    (hsvc : (sock4_lookup_with_wildcard cfg env (sock4_xlate_fwd_key cfg ctx) (ctx_protocol ctx)
      (ctx_in_hostns cfg ctx_full.sk)).1 = some svc)
    (hcount : svc.count ≠ 0)
    (hpunt : lb4_svc_is_l7_punt_proxy svc = false)
    (hl7 : lb4_svc_is_l7_loadbalancer svc = false)
    (hskip : sock4_skip_xlate cfg env svc ctx.user_ip4 = false)
    (hlrp : ¬ (cfg.ENABLE_LOCAL_REDIRECT_POLICY = true ∧ lb4_svc_is_localredirect svc = true ∧
      env.lb4_skip_xlate_from_ctx_to_svc (get_netns_cookie ctx_full.sk) ctx.user_ip4
        (ctx_dst_port ctx) = true))
    (haff : lb4_svc_is_affinity svc = true)
    (hid : lb4_affinity_backend_id_by_netns maps svc (get_netns_cookie ctx_full.sk) ≠ 0)
    (hgone : env.__lb4_lookup_backend
      (lb4_affinity_backend_id_by_netns maps svc (get_netns_cookie ctx_full.sk)) = none)
    (hzero : env.__lb4_lookup_backend 0 = none) :
    sock4_xlate_fwd_divisor cfg env maps ctx ctx_full udp_only = some svc.count ∧
    __sock4_xlate_fwd_body cfg env k maps ctx ctx_full udp_only =
      __sock4_xlate_fwd_slot env k maps ctx_full svc
        (sock4_lookup_with_wildcard cfg env (sock4_xlate_fwd_key cfg ctx) (ctx_protocol ctx)
          (ctx_in_hostns cfg ctx_full.sk)).2 (get_netns_cookie ctx_full.sk) ∧
    (∀ B s m, __sock4_xlate_fwd_slot env k maps ctx_full svc
        (sock4_lookup_with_wildcard cfg env (sock4_xlate_fwd_key cfg ctx) (ctx_protocol ctx)
          (ctx_in_hostns cfg ctx_full.sk)).2 (get_netns_cookie ctx_full.sk) = .out B s m →
      ∃ id, id ≠ 0 ∧ env.__lb4_lookup_backend id = some B ∧
        (__sock4_xlate_fwd cfg env k maps ctx ctx_full udp_only).maps.cilium_lb4_affinity
          { client_id := get_netns_cookie ctx_full.sk, rev_nat_id := svc.rev_nat_index } =
            some id ∧
        (∀ (k2 : Kernel) (ctx2 ctx_full2 : bpf_sock_addr) (udp_only2 : Bool),
          get_netns_cookie ctx_full2.sk = get_netns_cookie ctx_full.sk →
          ¬ (cfg.ENABLE_SOCKET_LB_HOST_ONLY = true ∧ ctx_in_hostns cfg ctx_full2.sk = false) →
          (udp_only2 = true ∨ sock_proto_enabled (ctx_protocol ctx2) = true) →
          (sock4_lookup_with_wildcard cfg env (sock4_xlate_fwd_key cfg ctx2) (ctx_protocol ctx2)
            (ctx_in_hostns cfg ctx_full2.sk)).1 = some svc →
          sock4_skip_xlate cfg env svc ctx2.user_ip4 = false →
          ¬ (cfg.ENABLE_LOCAL_REDIRECT_POLICY = true ∧ lb4_svc_is_localredirect svc = true ∧
            env.lb4_skip_xlate_from_ctx_to_svc (get_netns_cookie ctx_full2.sk) ctx2.user_ip4
              (ctx_dst_port ctx2) = true) →
          __sock4_xlate_fwd_body cfg env k2
              (__sock4_xlate_fwd cfg env k maps ctx ctx_full udp_only).maps ctx2 ctx_full2
              udp_only2 =
            .out B svc (__sock4_xlate_fwd cfg env k maps ctx ctx_full udp_only).maps ∧
          sock4_xlate_fwd_divisor cfg env
              (__sock4_xlate_fwd cfg env k maps ctx ctx_full udp_only).maps ctx2 ctx_full2
              udp_only2 = none) ∧
        (∀ k2 : Kernel,
          __sock4_xlate_fwd_body cfg env k2
              (__sock4_xlate_fwd cfg env k maps ctx ctx_full udp_only).maps ctx ctx_full
              udp_only =
            .out B svc (__sock4_xlate_fwd cfg env k maps ctx ctx_full udp_only).maps ∧
          sock4_xlate_fwd_divisor cfg env
              (__sock4_xlate_fwd cfg env k maps ctx ctx_full udp_only).maps ctx ctx_full
              udp_only = none)) := by
  have hbody : __sock4_xlate_fwd_body cfg env k maps ctx ctx_full udp_only =
      __sock4_xlate_fwd_slot env k maps ctx_full svc
        (sock4_lookup_with_wildcard cfg env (sock4_xlate_fwd_key cfg ctx) (ctx_protocol ctx)
          (ctx_in_hostns cfg ctx_full.sk)).2 (get_netns_cookie ctx_full.sk) := by
    rw [sock4_fwd_body_resolved cfg env k maps ctx ctx_full udp_only svc hhost hproto hsvc,
      if_neg (by simp [hcount]), if_neg (by simp [hpunt]), if_neg (by simp [hskip]), if_neg hlrp,
      if_neg (by simp [hl7]),
      sock4_fwd_select_fresh env k maps ctx_full svc _ _ (Or.inr (Or.inr hgone))]
  refine ⟨?_, hbody, ?_⟩
  · rw [sock4_fwd_divisor_resolved cfg env maps ctx ctx_full udp_only svc hhost hproto hsvc,
      if_neg (by simp [hcount]), if_neg (by simp [hpunt]), if_neg (by simp [hskip]), if_neg hlrp,
      if_neg (by simp [hl7]), if_neg (by simp [hgone])]
  · intro B s m hslot
    obtain ⟨id, hb, hidm⟩ := sock4_fwd_slot_affinity_written env k maps ctx_full svc _ _ B s m
      haff hslot
    obtain ⟨hs, -⟩ := sock4_fwd_slot_out env k maps ctx_full svc _ _ B s m hslot
    subst hs
    have hid0 : id ≠ 0 := by
      intro h0
      rw [h0, hzero] at hb
      cases hb
    have hmaps : (__sock4_xlate_fwd cfg env k maps ctx ctx_full udp_only).maps.cilium_lb4_affinity
        = m.cilium_lb4_affinity :=
      sock4_fwd_maps_affinity cfg env k maps ctx ctx_full udp_only B s m (hbody.trans hslot)
    have hhelper : ∀ cc, cc = get_netns_cookie ctx_full.sk →
        lb4_affinity_backend_id_by_netns
          (__sock4_xlate_fwd cfg env k maps ctx ctx_full udp_only).maps s cc = id := by
      intro cc hcc
      rw [hcc, ← hidm]
      unfold lb4_affinity_backend_id_by_netns
      rw [hmaps]
    have hentry : (__sock4_xlate_fwd cfg env k maps ctx ctx_full udp_only).maps.cilium_lb4_affinity
        { client_id := get_netns_cookie ctx_full.sk, rev_nat_id := s.rev_nat_index } =
          some id := by
      have h := hhelper _ rfl
      unfold lb4_affinity_backend_id_by_netns at h
      cases he : (__sock4_xlate_fwd cfg env k maps ctx ctx_full udp_only).maps.cilium_lb4_affinity
        { client_id := get_netns_cookie ctx_full.sk, rev_nat_id := s.rev_nat_index } with
      | none =>
        rw [he] at h
        exact absurd h.symm hid0
      | some x =>
        rw [he] at h
        simp only at h
        rw [h]
    have hnext : ∀ (k2 : Kernel) (ctx2 ctx_full2 : bpf_sock_addr) (udp_only2 : Bool),
        get_netns_cookie ctx_full2.sk = get_netns_cookie ctx_full.sk →
        ¬ (cfg.ENABLE_SOCKET_LB_HOST_ONLY = true ∧ ctx_in_hostns cfg ctx_full2.sk = false) →
        (udp_only2 = true ∨ sock_proto_enabled (ctx_protocol ctx2) = true) →
        (sock4_lookup_with_wildcard cfg env (sock4_xlate_fwd_key cfg ctx2) (ctx_protocol ctx2)
          (ctx_in_hostns cfg ctx_full2.sk)).1 = some s →
        sock4_skip_xlate cfg env s ctx2.user_ip4 = false →
        ¬ (cfg.ENABLE_LOCAL_REDIRECT_POLICY = true ∧ lb4_svc_is_localredirect s = true ∧
          env.lb4_skip_xlate_from_ctx_to_svc (get_netns_cookie ctx_full2.sk) ctx2.user_ip4
            (ctx_dst_port ctx2) = true) →
        __sock4_xlate_fwd_body cfg env k2
            (__sock4_xlate_fwd cfg env k maps ctx ctx_full udp_only).maps ctx2 ctx_full2
            udp_only2 =
          .out B s (__sock4_xlate_fwd cfg env k maps ctx ctx_full udp_only).maps ∧
        sock4_xlate_fwd_divisor cfg env
            (__sock4_xlate_fwd cfg env k maps ctx ctx_full udp_only).maps ctx2 ctx_full2
            udp_only2 = none := by
      intro k2 ctx2 ctx_full2 udp_only2 hcc hhost2 hproto2 hsvc2 hskip2 hlrp2
      have hh := hhelper (get_netns_cookie ctx_full2.sk) hcc
      refine ⟨sock4_fwd_body_affinity cfg env k2 _ ctx2 ctx_full2 udp_only2 s B hhost2 hproto2
        hsvc2 hcount hpunt hl7 hskip2 hlrp2 haff (by rw [hh]; exact hid0) (by rw [hh]; exact hb),
        ?_⟩
      rw [sock4_fwd_divisor_resolved cfg env _ ctx2 ctx_full2 udp_only2 s hhost2 hproto2 hsvc2,
        if_neg (by simp [hcount]), if_neg (by simp [hpunt]), if_neg (by simp [hskip2]),
        if_neg hlrp2, if_neg (by simp [hl7]), if_pos ⟨haff, by rw [hh]; exact hid0, by
          rw [hh, hb]; rfl⟩]
    exact ⟨id, hid0, hb, hentry, hnext, fun k2 =>
      hnext k2 ctx ctx_full udp_only rfl hhost hproto hsvc hskip hlrp⟩

theorem sock4_xlate_fwd_affinity_reselect_witness :
    sock4_xlate_fwd_divisor ex_cfg ex_env_affinity ex_maps_affinity_gone ex_ctx ex_ctx false =
      some 2 ∧
    __sock4_xlate_fwd_slot ex_env_affinity ex_kernel ex_maps_affinity_gone ex_ctx
        ex_svc_affinity
        (sock4_lookup_with_wildcard ex_cfg ex_env_affinity (sock4_xlate_fwd_key ex_cfg ex_ctx)
          (ctx_protocol ex_ctx) (ctx_in_hostns ex_cfg ex_ctx.sk)).2
        (get_netns_cookie ex_ctx.sk) =
      .out ex_backend1 ex_svc_affinity
        (lb4_update_affinity_by_netns ex_maps_affinity_gone ex_svc_affinity 5 11) ∧
    (__sock4_xlate_fwd ex_cfg ex_env_affinity ex_kernel ex_maps_affinity_gone ex_ctx ex_ctx
        false).maps.cilium_lb4_affinity { client_id := 5, rev_nat_id := 7 } = some 11 ∧
    (∃ id, id ≠ 0 ∧ ex_env_affinity.__lb4_lookup_backend id = some ex_backend1 ∧
      ∀ k2 : Kernel,
        __sock4_xlate_fwd_body ex_cfg ex_env_affinity k2
            (__sock4_xlate_fwd ex_cfg ex_env_affinity ex_kernel ex_maps_affinity_gone ex_ctx
              ex_ctx false).maps ex_ctx ex_ctx false =
          .out ex_backend1 ex_svc_affinity
            (__sock4_xlate_fwd ex_cfg ex_env_affinity ex_kernel ex_maps_affinity_gone ex_ctx
              ex_ctx false).maps ∧
        sock4_xlate_fwd_divisor ex_cfg ex_env_affinity
            (__sock4_xlate_fwd ex_cfg ex_env_affinity ex_kernel ex_maps_affinity_gone ex_ctx
              ex_ctx false).maps ex_ctx ex_ctx false = none) :=
  have h := sock4_xlate_fwd_affinity_reselect ex_cfg ex_env_affinity ex_kernel
    ex_maps_affinity_gone ex_ctx ex_ctx false ex_svc_affinity (by decide) (by decide)
    (by decide) (by decide) (by decide) (by decide) (by decide) (by decide) (by decide)
    (by decide) (by decide) (by decide)
  have hs : __sock4_xlate_fwd_slot ex_env_affinity ex_kernel ex_maps_affinity_gone ex_ctx
      ex_svc_affinity
      (sock4_lookup_with_wildcard ex_cfg ex_env_affinity (sock4_xlate_fwd_key ex_cfg ex_ctx)
        (ctx_protocol ex_ctx) (ctx_in_hostns ex_cfg ex_ctx.sk)).2
      (get_netns_cookie ex_ctx.sk) =
    .out ex_backend1 ex_svc_affinity
      (lb4_update_affinity_by_netns ex_maps_affinity_gone ex_svc_affinity 5 11) := rfl
  ⟨h.1, hs, by decide,
    match h.2.2 ex_backend1 ex_svc_affinity _ hs with
    | ⟨id, h0, hb, _, _, hsame⟩ => ⟨id, h0, hb, hsame⟩⟩

/-! ## The stale affinity entry -/

theorem sock4_fwd_selected_affinity_kept (maps : Maps) (svc : lb4_service) (client_cookie : Nat)
    (backend : Option lb4_backend) (backend_id : Nat) (bfa : Bool) (B : lb4_backend)
    (s : lb4_service) (m : Maps)
    (h : __sock4_xlate_fwd_selected maps svc client_cookie backend backend_id bfa = .out B s m)
    (key : lb_affinity_key) (v : Nat) (hv : maps.cilium_lb4_affinity key = some v) :
    ∃ v2, m.cilium_lb4_affinity key = some v2 := by
  unfold __sock4_xlate_fwd_selected at h
  split at h
  · cases h
  · split at h
    · cases h
      unfold lb4_update_affinity_by_netns
      simp only
      split
      · exact ⟨_, rfl⟩
      · exact ⟨v, hv⟩
    · cases h
      exact ⟨v, hv⟩

theorem sock4_fwd_select_affinity_kept (env : Env) (k : Kernel) (maps : Maps)
    (ctx_full : bpf_sock_addr) (svc : lb4_service) (key : lb4_key) (client_cookie : Nat)
    (B : lb4_backend) (s : lb4_service) (m : Maps)
    (h : __sock4_xlate_fwd_select env k maps ctx_full svc key client_cookie = .out B s m)
    (akey : lb_affinity_key) (v : Nat) (hv : maps.cilium_lb4_affinity akey = some v) :
    ∃ v2, m.cilium_lb4_affinity akey = some v2 := by
  have hslot : ∀ e, __sock4_xlate_fwd_slot env k maps ctx_full svc key client_cookie = e →
      e = .out B s m → ∃ v2, m.cilium_lb4_affinity akey = some v2 := by
    intro e he heq
    rw [heq] at he
    unfold __sock4_xlate_fwd_slot at he
    simp only at he
    split at he
    · cases he
    · exact sock4_fwd_selected_affinity_kept _ _ _ _ _ _ _ _ _ he akey v hv
  unfold __sock4_xlate_fwd_select at h
  simp only at h
  split at h
  · split at h
    · split at h
      · exact sock4_fwd_selected_affinity_kept _ _ _ _ _ _ _ _ _ h akey v hv
      · exact hslot _ rfl h
    · exact hslot _ rfl h
  · exact hslot _ rfl h

/-- No execution of `__sock4_xlate_fwd` removes an entry of the affinity map. -/
theorem sock4_fwd_affinity_kept (cfg : Config) (env : Env) (k : Kernel) (maps : Maps)
    (ctx ctx_full : bpf_sock_addr) (udp_only : Bool) (akey : lb_affinity_key) (v : Nat)
    (hv : maps.cilium_lb4_affinity akey = some v) :
    ∃ v2, (__sock4_xlate_fwd cfg env k maps ctx ctx_full udp_only).maps.cilium_lb4_affinity
      akey = some v2 := by
  cases hb : __sock4_xlate_fwd_body cfg env k maps ctx ctx_full udp_only with
  | ret code =>
    unfold __sock4_xlate_fwd
    rw [hb]
    exact ⟨v, hv⟩
  | out B svc m =>
    rw [sock4_fwd_maps_affinity cfg env k maps ctx ctx_full udp_only B svc m hb]
    unfold __sock4_xlate_fwd_body at hb
    simp only at hb
    split at hb
    · cases hb
    split at hb
    · cases hb
    split at hb
    · cases hb
    split at hb
    · cases hb
    split at hb
    · cases hb
    split at hb
    · cases hb
    split at hb
    · cases hb
    split at hb
    · split at hb
      · cases hb
        exact ⟨v, hv⟩
      · cases hb
    · exact sock4_fwd_select_affinity_kept _ _ _ _ _ _ _ _ _ _ hb akey v hv

/-- C23: the stale affinity entry stays. No execution of `__sock4_xlate_fwd` removes an entry
of the affinity map: the branch of lines 371-378, taken when the backend named by the
client's entry has no record, only sets the local `backend_id` to `0`. So for a resolved
service (with `count != 0`, neither punt-proxy nor L7, passing the skip policy and the
local-redirect check; the affinity flag set, as on the example node, or not) whose affinity
entry for the client names a backend id without a record, when the fresh selection fails `__sock4_xlate_fwd` returns `-EHOSTUNREACH` with the event and
every map unchanged; the entry is still there, and the same request again, whatever the
kernel draws, finds it, reaches the slot computation and runs the fresh selection once
more. -/
theorem sock4_xlate_fwd_stale_affinity_kept (cfg : Config) (env : Env) (k : Kernel)
    (maps : Maps) (ctx ctx_full : bpf_sock_addr) (udp_only : Bool) (svc : lb4_service)
    (hhost : ¬ (cfg.ENABLE_SOCKET_LB_HOST_ONLY = true ∧ ctx_in_hostns cfg ctx_full.sk = false))
    (hproto : udp_only = true ∨ sock_proto_enabled (ctx_protocol ctx) = true)
    (hsvc : (sock4_lookup_with_wildcard cfg env (sock4_xlate_fwd_key cfg ctx) (ctx_protocol ctx)
      (ctx_in_hostns cfg ctx_full.sk)).1 = some svc)
    (hcount : svc.count ≠ 0)
    (hpunt : lb4_svc_is_l7_punt_proxy svc = false)
    (hl7 : lb4_svc_is_l7_loadbalancer svc = false)
    (hskip : sock4_skip_xlate cfg env svc ctx.user_ip4 = false)
    (hlrp : ¬ (cfg.ENABLE_LOCAL_REDIRECT_POLICY = true ∧ lb4_svc_is_localredirect svc = true ∧
      env.lb4_skip_xlate_from_ctx_to_svc (get_netns_cookie ctx_full.sk) ctx.user_ip4
        (ctx_dst_port ctx) = true))
    (hid : lb4_affinity_backend_id_by_netns maps svc (get_netns_cookie ctx_full.sk) ≠ 0)
    (hgone : env.__lb4_lookup_backend
      (lb4_affinity_backend_id_by_netns maps svc (get_netns_cookie ctx_full.sk)) = none)
    (hfail : ∀ k1, ∃ code, __sock4_xlate_fwd_slot env k1 maps ctx_full svc
      (sock4_lookup_with_wildcard cfg env (sock4_xlate_fwd_key cfg ctx) (ctx_protocol ctx)
        (ctx_in_hostns cfg ctx_full.sk)).2 (get_netns_cookie ctx_full.sk) = .ret code) :
    (∀ (akey : lb_affinity_key) (v : Nat), maps.cilium_lb4_affinity akey = some v →
      ∃ v2, (__sock4_xlate_fwd cfg env k maps ctx ctx_full udp_only).maps.cilium_lb4_affinity
        akey = some v2) ∧
    __sock4_xlate_fwd cfg env k maps ctx ctx_full udp_only =
      { ret := -EHOSTUNREACH, ctx := ctx, maps := maps } ∧
    (__sock4_xlate_fwd cfg env k maps ctx ctx_full udp_only).maps.cilium_lb4_affinity
        { client_id := get_netns_cookie ctx_full.sk, rev_nat_id := svc.rev_nat_index } =
      some (lb4_affinity_backend_id_by_netns maps svc (get_netns_cookie ctx_full.sk)) ∧
    (∀ k2 : Kernel,
      sock4_xlate_fwd_divisor cfg env
          (__sock4_xlate_fwd cfg env k maps ctx ctx_full udp_only).maps ctx ctx_full udp_only =
        some svc.count ∧
      __sock4_xlate_fwd_body cfg env k2
          (__sock4_xlate_fwd cfg env k maps ctx ctx_full udp_only).maps ctx ctx_full udp_only =
        __sock4_xlate_fwd_slot env k2
          (__sock4_xlate_fwd cfg env k maps ctx ctx_full udp_only).maps ctx_full svc
          (sock4_lookup_with_wildcard cfg env (sock4_xlate_fwd_key cfg ctx) (ctx_protocol ctx)
            (ctx_in_hostns cfg ctx_full.sk)).2 (get_netns_cookie ctx_full.sk) ∧
      __sock4_xlate_fwd cfg env k2
          (__sock4_xlate_fwd cfg env k maps ctx ctx_full udp_only).maps ctx ctx_full udp_only =
        { ret := -EHOSTUNREACH, ctx := ctx, maps := maps }) := by
  have hbody : ∀ k1, __sock4_xlate_fwd_body cfg env k1 maps ctx ctx_full udp_only =
      __sock4_xlate_fwd_slot env k1 maps ctx_full svc
        (sock4_lookup_with_wildcard cfg env (sock4_xlate_fwd_key cfg ctx) (ctx_protocol ctx)
          (ctx_in_hostns cfg ctx_full.sk)).2 (get_netns_cookie ctx_full.sk) := by
    intro k1
    rw [sock4_fwd_body_resolved cfg env k1 maps ctx ctx_full udp_only svc hhost hproto hsvc,
      if_neg (by simp [hcount]), if_neg (by simp [hpunt]), if_neg (by simp [hskip]), if_neg hlrp,
      if_neg (by simp [hl7]),
      sock4_fwd_select_fresh env k1 maps ctx_full svc _ _ (Or.inr (Or.inr hgone))]
  have hfwd : ∀ k1, __sock4_xlate_fwd cfg env k1 maps ctx ctx_full udp_only =
      { ret := -EHOSTUNREACH, ctx := ctx, maps := maps } := by
    intro k1
    obtain ⟨code, hc⟩ := hfail k1
    have hcode := sock4_fwd_slot_ret env k1 maps ctx_full svc _ _ code hc
    unfold __sock4_xlate_fwd
    rw [hbody k1, hc, hcode]
  have hdiv : sock4_xlate_fwd_divisor cfg env maps ctx ctx_full udp_only = some svc.count := by
    rw [sock4_fwd_divisor_resolved cfg env maps ctx ctx_full udp_only svc hhost hproto hsvc,
      if_neg (by simp [hcount]), if_neg (by simp [hpunt]), if_neg (by simp [hskip]), if_neg hlrp,
      if_neg (by simp [hl7]), if_neg (by simp [hgone])]
  refine ⟨fun akey v hv => sock4_fwd_affinity_kept cfg env k maps ctx ctx_full udp_only akey v hv,
    hfwd k, ?_, ?_⟩
  · rw [hfwd k]
    simp only
    unfold lb4_affinity_backend_id_by_netns at hid ⊢
    cases he : maps.cilium_lb4_affinity
      { client_id := get_netns_cookie ctx_full.sk, rev_nat_id := svc.rev_nat_index } with
    | none =>
      rw [he] at hid
      exact absurd rfl hid
    | some x => rfl
  · intro k2
    rw [hfwd k]
    exact ⟨hdiv, hbody k2, hfwd k2⟩

theorem sock4_xlate_fwd_stale_affinity_kept_witness :
    lb4_svc_is_affinity ex_svc_affinity = true ∧
    lb4_affinity_backend_id_by_netns ex_maps_affinity_gone ex_svc_affinity 5 = 99 ∧
    ex_env_affinity_noslot.__lb4_lookup_backend 99 = none ∧
    __sock4_xlate_fwd ex_cfg ex_env_affinity_noslot ex_kernel ex_maps_affinity_gone ex_ctx ex_ctx
        false =
      { ret := -EHOSTUNREACH, ctx := ex_ctx, maps := ex_maps_affinity_gone } ∧
    (__sock4_xlate_fwd ex_cfg ex_env_affinity_noslot ex_kernel ex_maps_affinity_gone ex_ctx
        ex_ctx false).maps.cilium_lb4_affinity { client_id := 5, rev_nat_id := 7 } = some 99 ∧
    sock4_xlate_fwd_divisor ex_cfg ex_env_affinity_noslot
        (__sock4_xlate_fwd ex_cfg ex_env_affinity_noslot ex_kernel ex_maps_affinity_gone ex_ctx
          ex_ctx false).maps ex_ctx ex_ctx false = some 2 :=
  have h := sock4_xlate_fwd_stale_affinity_kept ex_cfg ex_env_affinity_noslot ex_kernel
    ex_maps_affinity_gone ex_ctx ex_ctx false ex_svc_affinity (by decide) (by decide)
    (by decide) (by decide) (by decide) (by decide) (by decide) (by decide) (by decide)
    (by decide) (fun _ => ⟨-EHOSTUNREACH, rfl⟩)
  ⟨by decide, by decide, by decide, h.2.1, h.2.2.1, (h.2.2.2 ex_kernel).1⟩

/-! ## Dual-stack round trip -/

theorem is_v4_in_v6_build (cfg : Config) (v4 : Nat) :
    is_v4_in_v6 cfg (build_v4_in_v6 cfg v4) = true := by
  simp [is_v4_in_v6, build_v4_in_v6]

theorem build_v4_in_v6_of_mapped (cfg : Config) (a : v6addr) (h : is_v4_in_v6 cfg a = true) :
    build_v4_in_v6 cfg a.p4 = a := by
  cases a with
  | mk p1 p2 p3 p4 =>
    simp only [is_v4_in_v6, Bool.and_eq_true, beq_iff_eq] at h
    simp [build_v4_in_v6, h.1.1, h.1.2, h.2]

/-- An execution of the body of `__sock4_xlate_fwd` that reaches `out` has passed the two
gates of lines 280-284. -/
theorem sock4_fwd_body_out_gates (cfg : Config) (env : Env) (k : Kernel) (maps : Maps)
    (ctx ctx_full : bpf_sock_addr) (udp_only : Bool) (B : lb4_backend) (svc : lb4_service)
    (m : Maps)
    (h : __sock4_xlate_fwd_body cfg env k maps ctx ctx_full udp_only = .out B svc m) :
    ¬ (cfg.ENABLE_SOCKET_LB_HOST_ONLY = true ∧ ¬ ctx_in_hostns cfg ctx_full.sk = true) ∧
    ¬ (¬ udp_only = true ∧ ¬ sock_proto_enabled (ctx_protocol ctx) = true) := by
  unfold __sock4_xlate_fwd_body at h
  simp only at h
  split at h
  · cases h
  rename_i h1
  split at h
  · cases h
  rename_i h2
  exact ⟨h1, h2⟩

/-- The reverse translation for a peer `B` on a socket, run on maps in which the forward
translation of the event `ctx` has recorded its entry for (socket, `B`): it returns `0` and
sets the destination to the address and the 16-bit port of `ctx`. -/
theorem sock4_xlate_rev_recorded (cfg : Config) (env : Env) (maps : Maps)
    (ctx ctx_full rctx rctx_full : bpf_sock_addr) (B : lb4_backend) (svc : lb4_service)
    (hsvc : (sock4_lookup_with_wildcard cfg env (sock4_xlate_fwd_key cfg ctx) (ctx_protocol ctx)
      (ctx_in_hostns cfg ctx_full.sk)).1 = some svc)
    (hcnt : ¬ (svc.count = 0 ∧ ¬ lb4_svc_is_l7_loadbalancer svc = true))
    (hentry : maps.cilium_lb4_reverse_sk
        { cookie := sock_local_cookie ctx_full, address := B.address, port := B.port } =
      some { address := (sock4_xlate_fwd_key cfg ctx).address,
             port := (sock4_xlate_fwd_key cfg ctx).dport, rev_nat_index := svc.rev_nat_index })
    (hcookie : sock_local_cookie rctx_full = sock_local_cookie ctx_full)
    (hns : ctx_in_hostns cfg rctx_full.sk = ctx_in_hostns cfg ctx_full.sk)
    (hproto : ctx_protocol rctx = ctx_protocol ctx)
    (hip : rctx.user_ip4 = B.address)
    (hrport : ctx_dst_port rctx = B.port) :
    __sock4_xlate_rev cfg env maps rctx rctx_full =
      { ret := 0, ctx := { rctx with user_ip4 := ctx.user_ip4, user_port := ctx_dst_port ctx },
        maps := maps } := by
  have hkey : sock4_xlate_rev_tuple rctx rctx_full =
      ⟨sock_local_cookie ctx_full, B.address, B.port⟩ := by
    simp [sock4_xlate_rev_tuple, hcookie, hip, hrport]
  have hsk2 : sock4_xlate_rev_key cfg rctx ⟨(sock4_xlate_fwd_key cfg ctx).address,
      (sock4_xlate_fwd_key cfg ctx).dport, svc.rev_nat_index⟩ = sock4_xlate_fwd_key cfg ctx := by
    simp [sock4_xlate_rev_key, sock4_xlate_fwd_key, hproto]
  rw [sock4_xlate_rev_present cfg env maps rctx rctx_full _ (by rw [hkey]; exact hentry),
    if_pos]
  · simp [sock4_xlate_fwd_key]
  · refine ⟨svc, ?_, rfl, ?_⟩
    · rw [hsk2, hproto, hns]
      exact hsvc
    · by_cases hc : svc.count = 0
      · exact Or.inr (by
          by_contra hl
          exact hcnt ⟨hc, hl⟩)
      · exact Or.inl hc

/-- C24: dual-stack round trip. In a build with IPv4, for a v6 event whose destination is
the IPv4-mapped address `::ffff:A` with port `P`, when no IPv6 service is resolved for it and
`__sock6_xlate_fwd` returns `0` with the IPv4 translation behind `sock6_xlate_v4_in_v6` having
selected the backend `B`, the destination of the event is `::ffff:B.address` with port
`B.port`; and `__sock6_xlate_rev`, run on the resulting maps for the same socket (same cookie,
namespace and protocol) with destination `::ffff:B.address` and port `B.port`, provided the
IPv6 reverse-NAT map has no entry under (socket, that address, that port), returns `0` and
sets the destination to `::ffff:A` with the 16-bit port `P`. -/
theorem sock6_xlate_fwd_rev_round_trip (cfg : Config) (env : Env) (k : Kernel) (maps : Maps)
    (ctx : bpf_sock_addr) (udp_only : Bool) (B : lb4_backend) (svc : lb4_service) (m : Maps)
    (rctx : bpf_sock_addr)
    (hv4 : cfg.ENABLE_IPV4 = true)
    (hmapped : is_v4_in_v6 cfg ctx.user_ip6 = true)
    (hmiss : cfg.ENABLE_IPV6 = true →
      (sock6_lookup_with_wildcard cfg env (sock6_xlate_fwd_key cfg ctx) (ctx_protocol ctx)
        (ctx_in_hostns cfg ctx.sk)).1 = none)
    (hbody : __sock4_xlate_fwd_body cfg env k maps (sock6_fake_ctx ctx (ctx_get_v6_address ctx))
      ctx udp_only = .out B svc m)
    (hret : (__sock6_xlate_fwd cfg env k maps ctx udp_only).ret = 0)
    (hcookie : sock_local_cookie rctx = sock_local_cookie ctx)
    (hns : ctx_in_hostns cfg rctx.sk = ctx_in_hostns cfg ctx.sk)
    (hproto : ctx_protocol rctx = ctx_protocol ctx)
    (hrip : rctx.user_ip6 = build_v4_in_v6 cfg B.address)
    (hrport : ctx_dst_port rctx = B.port)
    (hno6 : cfg.ENABLE_IPV6 = true →
      (__sock6_xlate_fwd cfg env k maps ctx udp_only).maps.cilium_lb6_reverse_sk
        (sock6_xlate_rev_tuple rctx) = none) :
    (__sock6_xlate_fwd cfg env k maps ctx udp_only).ctx.user_ip6 =
      build_v4_in_v6 cfg B.address ∧
    (__sock6_xlate_fwd cfg env k maps ctx udp_only).ctx.user_port = B.port ∧
    (__sock6_xlate_rev cfg env (__sock6_xlate_fwd cfg env k maps ctx udp_only).maps rctx).ret =
      0 ∧
    (__sock6_xlate_rev cfg env (__sock6_xlate_fwd cfg env k maps ctx udp_only).maps
      rctx).ctx.user_ip6 = ctx.user_ip6 ∧
    (__sock6_xlate_rev cfg env (__sock6_xlate_fwd cfg env k maps ctx udp_only).maps
      rctx).ctx.user_port = ctx_dst_port ctx := by
  have hp16 : B.port % 65536 = B.port := by
    rw [← hrport]
    unfold ctx_dst_port
    exact Nat.mod_mod _ _
  have hfp : ctx_protocol (sock6_fake_ctx ctx (ctx_get_v6_address ctx)) = ctx_protocol ctx := by
    simp [ctx_protocol, sock6_fake_ctx]
  obtain ⟨g1, g2⟩ := sock4_fwd_body_out_gates _ _ _ _ _ _ _ _ _ _ hbody
  rw [hfp] at g2
  obtain ⟨hsvc, hcnt, -⟩ := sock4_fwd_body_out _ _ _ _ _ _ _ _ _ _ hbody
  -- the forward translation is the adapter
  have hfwd6 : __sock6_xlate_fwd cfg env k maps ctx udp_only =
      sock6_xlate_v4_in_v6 cfg env k maps ctx udp_only := by
    unfold __sock6_xlate_fwd
    by_cases h6 : cfg.ENABLE_IPV6 = true
    · rw [if_pos h6]
      unfold __sock6_xlate_fwd_body
      simp only
      rw [if_neg g1, if_neg g2, hmiss h6]
    · rw [if_neg h6]
  have hfwd4 : __sock4_xlate_fwd cfg env k maps (sock6_fake_ctx ctx (ctx_get_v6_address ctx))
      ctx udp_only =
      __sock4_xlate_fwd_out k m (sock6_fake_ctx ctx (ctx_get_v6_address ctx)) ctx
        (sock4_xlate_fwd_key cfg (sock6_fake_ctx ctx (ctx_get_v6_address ctx))) B svc := by
    unfold __sock4_xlate_fwd
    rw [hbody]
  have hw : ¬ (sock4_update_revnat k m ctx B
      (sock4_xlate_fwd_key cfg (sock6_fake_ctx ctx (ctx_get_v6_address ctx)))
      svc.rev_nat_index).1 < 0 := by
    intro hneg
    rw [hfwd6] at hret
    unfold sock6_xlate_v4_in_v6 at hret
    rw [if_pos hv4] at hret
    simp only at hret
    rw [if_neg (by simp [ctx_get_v6_address, hmapped]), hfwd4] at hret
    unfold __sock4_xlate_fwd_out at hret
    simp only at hret
    rw [if_pos hneg] at hret
    simp [ENOMEM] at hret
  have hres : __sock6_xlate_fwd cfg env k maps ctx udp_only =
      { ret := 0
        ctx := { ctx with user_ip6 := build_v4_in_v6 cfg B.address, user_port := B.port }
        maps := (sock4_update_revnat k m ctx B
          (sock4_xlate_fwd_key cfg (sock6_fake_ctx ctx (ctx_get_v6_address ctx)))
          svc.rev_nat_index).2 } := by
    rw [hfwd6]
    unfold sock6_xlate_v4_in_v6
    rw [if_pos hv4]
    simp only
    rw [if_neg (by simp [ctx_get_v6_address, hmapped]), hfwd4]
    unfold __sock4_xlate_fwd_out
    simp only
    rw [if_neg hw]
    simp [ctx_set_port, ctx_set_v6_address, hp16]
  have hentry := sock4_update_revnat_lookup k m ctx B
    (sock4_xlate_fwd_key cfg (sock6_fake_ctx ctx (ctx_get_v6_address ctx))) svc.rev_nat_index hw
  rw [hres] at hno6 ⊢
  simp only at hno6 ⊢
  refine ⟨trivial, trivial, ?_⟩
  rw [sock6_xlate_rev_absent cfg env _ rctx hno6]
  unfold sock6_xlate_rev_v4_in_v6
  rw [if_pos hv4]
  simp only
  rw [if_neg (by simp [ctx_get_v6_address, hrip, is_v4_in_v6_build])]
  rw [sock4_xlate_rev_recorded cfg env _ (sock6_fake_ctx ctx (ctx_get_v6_address ctx)) ctx
    (sock6_fake_ctx rctx (ctx_get_v6_address rctx)) rctx B svc hsvc hcnt hentry hcookie hns
    (by
      have e1 : ∀ c a, ctx_protocol (sock6_fake_ctx c a) = ctx_protocol c := by
        intro c a
        simp [ctx_protocol, sock6_fake_ctx]
      rw [e1, e1, hproto])
    (by simp [sock6_fake_ctx, ctx_get_v6_address, hrip, build_v4_in_v6])
    (by
      have : ctx_dst_port (sock6_fake_ctx rctx (ctx_get_v6_address rctx)) = ctx_dst_port rctx := by
        simp [ctx_dst_port, sock6_fake_ctx]
      rw [this, hrport])]
  simp only
  refine ⟨by simp [ENOMEM], ?_, ?_⟩
  · simp only [ctx_set_port, ctx_set_v6_address, sock6_fake_ctx, ctx_get_v6_address]
    exact build_v4_in_v6_of_mapped cfg ctx.user_ip6 hmapped
  · simp [ctx_set_port, ctx_set_v6_address, sock6_fake_ctx, ctx_dst_port]

theorem sock6_xlate_fwd_rev_round_trip_witness :
    (__sock6_xlate_fwd ex_cfg ex_env ex_kernel ex_maps ex_ctx6_mapped false).ctx.user_ip6 =
      build_v4_in_v6 ex_cfg ex_backend1.address ∧
    (__sock6_xlate_fwd ex_cfg ex_env ex_kernel ex_maps ex_ctx6_mapped false).ctx.user_port =
      ex_backend1.port ∧
    (__sock6_xlate_rev ex_cfg ex_env
      (__sock6_xlate_fwd ex_cfg ex_env ex_kernel ex_maps ex_ctx6_mapped false).maps
      ex_ctx6_backend1).ret = 0 ∧
    (__sock6_xlate_rev ex_cfg ex_env
      (__sock6_xlate_fwd ex_cfg ex_env ex_kernel ex_maps ex_ctx6_mapped false).maps
      ex_ctx6_backend1).ctx.user_ip6 = ex_ctx6_mapped.user_ip6 ∧
    (__sock6_xlate_rev ex_cfg ex_env
      (__sock6_xlate_fwd ex_cfg ex_env ex_kernel ex_maps ex_ctx6_mapped false).maps
      ex_ctx6_backend1).ctx.user_port = ctx_dst_port ex_ctx6_mapped :=
  sock6_xlate_fwd_rev_round_trip ex_cfg ex_env ex_kernel ex_maps ex_ctx6_mapped false
    ex_backend1 ex_svc ex_maps ex_ctx6_backend1 rfl (by decide) (fun _ => by decide) rfl
    (by decide) rfl rfl rfl (by decide) rfl (fun _ => rfl)

/-! ## Persistence of the reverse-NAT entry -/

theorem sock4_update_revnat_other (k : Kernel) (maps : Maps) (ctx : bpf_sock_addr)
    (backend : lb4_backend) (orig_key : lb4_key) (rev_nat_id : Nat) (key : ipv4_revnat_tuple)
    (h : key ≠
      { cookie := sock_local_cookie ctx, address := backend.address, port := backend.port }) :
    (sock4_update_revnat k maps ctx backend orig_key rev_nat_id).2.cilium_lb4_reverse_sk key =
      maps.cilium_lb4_reverse_sk key := by
  unfold sock4_update_revnat
  simp only
  split
  · unfold map_update_elem
    split
    · simp only
      rw [if_neg h]
    · rfl
  · rfl

/-- One call of `__sock4_xlate_fwd` keeps the reverse-NAT entry under `key` unless it hands
to `sock4_update_revnat` a record under that key with another value. -/
theorem sock4_fwd_revnat_step (cfg : Config) (maps : Maps) (c : fwd4_call)
    (key : ipv4_revnat_tuple) (val : ipv4_revnat_entry)
    (hentry : maps.cilium_lb4_reverse_sk key = some val)
    (hrec : ∀ r, sock4_xlate_fwd_record cfg maps c = some r → r.1 = key → r.2 = val) :
    (__sock4_xlate_fwd cfg c.env c.k maps c.ctx c.ctx_full c.udp_only).maps.cilium_lb4_reverse_sk
      key = some val := by
  unfold sock4_xlate_fwd_record at hrec
  unfold __sock4_xlate_fwd
  cases hb : __sock4_xlate_fwd_body cfg c.env c.k maps c.ctx c.ctx_full c.udp_only with
  | ret code => exact hentry
  | out B svc m =>
    rw [hb] at hrec
    simp only at hrec
    have hm := (sock4_fwd_body_out cfg c.env c.k maps c.ctx c.ctx_full c.udp_only B svc m hb).2.2
    have hmaps : (__sock4_xlate_fwd_out c.k m c.ctx c.ctx_full (sock4_xlate_fwd_key cfg c.ctx) B
        svc).maps = (sock4_update_revnat c.k m c.ctx_full B (sock4_xlate_fwd_key cfg c.ctx)
          svc.rev_nat_index).2 := by
      unfold __sock4_xlate_fwd_out
      simp only
      split <;> rfl
    simp only
    rw [hmaps]
    by_cases hk : key =
        { cookie := sock_local_cookie c.ctx_full, address := B.address, port := B.port }
    · have hv := hrec _ rfl hk.symm
      simp only at hv
      by_cases hw : (sock4_update_revnat c.k m c.ctx_full B (sock4_xlate_fwd_key cfg c.ctx)
          svc.rev_nat_index).1 < 0
      · rw [sock4_update_revnat_failed c.k m c.ctx_full B _ _ hw, hm]
        exact hentry
      · rw [hk, sock4_update_revnat_lookup c.k m c.ctx_full B _ _ hw, hv]
    · rw [sock4_update_revnat_other c.k m c.ctx_full B _ _ key hk, hm]
      exact hentry

theorem sock4_fwd_revnat_calls (cfg : Config) (key : ipv4_revnat_tuple)
    (val : ipv4_revnat_entry) (calls : List fwd4_call) :
    ∀ maps : Maps, maps.cilium_lb4_reverse_sk key = some val →
      sock4_xlate_fwd_calls_keep cfg key val maps calls = true →
      (sock4_xlate_fwd_calls cfg maps calls).cilium_lb4_reverse_sk key = some val := by
  induction calls with
  | nil =>
    intro maps hentry _
    exact hentry
  | cons c cs ih =>
    intro maps hentry hkeep
    unfold sock4_xlate_fwd_calls_keep at hkeep
    rw [Bool.and_eq_true] at hkeep
    unfold sock4_xlate_fwd_calls
    apply ih _ _ hkeep.2
    apply sock4_fwd_revnat_step cfg maps c key val hentry
    intro r hr hk
    have h1 := hkeep.1
    rw [hr] at h1
    simp only [decide_eq_true_eq] at h1
    exact h1 hk

/-- C21 (amended): the reverse state persists. After a forward translation of the service
`svc` that selected the backend `B` on a socket and returned `0`, the reverse-NAT map holds,
under (socket cookie, `B`), the original address and port of the event and the service's
`rev_nat_index`. For every sequence of further forward translations, on that socket or
another, to any destination, with any tables, none of which hands to `sock4_update_revnat`
another value under that same key, the map still holds that entry afterwards. And
`__sock4_xlate_rev`, for the same socket and the peer `B`, with tables in which the original
endpoint is still resolved to a service with that `rev_nat_index` which is usable
(`count != 0` or L7), returns `0` and sets the destination to the original address and
port. -/
theorem sock4_revnat_entry_persists (cfg : Config) (env : Env) (k : Kernel) (maps : Maps)
    (ctx ctx_full : bpf_sock_addr) (udp_only : Bool) (B : lb4_backend) (svc : lb4_service)
    (m : Maps) (calls : List fwd4_call) (renv : Env) (rctx rctx_full : bpf_sock_addr)
    (hbody : __sock4_xlate_fwd_body cfg env k maps ctx ctx_full udp_only = .out B svc m)
    (hret : (__sock4_xlate_fwd cfg env k maps ctx ctx_full udp_only).ret = 0)
    (hkeep : sock4_xlate_fwd_calls_keep cfg
      { cookie := sock_local_cookie ctx_full, address := B.address, port := B.port }
      { address := ctx.user_ip4, port := ctx_dst_port ctx, rev_nat_index := svc.rev_nat_index }
      (__sock4_xlate_fwd cfg env k maps ctx ctx_full udp_only).maps calls = true)
    (hsvc : ∃ rsvc, (sock4_lookup_with_wildcard cfg renv (sock4_xlate_fwd_key cfg ctx)
        (ctx_protocol ctx) (ctx_in_hostns cfg ctx_full.sk)).1 = some rsvc ∧
      rsvc.rev_nat_index = svc.rev_nat_index ∧
      (rsvc.count ≠ 0 ∨ lb4_svc_is_l7_loadbalancer rsvc = true))
    (hcookie : sock_local_cookie rctx_full = sock_local_cookie ctx_full)
    (hns : ctx_in_hostns cfg rctx_full.sk = ctx_in_hostns cfg ctx_full.sk)
    (hproto : ctx_protocol rctx = ctx_protocol ctx)
    (hip : rctx.user_ip4 = B.address)
    (hrport : ctx_dst_port rctx = B.port) :
    (__sock4_xlate_fwd cfg env k maps ctx ctx_full udp_only).maps.cilium_lb4_reverse_sk
        { cookie := sock_local_cookie ctx_full, address := B.address, port := B.port } =
      some { address := ctx.user_ip4, port := ctx_dst_port ctx,
             rev_nat_index := svc.rev_nat_index } ∧
    (sock4_xlate_fwd_calls cfg (__sock4_xlate_fwd cfg env k maps ctx ctx_full udp_only).maps
        calls).cilium_lb4_reverse_sk
        { cookie := sock_local_cookie ctx_full, address := B.address, port := B.port } =
      some { address := ctx.user_ip4, port := ctx_dst_port ctx,
             rev_nat_index := svc.rev_nat_index } ∧
    __sock4_xlate_rev cfg renv
        (sock4_xlate_fwd_calls cfg (__sock4_xlate_fwd cfg env k maps ctx ctx_full udp_only).maps
          calls) rctx rctx_full =
      { ret := 0, ctx := { rctx with user_ip4 := ctx.user_ip4, user_port := ctx_dst_port ctx },
        maps := sock4_xlate_fwd_calls cfg
          (__sock4_xlate_fwd cfg env k maps ctx ctx_full udp_only).maps calls } := by
  have hfirst : (__sock4_xlate_fwd cfg env k maps ctx ctx_full udp_only).maps.cilium_lb4_reverse_sk
      { cookie := sock_local_cookie ctx_full, address := B.address, port := B.port } =
      some { address := ctx.user_ip4, port := ctx_dst_port ctx,
             rev_nat_index := svc.rev_nat_index } := by
    unfold __sock4_xlate_fwd at hret ⊢
    rw [hbody] at hret ⊢
    unfold __sock4_xlate_fwd_out at hret ⊢
    simp only at hret ⊢
    by_cases hw : (sock4_update_revnat k m ctx_full B (sock4_xlate_fwd_key cfg ctx)
        svc.rev_nat_index).1 < 0
    · rw [if_pos hw] at hret
      simp [ENOMEM] at hret
    · rw [if_neg hw]
      exact sock4_update_revnat_lookup k m ctx_full B (sock4_xlate_fwd_key cfg ctx)
        svc.rev_nat_index hw
  have hlast := sock4_fwd_revnat_calls cfg _ _ calls _ hfirst hkeep
  refine ⟨hfirst, hlast, ?_⟩
  have hkey : sock4_xlate_rev_tuple rctx rctx_full =
      ⟨sock_local_cookie ctx_full, B.address, B.port⟩ := by
    simp [sock4_xlate_rev_tuple, hcookie, hip, hrport]
  have hsk2 : sock4_xlate_rev_key cfg rctx ⟨ctx.user_ip4, ctx_dst_port ctx, svc.rev_nat_index⟩ =
      sock4_xlate_fwd_key cfg ctx := by
    simp [sock4_xlate_rev_key, sock4_xlate_fwd_key, hproto]
  rw [sock4_xlate_rev_present cfg renv _ rctx rctx_full _ (by rw [hkey]; exact hlast), if_pos]
  obtain ⟨rsvc, h1, h2, h3⟩ := hsvc
  refine ⟨rsvc, ?_, h2, h3⟩
  rw [hsk2, hproto, hns]
  exact h1

theorem sock4_revnat_entry_persists_witness :
    (sock4_xlate_fwd_calls ex_cfg
        (__sock4_xlate_fwd ex_cfg ex_env_shared ex_kernel ex_maps ex_ctx ex_ctx true).maps
        ex_calls).cilium_lb4_reverse_sk
        { cookie := 4242, address := ex_backend1.address, port := ex_backend1.port } =
      some { address := ex_vip, port := ex_vport, rev_nat_index := 7 } ∧
    (__sock4_xlate_rev ex_cfg ex_env_shared
        (sock4_xlate_fwd_calls ex_cfg
          (__sock4_xlate_fwd ex_cfg ex_env_shared ex_kernel ex_maps ex_ctx ex_ctx true).maps
          ex_calls) ex_ctx_backend1 ex_ctx).ret = 0 ∧
    (__sock4_xlate_rev ex_cfg ex_env_shared
        (sock4_xlate_fwd_calls ex_cfg
          (__sock4_xlate_fwd ex_cfg ex_env_shared ex_kernel ex_maps ex_ctx ex_ctx true).maps
          ex_calls) ex_ctx_backend1 ex_ctx).ctx.user_ip4 = ex_vip :=
  have h := sock4_revnat_entry_persists ex_cfg ex_env_shared ex_kernel ex_maps ex_ctx ex_ctx
    true ex_backend1 ex_svc ex_maps ex_calls ex_env_shared ex_ctx_backend1 ex_ctx rfl
    (by decide) (by decide) ⟨ex_svc, by decide, rfl, Or.inl (by decide)⟩ rfl rfl rfl rfl rfl
  ⟨h.2.1, congrArg xlate_result.ret h.2.2, congrArg (fun r => r.ctx.user_ip4) h.2.2⟩

/-- C21 (as stated) fails. (1) On the node `ex_env_shared` the socket `ex_sk` sends to
`10.96.0.10:80`, which is translated to the backend `10.0.1.5:8080`, and then to
`10.96.0.20:80`, which is translated to the same backend: the second call overwrites the
entry under (socket, `10.0.1.5:8080`), and although `10.96.0.10:80` is still resolved to the
same service with `rev_nat_index` 7, the reverse translation for that socket and peer now
gives `10.96.0.20`. (2) After the first call alone, with the service still present under the
same `rev_nat_index` but with no backend left (`count = 0`), the reverse translation returns
`-ENOENT` and removes the entry. -/
theorem sock4_revnat_entry_overwritten :
    (__sock4_xlate_fwd ex_cfg ex_env_shared ex_kernel ex_maps ex_ctx ex_ctx true).ret = 0 ∧
    (__sock4_xlate_fwd ex_cfg ex_env_shared ex_kernel ex_maps ex_ctx ex_ctx true).ctx =
      ex_ctx_backend1 ∧
    (__sock4_xlate_fwd ex_cfg ex_env_shared ex_kernel ex_maps ex_ctx ex_ctx
        true).maps.cilium_lb4_reverse_sk
        { cookie := 4242, address := ex_backend1.address, port := ex_backend1.port } =
      some { address := ex_vip, port := ex_vport, rev_nat_index := 7 } ∧
    (__sock4_xlate_fwd ex_cfg ex_env_shared ex_kernel
      (__sock4_xlate_fwd ex_cfg ex_env_shared ex_kernel ex_maps ex_ctx ex_ctx true).maps
      ex_ctx_vip2 ex_ctx_vip2 true).ret = 0 ∧
    (__sock4_xlate_fwd ex_cfg ex_env_shared ex_kernel
      (__sock4_xlate_fwd ex_cfg ex_env_shared ex_kernel ex_maps ex_ctx ex_ctx true).maps
      ex_ctx_vip2 ex_ctx_vip2 true).ctx = ex_ctx_backend1 ∧
    (sock4_lookup_with_wildcard ex_cfg ex_env_shared (sock4_xlate_fwd_key ex_cfg ex_ctx)
      (ctx_protocol ex_ctx) (ctx_in_hostns ex_cfg ex_ctx.sk)).1 = some ex_svc ∧
    (__sock4_xlate_fwd ex_cfg ex_env_shared ex_kernel
      (__sock4_xlate_fwd ex_cfg ex_env_shared ex_kernel ex_maps ex_ctx ex_ctx true).maps
      ex_ctx_vip2 ex_ctx_vip2 true).maps.cilium_lb4_reverse_sk
        { cookie := 4242, address := ex_backend1.address, port := ex_backend1.port } =
      some { address := ex_vip2, port := ex_vport, rev_nat_index := 8 } ∧
    (__sock4_xlate_rev ex_cfg ex_env_shared
      (__sock4_xlate_fwd ex_cfg ex_env_shared ex_kernel
        (__sock4_xlate_fwd ex_cfg ex_env_shared ex_kernel ex_maps ex_ctx ex_ctx true).maps
        ex_ctx_vip2 ex_ctx_vip2 true).maps ex_ctx_backend1 ex_ctx).ret = 0 ∧
    (__sock4_xlate_rev ex_cfg ex_env_shared
      (__sock4_xlate_fwd ex_cfg ex_env_shared ex_kernel
        (__sock4_xlate_fwd ex_cfg ex_env_shared ex_kernel ex_maps ex_ctx ex_ctx true).maps
        ex_ctx_vip2 ex_ctx_vip2 true).maps ex_ctx_backend1 ex_ctx).ctx.user_ip4 = ex_vip2 ∧
    ex_vip2 ≠ ex_vip ∧
    (sock4_lookup_with_wildcard ex_cfg ex_env_drained (sock4_xlate_fwd_key ex_cfg ex_ctx)
      (ctx_protocol ex_ctx) (ctx_in_hostns ex_cfg ex_ctx.sk)).1 = some ex_svc_drained ∧
    ex_svc_drained.rev_nat_index = ex_svc.rev_nat_index ∧
    (__sock4_xlate_rev ex_cfg ex_env_drained
      (__sock4_xlate_fwd ex_cfg ex_env_shared ex_kernel ex_maps ex_ctx ex_ctx true).maps
      ex_ctx_backend1 ex_ctx).ret = -ENOENT ∧
    (__sock4_xlate_rev ex_cfg ex_env_drained
      (__sock4_xlate_fwd ex_cfg ex_env_shared ex_kernel ex_maps ex_ctx ex_ctx true).maps
      ex_ctx_backend1 ex_ctx).maps.cilium_lb4_reverse_sk
        { cookie := 4242, address := ex_backend1.address, port := ex_backend1.port } = none := by
  refine ⟨by decide, by decide, by decide, by decide, by decide, by decide, by decide,
    by decide, by decide, by decide, by decide, by decide, by decide, by decide⟩

end BpfSock
